import Mathlib

/-!
# NV5 register core: a shallow embedding and its verified properties

The definitions below follow the C sources of the NV5 device one function at a
time and keep the names of the sources.

Conventions of the embedding.

* The global device record pointed to by the C variable nv5 is passed and
  returned explicitly as a value of type `nv5_t`.  A function that returns a
  value and also mutates the device returns a pair (value, device).
* C unsigned 32-bit quantities are natural numbers holding the bit pattern.
  The fields declared int32_t (the PMC words) also hold their 32-bit pattern.
  Where C arithmetic can leave the 32-bit range (left shifts, subtraction) the
  reduction modulo 2^32 is written out.
* A float or double of the sources is the rational number it denotes.  Each
  floating-point conversion, multiplication and division is the exact
  operation followed by rounding to nearest, ties to even, with a 24-bit
  significand for float (`float32`) and a 53-bit one for double (`float64`),
  as IEEE 754 arithmetic evaluated in the type of the operands does.  The
  exponent range is not bounded, and a division by zero gives 0.
* Calls of nv_log only produce diagnostic text and are left out, together
  with the friendly_name member of a register descriptor, which is only ever
  used for that text.
* The functions nv5_pgraph_read, nv5_pgraph_write and
  nv5_pramin_arbitrate_write are called by the arbiter but defined in none of
  the source files at hand.  The functions nv5_pci_read, nv5_pci_write,
  nv5_svga_in and nv5_svga_out are defined in nv5_core.c on top of host
  headers and host collaborators that are not at hand (PCI register numbers,
  memory mappings, the SVGA core), and the SVGA pair calls back into the MMIO
  functions through the real-mode access shifter.  All of them are fields of
  `nv5_env`: the arbiter and the access composer take them as arguments, and
  every result below that is stated for an environment e holds for all
  behaviours of those fields.
* The SVGA pair is also embedded, as `nv5_svga_in` and `nv5_svga_out`, on top
  of the host collaborators, which are further fields of `nv5_env`.  In the
  source the pair, the shifter and the access composer call each other in a
  cycle (nv5_mmio_write32, nv5_svga_out, nv5_pbus_rma_write, nv5_mmio_write32
  again, and likewise for reads) that need not end.  Here each function of
  the cycle takes its callee as an argument, and `nv5_env_svga e n` is the
  environment whose SVGA fields are the embedded pair with the cycle followed
  n times.
-/

namespace NV5

/-! ## Constants of vid_nv5.h -/

def NV5_MMIO_SIZE : Nat := 0x1000000

def NV5_PMC_START : Nat := 0x0
def NV5_PMC_BOOT : Nat := 0x0
def NV5_PMC_INTERRUPT_STATUS : Nat := 0x100
def NV5_PMC_INTERRUPT_PMEDIA : Nat := 4
def NV5_PMC_INTERRUPT_PMEDIA_PENDING : Nat := 0x1
def NV5_PMC_INTERRUPT_PFIFO : Nat := 8
def NV5_PMC_INTERRUPT_PFIFO_PENDING : Nat := 0x1
def NV5_PMC_INTERRUPT_PGRAPH0 : Nat := 12
def NV5_PMC_INTERRUPT_PGRAPH0_PENDING : Nat := 0x1
def NV5_PMC_INTERRUPT_PGRAPH1 : Nat := 13
def NV5_PMC_INTERRUPT_PGRAPH1_PENDING : Nat := 0x1
def NV5_PMC_INTERRUPT_PVIDEO : Nat := 16
def NV5_PMC_INTERRUPT_PVIDEO_PENDING : Nat := 0x1
def NV5_PMC_INTERRUPT_PTIMER : Nat := 20
def NV5_PMC_INTERRUPT_PTIMER_PENDING : Nat := 0x1
def NV5_PMC_INTERRUPT_PFB : Nat := 24
def NV5_PMC_INTERRUPT_PFB_PENDING : Nat := 0x1
def NV5_PMC_INTERRUPT_PBUS : Nat := 28
def NV5_PMC_INTERRUPT_PBUS_PENDING : Nat := 0x1
def NV5_PMC_INTERRUPT_SOFTWARE : Nat := 31
def NV5_PMC_INTERRUPT_SOFTWARE_PENDING : Nat := 0x1
def NV5_PMC_INTERRUPT_ENABLE : Nat := 0x140
def NV5_PMC_INTERRUPT_ENABLE_HARDWARE : Nat := 0x1
def NV5_PMC_INTERRUPT_ENABLE_SOFTWARE : Nat := 0x2
def NV5_PMC_ENABLE : Nat := 0x200
def NV5_PMC_ENABLE_PFIFO : Nat := 8
def NV5_PMC_ENABLE_PFIFO_ENABLED : Nat := 0x1
def NV5_PMC_END : Nat := 0xfff

def NV5_CIO_START : Nat := 0x3b0
def NV5_CIO_END : Nat := 0x3df

def NV5_PBUS_START : Nat := 0x1000
def NV5_PBUS_INTR : Nat := 0x1100
def NV5_PBUS_INTR_EN : Nat := 0x1140
def NV5_PBUS_PCI_START : Nat := 0x1800
def NV5_PBUS_PCI_END : Nat := 0x18FF
def NV5_PBUS_END : Nat := 0x1FFF

def NV5_PFIFO_START : Nat := 0x2000
def NV5_PFIFO_INTR : Nat := 0x2100
def NV5_PFIFO_INTR_EN : Nat := 0x2140
def NV5_PFIFO_CONFIG_RAMHT : Nat := 0x2210
def NV5_PFIFO_CONFIG_RAMFC : Nat := 0x2214
def NV5_PFIFO_CONFIG_RAMRO : Nat := 0x2218
def NV5_PFIFO_END : Nat := 0x3FFF

def NV5_PRM_START : Nat := 0x4000
def NV5_PRM_END : Nat := 0x4FFF
def NV5_PRMIO_START : Nat := 0x7000
def NV5_PRMIO_END : Nat := 0x7FFF

def NV5_PTIMER_START : Nat := 0x9000
def NV5_PTIMER_INTR : Nat := 0x9100
def NV5_PTIMER_INTR_ALARM : Nat := 0
def NV5_PTIMER_INTR_EN : Nat := 0x9140
def NV5_PTIMER_NUMERATOR : Nat := 0x9200
def NV5_PTIMER_DENOMINATOR : Nat := 0x9210
def NV5_PTIMER_TIME_0_NSEC : Nat := 0x9400
def NV5_PTIMER_TIME_1_NSEC : Nat := 0x9410
def NV5_PTIMER_ALARM_NSEC : Nat := 0x9420
def NV5_PTIMER_END : Nat := 0x9FFF

def NV5_VGA_START : Nat := 0xC0000
def NV5_PRMVIO_START : Nat := NV5_VGA_START
def NV5_PRMVIO_END : Nat := 0xC0400

def NV5_PFB_START : Nat := 0x100000
def NV5_PFB_BOOT : Nat := 0x100000
def NV5_PFB_CONFIG_0 : Nat := 0x100200
def NV5_PFB_CONFIG_1 : Nat := 0x100204
def NV5_PFB_END : Nat := 0x100FFF

def NV5_PEXTDEV_START : Nat := 0x101000
def NV5_PSTRAPS : Nat := 0x101000
def NV5_PEXTDEV_END : Nat := 0x101FFF

def NV5_PROM_START : Nat := 0x110000
def NV5_PROM_END : Nat := 0x11FFFF
def NV5_PALT_START : Nat := 0x120000
def NV5_PALT_END : Nat := 0x12FFFF

def NV5_PME_START : Nat := 0x200000
def NV5_PME_INTR : Nat := 0x200100
def NV5_PME_INTR_EN : Nat := 0x200140
def NV5_PME_END : Nat := 0x200FFF

def NV5_PGRAPH_START : Nat := 0x400000
def NV5_PGRAPH_REAL_END : Nat := 0x5C1FFF

def NV5_PRMCIO_START : Nat := 0x601000
def NV5_PRMCIO_CRTC_REGISTER_CUR_INDEX_MONO : Nat := 0x6013B4
def NV5_PRMCIO_CRTC_REGISTER_CUR_MONO : Nat := 0x6013B5
def NV5_PRMCIO_CRTC_REGISTER_CUR_INDEX_COLOR : Nat := 0x6013D4
def NV5_PRMCIO_CRTC_REGISTER_CUR_COLOR : Nat := 0x6013D5
def NV5_PRMCIO_END : Nat := 0x601FFF

def NV5_PVIDEO_START : Nat := 0x680000
def NV5_PVIDEO_INTR : Nat := 0x680100
def NV5_PVIDEO_INTR_EN : Nat := 0x680140
def NV5_PVIDEO_END : Nat := 0x6802FF

def NV5_PRAMDAC_START : Nat := 0x680300
def NV5_PRAMDAC_CLOCK_MEMORY : Nat := 0x680504
def NV5_PRAMDAC_CLOCK_PIXEL : Nat := 0x680508
def NV5_PRAMDAC_COEFF_SELECT : Nat := 0x68050C
def NV5_PRAMDAC_GENERAL_CONTROL : Nat := 0x680600
def NV5_PRAMDAC_VSERR_WIDTH : Nat := 0x680700
def NV5_PRAMDAC_VEQU_END : Nat := 0x680704
def NV5_PRAMDAC_VBBLANK_END : Nat := 0x680708
def NV5_PRAMDAC_VBLANK_END : Nat := 0x68070C
def NV5_PRAMDAC_VBLANK_START : Nat := 0x680710
def NV5_PRAMDAC_VBBLANK_START : Nat := 0x680714
def NV5_PRAMDAC_VEQU_START : Nat := 0x680718
def NV5_PRAMDAC_VTOTAL : Nat := 0x68071C
def NV5_PRAMDAC_HSYNC_WIDTH : Nat := 0x680720
def NV5_PRAMDAC_HBURST_START : Nat := 0x680724
def NV5_PRAMDAC_HBURST_END : Nat := 0x680728
def NV5_PRAMDAC_HBLANK_START : Nat := 0x68072C
def NV5_PRAMDAC_HBLANK_END : Nat := 0x680730
def NV5_PRAMDAC_HTOTAL : Nat := 0x680734
def NV5_PRAMDAC_HEQU_WIDTH : Nat := 0x680738
def NV5_PRAMDAC_HSERR_WIDTH : Nat := 0x68073C
def NV5_PRAMDAC_END : Nat := 0x680FFF

def NV5_USER_START : Nat := 0x800000
def NV5_USER_END : Nat := 0xFFFFFF

def NV5_PNVM_START : Nat := 0x1000000
def NV5_PNVM_END : Nat := 0x17FFFFF
def NV5_VRAM_START : Nat := NV5_PNVM_START
def NV5_VRAM_END : Nat := NV5_PNVM_END

def NV5_PRAMIN_START : Nat := 0x1C00000
def NV5_PRAMIN_END : Nat := 0x1FFFFFF

def NV5_86BOX_TIMER_SYSTEM_FIX_QUOTIENT : Nat := 10

def NV5_CRTC_REGISTER_OVERFLOW : Nat := 0x07
def NV5_CRTC_REGISTER_READ_BANK : Nat := 0x1D
def NV5_CRTC_REGISTER_WRITE_BANK : Nat := 0x1E
def NV5_CRTC_REGISTER_RL0 : Nat := 0x34
def NV5_CRTC_REGISTER_RL1 : Nat := 0x35
def NV5_CRTC_REGISTER_RMA : Nat := 0x38
def NV5_CRTC_REGISTER_I2C : Nat := 0x3E
def NV5_CRTC_REGISTER_I2C_GPIO : Nat := 0x3F

def NV5_RMA_REGISTER_START : Nat := 0x3D0
def NV5_RMA_REGISTER_END : Nat := 0x3D3
def NV5_RMA_SIGNATURE_MSB : Nat := 0x65
def NV5_RMA_SIGNATURE_BYTE2 : Nat := 0xD0
def NV5_RMA_SIGNATURE_BYTE1 : Nat := 0x16
def NV5_RMA_SIGNATURE_LSB : Nat := 0x2B
def NV5_CRTC_REGISTER_RMA_MODE_MAX : Nat := 0x0F
def NV5_RMA_NUM_REGS : Nat := 4

/-- Modelled from the spec: the sentinel address that terminates each register
descriptor table.  Its declaration (vid_nv.h) is not among the sources; the
value lies outside the 24-bit register aperture, so no dispatched address can
be equal to it. -/
def NV_REG_LIST_END : Nat := 0xD15EA5E

/-! ## The device record (the structures of vid_nv5.h) -/

/-- Master control (struct nv5_pmc_s). -/
structure nv5_pmc_t where
  boot : Nat
  interrupt_status : Nat
  interrupt_enable : Nat
  enable : Nat
deriving DecidableEq, Repr, Inhabited

/-- PCI configuration storage (struct nv5_pci_config_s). -/
structure nv5_pci_config_t where
  pci_regs : List Nat
  vbios_enabled : Bool
  int_line : Nat
deriving DecidableEq, Repr, Inhabited

/-- Framebuffer interface (struct nv5_pfb_s). -/
structure nv5_pfb_t where
  boot : Nat
  config_0 : Nat
  config_1 : Nat
deriving DecidableEq, Repr, Inhabited

/-- Real-mode access shifter (struct nv5_pbus_rma_s). -/
structure nv5_pbus_rma_t where
  addr : Nat
  data : Nat
  mode : Nat
  rma_regs : List Nat
deriving DecidableEq, Repr, Inhabited

/-- Bus control (struct nv5_pbus_s). -/
structure nv5_pbus_t where
  interrupt_status : Nat
  interrupt_enable : Nat
  rma : nv5_pbus_rma_t
deriving DecidableEq, Repr, Inhabited

/-- Command FIFO (struct nv5_pfifo_s). -/
structure nv5_pfifo_t where
  interrupt_status : Nat
  interrupt_enable : Nat
  ramht_config : Nat
  ramfc_config : Nat
  ramro_config : Nat
  cache_reassignment : Nat
deriving DecidableEq, Repr, Inhabited

/-- RAMDAC registers (struct nv5_pramdac_s). -/
structure nv5_pramdac_t where
  memory_clock_m : Nat
  memory_clock_n : Nat
  memory_clock_p : Nat
  pixel_clock_m : Nat
  pixel_clock_n : Nat
  pixel_clock_p : Nat
  coeff_select : Nat
  general_control : Nat
  vserr_width : Nat
  vequ_end : Nat
  vbblank_end : Nat
  vblank_end : Nat
  vblank_start : Nat
  vequ_start : Nat
  vtotal : Nat
  hsync_width : Nat
  hburst_start : Nat
  hburst_end : Nat
  hblank_start : Nat
  hblank_end : Nat
  htotal : Nat
  hequ_width : Nat
  hserr_width : Nat
deriving DecidableEq, Repr, Inhabited

/-- Graphics engine (struct nv5_pgraph_s): the debug and interrupt words.  The
remaining members are touched by no function of the sources at hand. -/
structure nv5_pgraph_t where
  debug_0 : Nat
  debug_1 : Nat
  debug_2 : Nat
  debug_3 : Nat
  interrupt_status_0 : Nat
  interrupt_enable_0 : Nat
  interrupt_status_1 : Nat
  interrupt_enable_1 : Nat
deriving DecidableEq, Repr, Inhabited

/-- Chip straps (struct nv5_pextdev_s). -/
structure nv5_pextdev_t where
  straps : Nat
deriving DecidableEq, Repr, Inhabited

/-- Programmable interval timer (struct nv5_ptimer_s); time is 64 bits wide. -/
structure nv5_ptimer_t where
  interrupt_status : Nat
  interrupt_enable : Nat
  clock_numerator : Nat
  clock_denominator : Nat
  time : Nat
  alarm : Nat
deriving DecidableEq, Repr, Inhabited

/-- Video overlay (struct nv5_pvideo_s). -/
structure nv5_pvideo_t where
  interrupt_status : Nat
  interrupt_enable : Nat
deriving DecidableEq, Repr, Inhabited

/-- Mediaport (struct nv5_pme_s). -/
structure nv5_pme_t where
  interrupt_status : Nat
  interrupt_enable : Nat
deriving DecidableEq, Repr, Inhabited

/-- Modelled from the spec: the host periodic timer (VirtualTimer: period,
running flag; the callback is fixed per generator).  The rivatimer
implementation is not among the sources. -/
structure rivatimer_t where
  period : ℚ
  running : Bool
deriving DecidableEq, Repr, Inhabited

/-- The members of the host svga_t record that the sources at hand read or
write (its declaration is not among the sources). -/
structure svga_t where
  miscout : Nat
  crtcreg : Nat
  crtc : List Nat
  displine : Nat
  fullchange : Nat
  chain4 : Bool
  packed_chain4 : Bool
  read_bank : Nat
  write_bank : Nat
  vblankstart : Nat
  vtotal : Nat
  hblankstart : Nat
  hblank_end_val : Nat
  htotal : Nat
  clock : ℚ
  vram_max : Nat
deriving DecidableEq, Repr, Inhabited

/-- The members of the nv_base_t record that the sources at hand read or write
(its declaration, vid_nv.h, is not among the sources).  The member
pci_irq_state records the shared PCI interrupt line: true when asserted.  The
clock frequencies, which C keeps in floating point, are the rationals that the
floating-point values denote.  The
member i2c stands for the host I2C bus object behind the pointer of that name,
as a value that only the host I2C functions interpret. -/
structure nv_base_t where
  gpu_revision : Nat
  pci_irq_state : Bool
  bar0_mmio_base : Nat
  bar1_lfb_base : Nat
  cio_read_bank : Nat
  cio_write_bank : Nat
  memory_clock_frequency : ℚ
  pixel_clock_frequency : ℚ
  memory_clock_timer : Option rivatimer_t
  pixel_clock_timer : Option rivatimer_t
  svga : svga_t
  i2c : Nat
deriving DecidableEq, Repr, Inhabited

/-- The device (struct nv5_s), with the host global cpuclock that the pixel
clock computation reads carried along as a member. -/
structure nv5_t where
  nvbase : nv_base_t
  pci_config : nv5_pci_config_t
  pmc : nv5_pmc_t
  pfb : nv5_pfb_t
  pbus : nv5_pbus_t
  pfifo : nv5_pfifo_t
  pramdac : nv5_pramdac_t
  pgraph : nv5_pgraph_t
  pextdev : nv5_pextdev_t
  ptimer : nv5_ptimer_t
  pvideo : nv5_pvideo_t
  pme : nv5_pme_t
  cpuclock : ℚ
deriving DecidableEq, Repr, Inhabited

/-- A register descriptor (nv_register_t): address and the optional read and
write functions.  The C functions act on the global device; here they take it
as an argument. -/
structure nv_register_t where
  address : Nat
  on_read : Option (nv5_t → Nat)
  on_write : Option (nv5_t → Nat → nv5_t)

/-- What surrounds the register core: the global pointer nv3 that the arbiter
tests (true when it is not NULL) and the functions the arbiter and the access
composer call without their bodies being embedded here.  Each function takes
the device and returns it; a read also returns its value.  The PCI functions
take (func, addr) and (func, addr, val), the SVGA functions a port number.

The members from svga_in on are the host collaborators of the real-mode
access shifter and of the SVGA port pair, none of which is among the sources:
the host SVGA core (svga_in, svga_out, svga_recalctimings, which calls back
into the device, and the linear VRAM accessors svga_read_linear and
svga_writel_linear, each acting on the host SVGA record), the host I2C bus
(acting on the member i2c), the host global changeframecount, and the byte
found in the local variable ret of nv5_pbus_rma_read on the paths that return
it without having assigned it. -/
structure nv5_env where
  nv3 : Bool
  nv5_pci_read : nv5_t → Nat → Nat → Nat × nv5_t
  nv5_pci_write : nv5_t → Nat → Nat → Nat → nv5_t
  nv5_pgraph_read : nv5_t → Nat → Nat × nv5_t
  nv5_pgraph_write : nv5_t → Nat → Nat → nv5_t
  nv5_pramin_arbitrate_write : nv5_t → Nat → Nat → nv5_t
  nv5_svga_in : nv5_t → Nat → Nat × nv5_t
  nv5_svga_out : nv5_t → Nat → Nat → nv5_t
  svga_in : svga_t → Nat → Nat × svga_t
  svga_out : svga_t → Nat → Nat → svga_t
  svga_recalctimings : nv5_t → nv5_t
  svga_read_linear : svga_t → Nat → Nat × svga_t
  svga_writel_linear : svga_t → Nat → Nat → svga_t
  i2c_gpio_get_sda : Nat → Nat
  i2c_gpio_get_scl : Nat → Nat
  i2c_gpio_set : Nat → Nat → Nat → Nat
  changeframecount : Nat
  uninitialised_ret : Nat

/-! ## nv5_core_arbiter.c: register lookup -/

/-- Looks up a register (nv_get_register): scans at most num_regs descriptors,
stops at the sentinel, returns the first descriptor with the address. -/
def nv_get_register (address : Nat) : List nv_register_t → Nat → Option nv_register_t
  | [], _ => none
  | _ :: _, 0 => none
  | r :: rest, n + 1 =>
    if r.address == NV_REG_LIST_END then none
    else if r.address == address then some r
    else nv_get_register address rest n

/-! ## nv5_pmc.c -/

/-- Modelled from the spec: deassert(slot, line, &state) of the host
interrupt-line collaborator (pci_clear_irq; the PCI layer is not among the
sources).  The shared line becomes deasserted. -/
def pci_clear_irq (b : nv_base_t) : nv_base_t :=
  { b with pci_irq_state := false }

/-- Modelled from the spec: assert(slot, line, &state) of the host
interrupt-line collaborator (pci_set_irq; the PCI layer is not among the
sources).  The shared line becomes asserted. -/
def pci_set_irq (b : nv_base_t) : nv_base_t :=
  { b with pci_irq_state := true }

def pmc_registers : List nv_register_t :=
  [ { address := NV5_PMC_BOOT, on_read := none, on_write := none },
    { address := NV5_PMC_INTERRUPT_STATUS, on_read := none, on_write := none },
    { address := NV5_PMC_INTERRUPT_ENABLE, on_read := none, on_write := none },
    { address := NV5_PMC_ENABLE, on_read := none, on_write := none },
    { address := NV_REG_LIST_END, on_read := none, on_write := none } ]

/-- Deasserts the shared line (nv5_pmc_clear_interrupts). -/
def nv5_pmc_clear_interrupts (s : nv5_t) : nv5_t :=
  { s with nvbase := pci_clear_irq s.nvbase }

/-- The aggregate computed by the first part of nv5_pmc_handle_interrupts
(the local new_intr_value just before it is stored). -/
def new_intr_value (s : nv5_t) : Nat :=
  let v : Nat := 0x00
  let v := if s.pme.interrupt_status &&& s.pme.interrupt_enable ≠ 0
    then v ||| (NV5_PMC_INTERRUPT_PMEDIA_PENDING <<< NV5_PMC_INTERRUPT_PMEDIA) else v
  let v := if s.pfifo.interrupt_status &&& s.pfifo.interrupt_enable ≠ 0
    then v ||| (NV5_PMC_INTERRUPT_PFIFO_PENDING <<< NV5_PMC_INTERRUPT_PFIFO) else v
  let v := if s.pgraph.interrupt_status_0 &&& (1 <<< 8) ≠ 0
      ∧ s.pgraph.interrupt_enable_0 &&& (1 <<< 8) ≠ 0
    then v ||| (NV5_PMC_INTERRUPT_PFB_PENDING <<< NV5_PMC_INTERRUPT_PFB) else v
  let v := if s.pgraph.interrupt_status_0 &&& 0xFFFFFEFF ≠ 0
      ∧ s.pgraph.interrupt_enable_0 &&& 0xFFFFFEFF ≠ 0
    then v ||| (NV5_PMC_INTERRUPT_PGRAPH0_PENDING <<< NV5_PMC_INTERRUPT_PGRAPH0) else v
  let v := if s.pgraph.interrupt_status_1 &&& s.pgraph.interrupt_enable_1 ≠ 0
    then v ||| (NV5_PMC_INTERRUPT_PGRAPH1_PENDING <<< NV5_PMC_INTERRUPT_PGRAPH1) else v
  let v := if s.pvideo.interrupt_status &&& s.pvideo.interrupt_enable ≠ 0
    then v ||| (NV5_PMC_INTERRUPT_PVIDEO_PENDING <<< NV5_PMC_INTERRUPT_PVIDEO) else v
  let v := if s.ptimer.interrupt_status &&& s.ptimer.interrupt_enable ≠ 0
    then v ||| (NV5_PMC_INTERRUPT_PTIMER_PENDING <<< NV5_PMC_INTERRUPT_PTIMER) else v
  let v := if s.pbus.interrupt_status &&& s.pbus.interrupt_enable ≠ 0
    then v ||| (NV5_PMC_INTERRUPT_PBUS_PENDING <<< NV5_PMC_INTERRUPT_PBUS) else v
  let v := if s.pmc.interrupt_status &&& (1 <<< NV5_PMC_INTERRUPT_SOFTWARE) ≠ 0
    then v ||| (NV5_PMC_INTERRUPT_SOFTWARE_PENDING <<< NV5_PMC_INTERRUPT_SOFTWARE) else v
  v

/-- Recomputes the aggregate and drives the shared line
(nv5_pmc_handle_interrupts); returns the stored aggregate and the device.
The test !(interrupt_status - 0x80000000) is a 32-bit unsigned subtraction. -/
def nv5_pmc_handle_interrupts (s : nv5_t) (send_now : Bool) : Nat × nv5_t :=
  let s := { s with pmc := { s.pmc with interrupt_status := new_intr_value s } }
  if s.pmc.interrupt_enable = 0 then
    let s := nv5_pmc_clear_interrupts s
    (s.pmc.interrupt_status, s)
  else if send_now then
    if s.pmc.interrupt_status = 0
        ∨ (s.pmc.interrupt_status + 0x100000000 - 0x80000000) % 0x100000000 = 0 then
      let s := nv5_pmc_clear_interrupts s
      (s.pmc.interrupt_status, s)
    else if s.pmc.interrupt_status &&& 0x7FFFFFFF ≠ 0 then
      if s.pmc.interrupt_enable &&& NV5_PMC_INTERRUPT_ENABLE_HARDWARE ≠ 0 then
        let s := { s with nvbase := pci_set_irq s.nvbase }
        (s.pmc.interrupt_status, s)
      else
        (s.pmc.interrupt_status, s)
    else
      if s.pmc.interrupt_enable &&& NV5_PMC_INTERRUPT_ENABLE_SOFTWARE ≠ 0 then
        let s := { s with nvbase := pci_set_irq s.nvbase }
        (s.pmc.interrupt_status, s)
      else
        (s.pmc.interrupt_status, s)
  else
    (s.pmc.interrupt_status, s)

/-- Reads a PMC register (nv5_pmc_read). -/
def nv5_pmc_read (s : nv5_t) (address : Nat) : Nat × nv5_t :=
  match nv_get_register address pmc_registers pmc_registers.length with
  | some reg =>
    match reg.on_read with
    | some f => (f s, s)
    | none =>
      if reg.address = NV5_PMC_BOOT then (s.pmc.boot, s)
      else if reg.address = NV5_PMC_INTERRUPT_STATUS then
        nv5_pmc_handle_interrupts (nv5_pmc_clear_interrupts s) false
      else if reg.address = NV5_PMC_INTERRUPT_ENABLE then (s.pmc.interrupt_enable, s)
      else if reg.address = NV5_PMC_ENABLE then (s.pmc.enable, s)
      else (0x00, s)
  | none => (0x00, s)

/-- Writes a PMC register (nv5_pmc_write). -/
def nv5_pmc_write (s : nv5_t) (address value : Nat) : nv5_t :=
  match nv_get_register address pmc_registers pmc_registers.length with
  | some reg =>
    match reg.on_write with
    | some f => f s value
    | none =>
      if reg.address = NV5_PMC_INTERRUPT_STATUS then
        if s.pmc.interrupt_status &&& 0x7FFFFFFF = 0 then s
        else
          let s := (nv5_pmc_handle_interrupts s true).2
          { s with pmc := { s.pmc with interrupt_status := value } }
      else if reg.address = NV5_PMC_INTERRUPT_ENABLE then
        let s := { s with pmc := { s.pmc with interrupt_enable := value &&& 0x03 } }
        (nv5_pmc_handle_interrupts s (value != 0)).2
      else if reg.address = NV5_PMC_ENABLE then
        { s with pmc := { s.pmc with enable := value } }
      else s
  | none => s

/-! ## nv5_pbus.c (register access) -/

def pbus_registers : List nv_register_t :=
  [ { address := NV5_PBUS_INTR, on_read := none, on_write := none },
    { address := NV5_PBUS_INTR_EN, on_read := none, on_write := none },
    { address := NV_REG_LIST_END, on_read := none, on_write := none } ]

/-- Reads a PBUS register (nv5_pbus_read). -/
def nv5_pbus_read (s : nv5_t) (address : Nat) : Nat × nv5_t :=
  match nv_get_register address pbus_registers pbus_registers.length with
  | some reg =>
    match reg.on_read with
    | some f => (f s, s)
    | none =>
      if reg.address = NV5_PBUS_INTR then (s.pbus.interrupt_status, s)
      else if reg.address = NV5_PBUS_INTR_EN then (s.pbus.interrupt_enable, s)
      else (0x00, s)
  | none => (0x00, s)

/-- Writes a PBUS register (nv5_pbus_write).  The C expression ~value is the
32-bit complement. -/
def nv5_pbus_write (s : nv5_t) (address value : Nat) : nv5_t :=
  match nv_get_register address pbus_registers pbus_registers.length with
  | some reg =>
    match reg.on_write with
    | some f => f s value
    | none =>
      if reg.address = NV5_PBUS_INTR then
        let s := { s with pbus := { s.pbus with
          interrupt_status := s.pbus.interrupt_status &&& (value ^^^ 0xFFFFFFFF) } }
        nv5_pmc_clear_interrupts s
      else if reg.address = NV5_PBUS_INTR_EN then
        { s with pbus := { s.pbus with interrupt_enable := value &&& 0x00000001 } }
      else s
  | none => s

/-! ## nv5_pfifo.c -/

def pfifo_registers : List nv_register_t :=
  [ { address := NV5_PFIFO_INTR, on_read := none, on_write := none },
    { address := NV5_PFIFO_INTR_EN, on_read := none, on_write := none },
    { address := NV5_PFIFO_CONFIG_RAMFC, on_read := none, on_write := none },
    { address := NV5_PFIFO_CONFIG_RAMHT, on_read := none, on_write := none },
    { address := NV5_PFIFO_CONFIG_RAMRO, on_read := none, on_write := none },
    { address := NV_REG_LIST_END, on_read := none, on_write := none } ]

/-- The subsystem enablement test at the head of nv5_pfifo_read and
nv5_pfifo_write, the C condition
(!(pmc.enable >> NV5_PMC_ENABLE_PFIFO) & NV5_PMC_ENABLE_PFIFO_ENABLED):
the logical negation applies to the shifted word, the mask to its result. -/
def nv5_pfifo_repressed (s : nv5_t) : Bool :=
  ((if s.pmc.enable >>> NV5_PMC_ENABLE_PFIFO = 0 then 1 else 0)
    &&& NV5_PMC_ENABLE_PFIFO_ENABLED) != 0

/-- Reads a PFIFO register (nv5_pfifo_read). -/
def nv5_pfifo_read (s : nv5_t) (address : Nat) : Nat × nv5_t :=
  if nv5_pfifo_repressed s then (0x00, s)
  else
    match nv_get_register address pfifo_registers pfifo_registers.length with
    | some reg =>
      match reg.on_read with
      | some f => (f s, s)
      | none =>
        if reg.address = NV5_PFIFO_INTR then (s.pfifo.interrupt_status, s)
        else if reg.address = NV5_PFIFO_INTR_EN then (s.pfifo.interrupt_enable, s)
        else if reg.address = NV5_PFIFO_CONFIG_RAMFC then (s.pfifo.ramfc_config, s)
        else if reg.address = NV5_PFIFO_CONFIG_RAMHT then (s.pfifo.ramht_config, s)
        else if reg.address = NV5_PFIFO_CONFIG_RAMRO then (s.pfifo.ramro_config, s)
        else (0x00, s)
    | none => (0x00, s)

/-- Writes a PFIFO register (nv5_pfifo_write).  The interrupt-enable case
stores into pbus.interrupt_enable, as the source does. -/
def nv5_pfifo_write (s : nv5_t) (address value : Nat) : nv5_t :=
  if nv5_pfifo_repressed s then s
  else
    match nv_get_register address pfifo_registers pfifo_registers.length with
    | some reg =>
      match reg.on_write with
      | some f => f s value
      | none =>
        if reg.address = NV5_PFIFO_INTR then
          let s := { s with pfifo := { s.pfifo with
            interrupt_status := s.pfifo.interrupt_status &&& (value ^^^ 0xFFFFFFFF) } }
          nv5_pmc_clear_interrupts s
        else if reg.address = NV5_PFIFO_INTR_EN then
          { s with pbus := { s.pbus with interrupt_enable := value &&& 0x00001111 } }
        else if reg.address = NV5_PFIFO_CONFIG_RAMHT then
          { s with pfifo := { s.pfifo with ramht_config := value } }
        else if reg.address = NV5_PFIFO_CONFIG_RAMFC then
          { s with pfifo := { s.pfifo with ramfc_config := value } }
        else if reg.address = NV5_PFIFO_CONFIG_RAMRO then
          { s with pfifo := { s.pfifo with ramro_config := value } }
        else s
    | none => s

/-! ## nv5_pfb.c -/

/-- The read function of PFB config 0 (nv5_pfb_config0_read). -/
def nv5_pfb_config0_read (s : nv5_t) : Nat :=
  s.pfb.config_0

/-- The write function of PFB config 0 (nv5_pfb_config0_write); the decoded
resolution and depth are only logged. -/
def nv5_pfb_config0_write (s : nv5_t) (val : Nat) : nv5_t :=
  { s with pfb := { s.pfb with config_0 := val } }

def pfb_registers : List nv_register_t :=
  [ { address := NV5_PFB_BOOT, on_read := none, on_write := none },
    { address := NV5_PFB_CONFIG_0, on_read := some nv5_pfb_config0_read,
      on_write := some nv5_pfb_config0_write },
    { address := NV5_PFB_CONFIG_1, on_read := none, on_write := none },
    { address := NV_REG_LIST_END, on_read := none, on_write := none } ]

/-- Reads a PFB register (nv5_pfb_read). -/
def nv5_pfb_read (s : nv5_t) (address : Nat) : Nat × nv5_t :=
  match nv_get_register address pfb_registers pfb_registers.length with
  | some reg =>
    match reg.on_read with
    | some f => (f s, s)
    | none =>
      if reg.address = NV5_PFB_BOOT then (s.pfb.boot, s)
      else if reg.address = NV5_PFB_CONFIG_1 then (s.pfb.config_1, s)
      else (0x00, s)
  | none => (0x00, s)

/-- Writes a PFB register (nv5_pfb_write). -/
def nv5_pfb_write (s : nv5_t) (address value : Nat) : nv5_t :=
  match nv_get_register address pfb_registers pfb_registers.length with
  | some reg =>
    match reg.on_write with
    | some f => f s value
    | none =>
      if reg.address = NV5_PFB_CONFIG_1 then
        { s with pfb := { s.pfb with config_1 := value } }
      else s
  | none => s

/-! ## nv5_pextdev.c -/

def pextdev_registers : List nv_register_t :=
  [ { address := NV5_PSTRAPS, on_read := none, on_write := none },
    { address := NV_REG_LIST_END, on_read := none, on_write := none } ]

/-- Reads a PEXTDEV register (nv5_pextdev_read). -/
def nv5_pextdev_read (s : nv5_t) (address : Nat) : Nat × nv5_t :=
  match nv_get_register address pextdev_registers pextdev_registers.length with
  | some reg =>
    match reg.on_read with
    | some f => (f s, s)
    | none =>
      if reg.address = NV5_PSTRAPS then (s.pextdev.straps, s)
      else (0x00, s)
  | none => (0x00, s)

/-- Writes a PEXTDEV register (nv5_pextdev_write); a write to the straps
returns at once. -/
def nv5_pextdev_write (s : nv5_t) (address value : Nat) : nv5_t :=
  if address = NV5_PSTRAPS then s
  else
    match nv_get_register address pextdev_registers pextdev_registers.length with
    | some reg =>
      match reg.on_write with
      | some f => f s value
      | none => s
    | none => s

/-! ## nv5_pme.c -/

def pme_registers : List nv_register_t :=
  [ { address := NV5_PME_INTR, on_read := none, on_write := none },
    { address := NV5_PME_INTR_EN, on_read := none, on_write := none },
    { address := NV_REG_LIST_END, on_read := none, on_write := none } ]

/-- Reads a PME register (nv5_pme_read). -/
def nv5_pme_read (s : nv5_t) (address : Nat) : Nat × nv5_t :=
  match nv_get_register address pme_registers pme_registers.length with
  | some reg =>
    match reg.on_read with
    | some f => (f s, s)
    | none =>
      if reg.address = NV5_PME_INTR then (s.pme.interrupt_status, s)
      else if reg.address = NV5_PME_INTR_EN then (s.pme.interrupt_enable, s)
      else (0x00, s)
  | none => (0x00, s)

/-- Writes a PME register (nv5_pme_write). -/
def nv5_pme_write (s : nv5_t) (address value : Nat) : nv5_t :=
  match nv_get_register address pme_registers pme_registers.length with
  | some reg =>
    match reg.on_write with
    | some f => f s value
    | none =>
      if reg.address = NV5_PME_INTR then
        let s := { s with pme := { s.pme with
          interrupt_status := s.pme.interrupt_status &&& (value ^^^ 0xFFFFFFFF) } }
        nv5_pmc_clear_interrupts s
      else if reg.address = NV5_PME_INTR_EN then
        { s with pme := { s.pme with interrupt_enable := value &&& 0x00001111 } }
      else s
  | none => s

/-! ## nv5_pvideo.c -/

def pvideo_registers : List nv_register_t :=
  [ { address := NV5_PVIDEO_INTR, on_read := none, on_write := none },
    { address := NV5_PVIDEO_INTR_EN, on_read := none, on_write := none },
    { address := NV_REG_LIST_END, on_read := none, on_write := none } ]

/-- Reads a PVIDEO register (nv5_pvideo_read). -/
def nv5_pvideo_read (s : nv5_t) (address : Nat) : Nat × nv5_t :=
  match nv_get_register address pvideo_registers pvideo_registers.length with
  | some reg =>
    match reg.on_read with
    | some f => (f s, s)
    | none =>
      if reg.address = NV5_PVIDEO_INTR then (s.pvideo.interrupt_status, s)
      else if reg.address = NV5_PVIDEO_INTR_EN then (s.pvideo.interrupt_enable, s)
      else (0x00, s)
  | none => (0x00, s)

/-- Writes a PVIDEO register (nv5_pvideo_write). -/
def nv5_pvideo_write (s : nv5_t) (address value : Nat) : nv5_t :=
  match nv_get_register address pvideo_registers pvideo_registers.length with
  | some reg =>
    match reg.on_write with
    | some f => f s value
    | none =>
      if reg.address = NV5_PVIDEO_INTR then
        let s := { s with pvideo := { s.pvideo with
          interrupt_status := s.pvideo.interrupt_status &&& (value ^^^ 0xFFFFFFFF) } }
        nv5_pmc_clear_interrupts s
      else if reg.address = NV5_PVIDEO_INTR_EN then
        { s with pvideo := { s.pvideo with interrupt_enable := value &&& 0x00000001 } }
      else s
  | none => s

/-! ## nv5_ptimer.c (register access) -/

def ptimer_registers : List nv_register_t :=
  [ { address := NV5_PTIMER_INTR, on_read := none, on_write := none },
    { address := NV5_PTIMER_INTR_EN, on_read := none, on_write := none },
    { address := NV5_PTIMER_NUMERATOR, on_read := none, on_write := none },
    { address := NV5_PTIMER_DENOMINATOR, on_read := none, on_write := none },
    { address := NV5_PTIMER_TIME_0_NSEC, on_read := none, on_write := none },
    { address := NV5_PTIMER_TIME_1_NSEC, on_read := none, on_write := none },
    { address := NV5_PTIMER_ALARM_NSEC, on_read := none, on_write := none },
    { address := NV_REG_LIST_END, on_read := none, on_write := none } ]

/-- Reads a PTIMER register (nv5_ptimer_read). -/
def nv5_ptimer_read (s : nv5_t) (address : Nat) : Nat × nv5_t :=
  match nv_get_register address ptimer_registers ptimer_registers.length with
  | some reg =>
    match reg.on_read with
    | some f => (f s, s)
    | none =>
      if reg.address = NV5_PTIMER_INTR then (s.ptimer.interrupt_status, s)
      else if reg.address = NV5_PTIMER_INTR_EN then (s.ptimer.interrupt_enable, s)
      else if reg.address = NV5_PTIMER_NUMERATOR then (s.ptimer.clock_numerator, s)
      else if reg.address = NV5_PTIMER_DENOMINATOR then (s.ptimer.clock_denominator, s)
      else if reg.address = NV5_PTIMER_TIME_0_NSEC then (s.ptimer.time &&& 0xFFFFFFFF, s)
      else if reg.address = NV5_PTIMER_TIME_1_NSEC then
        ((s.ptimer.time >>> 32) % 0x100000000, s)
      else if reg.address = NV5_PTIMER_ALARM_NSEC then (s.ptimer.alarm, s)
      else (0x00, s)
  | none => (0x00, s)

/-- Writes a PTIMER register (nv5_ptimer_write). -/
def nv5_ptimer_write (s : nv5_t) (address value : Nat) : nv5_t :=
  match nv_get_register address ptimer_registers ptimer_registers.length with
  | some reg =>
    match reg.on_write with
    | some f => f s value
    | none =>
      if reg.address = NV5_PTIMER_INTR then
        let s := { s with ptimer := { s.ptimer with
          interrupt_status := s.ptimer.interrupt_status &&& (value ^^^ 0xFFFFFFFF) } }
        nv5_pmc_clear_interrupts s
      else if reg.address = NV5_PTIMER_INTR_EN then
        { s with ptimer := { s.ptimer with interrupt_enable := value &&& 0x1 } }
      else if reg.address = NV5_PTIMER_NUMERATOR then
        { s with ptimer := { s.ptimer with clock_numerator := value &&& 0xFFFF } }
      else if reg.address = NV5_PTIMER_DENOMINATOR then
        let value := if value = 0 then 1 else value
        { s with ptimer := { s.ptimer with clock_denominator := value &&& 0xFFFF } }
      else if reg.address = NV5_PTIMER_TIME_0_NSEC then
        { s with ptimer := { s.ptimer with
          time := s.ptimer.time ||| (value &&& 0xFFFFFFE0) } }
      else if reg.address = NV5_PTIMER_TIME_1_NSEC then
        { s with ptimer := { s.ptimer with
          time := s.ptimer.time ||| (((value &&& 0xFFFFFFE0) <<< 32) % 0x10000000000000000) } }
      else if reg.address = NV5_PTIMER_ALARM_NSEC then
        { s with ptimer := { s.ptimer with alarm := value &&& 0xFFFFFFE0 } }
      else s
  | none => s

/-! ## Floating point of the C sources -/

/-- The integer nearest to num/den, the even one of the two on a tie
(den > 0). -/
def round_half_even (num den : Nat) : Nat :=
  let k := num / den
  let r := num % den
  if 2 * r < den then k
  else if den < 2 * r then k + 1
  else if k % 2 = 0 then k else k + 1

/-- The position of the leading bit of n, found by halving at most fuel
times. -/
def leading_bit_fuel : Nat → Nat → Nat
  | 0, _ => 0
  | fuel + 1, n => if n < 2 then 0 else leading_bit_fuel fuel (n / 2) + 1

/-- The position of the leading bit of n (0 for n = 0 and n = 1). -/
def leading_bit (n : Nat) : Nat := leading_bit_fuel n n

/-- The binary exponent of num/den for num, den > 0: the e with
2^e ≤ num/den < 2^(e+1).  The difference of the leading bit positions is e or e + 1; the
comparison tells which. -/
def ratio_exponent (num den : Nat) : Int :=
  let e0 : Int := (leading_bit num : Int) - (leading_bit den : Int)
  if 0 ≤ e0 then (if den * 2 ^ e0.toNat ≤ num then e0 else e0 - 1)
  else (if den ≤ num * 2 ^ (-e0).toNat then e0 else e0 - 1)

/-- The exponent of the unit in the last place of the p-bit binary
floating-point numbers around num/den. -/
def float_exponent (p num den : Nat) : Int :=
  ratio_exponent num den - ((p : Int) - 1)

/-- The significand of num/den rounded to p bits: num/den divided by the unit
in the last place and rounded to the nearest integer, ties to even. -/
def float_significand (p num den : Nat) : Nat :=
  let e := float_exponent p num den
  if 0 ≤ e then round_half_even num (den * 2 ^ e.toNat)
  else round_half_even (num * 2 ^ (-e).toNat) den

/-- The result of an IEEE 754 binary operation whose exact result is q, in
the default rounding mode (to nearest, ties to even) with a p-bit significand.
The exponent range is not bounded: overflow and subnormal results are not
modelled. -/
def round_float (p : Nat) (q : ℚ) : ℚ :=
  if q = 0 then 0
  else
    let v : ℚ := (float_significand p q.num.natAbs q.den : ℚ)
      * (2 : ℚ) ^ float_exponent p q.num.natAbs q.den
    if q < 0 then -v else v

/-- Rounding to float (IEEE 754 binary32, 24-bit significand). -/
def float32 (q : ℚ) : ℚ := round_float 24 q

/-- Rounding to double (IEEE 754 binary64, 53-bit significand). -/
def float64 (q : ℚ) : ℚ := round_float 53 q

/-! ## nv5_ptimer.c (the tick) -/

/-- Handles the PTIMER alarm interrupt (nv5_ptimer_interrupt): sets bit num of
the PTIMER interrupt status and asks the aggregator to dispatch. -/
def nv5_ptimer_interrupt (s : nv5_t) (num : Nat) : nv5_t :=
  let s := { s with ptimer := { s.ptimer with
    interrupt_status := s.ptimer.interrupt_status ||| ((1 <<< num) % 0x100000000) } }
  (nv5_pmc_handle_interrupts s true).2

/-- The increment that a tick adds to the counter: the local current_time of
nv5_ptimer_tick converted to uint64_t.  The locals are doubles: every division
and multiplication is rounded to double (float64), in the order in which C
evaluates them; real_time is the double passed in.  The conversion to uint64_t
truncates, and a negative value gives 0 here.  A zero memory clock frequency
gives the increment 0, here (division by zero is 0) as in the source (the
quotient by an infinite value is 0). -/
def ptimer_tick_increment (s : nv5_t) (real_time : ℚ) : Nat :=
  let freq_base : ℚ :=
    float64 (float64 (real_time / 1000000) / float64 (1 / s.nvbase.memory_clock_frequency))
  let current_time : ℚ :=
    float64 (float64 (freq_base
        * float64 ((s.ptimer.clock_numerator : ℚ) * (NV5_86BOX_TIMER_SYSTEM_FIX_QUOTIENT : ℚ)))
      / (s.ptimer.clock_denominator : ℚ))
  (Rat.floor current_time).toNat

/-- Ticks the timer (nv5_ptimer_tick).  The counter is 64 bits wide and the
addition wraps. -/
def nv5_ptimer_tick (s : nv5_t) (real_time : ℚ) : nv5_t :=
  if s.ptimer.clock_numerator = 0 ∨ s.ptimer.clock_denominator = 0 then s
  else
    let s := { s with ptimer := { s.ptimer with
      time := (s.ptimer.time + ptimer_tick_increment s real_time) % 0x10000000000000000 } }
    if s.ptimer.time ≥ s.ptimer.alarm then
      nv5_ptimer_interrupt s NV5_PTIMER_INTR_ALARM
    else s

/-! ## nv5_pramdac.c -/

/-- Modelled from the spec: create(period, callback) of the host periodic-timer
collaborator (rivatimer_create, not among the sources); the new timer is not
yet running. -/
def rivatimer_create (period : ℚ) : rivatimer_t :=
  { period := period, running := false }

/-- Modelled from the spec: start(timer) of the host periodic-timer
collaborator (rivatimer_start, not among the sources). -/
def rivatimer_start (t : rivatimer_t) : rivatimer_t :=
  { t with running := true }

/-- Modelled from the spec: set_period(timer, period) of the host
periodic-timer collaborator (rivatimer_set_period, not among the sources): the
period is updated in place. -/
def rivatimer_set_period (t : rivatimer_t) (period : ℚ) : rivatimer_t :=
  { t with period := period }

/-- Programs the memory clock (nv5_pramdac_set_vram_clock).  The local
frequency is a float and the local time a double: every conversion of an
integer and every multiplication and division is rounded to the type in which
C performs it (float32 for float, float64 for double; the literal 13500000.0f
is a float as it stands).  The 32-bit shift memory_clock_m << memory_clock_p is
reduced modulo 2^32.  A division by zero gives 0 here, where the source gets an
infinity. -/
def nv5_pramdac_set_vram_clock (s : nv5_t) : nv5_t :=
  let frequency : ℚ := 13500000
  let s := if s.pramdac.memory_clock_m = 0
    then { s with pramdac := { s.pramdac with memory_clock_m := 1 } } else s
  let s := if s.pramdac.memory_clock_n = 0
    then { s with pramdac := { s.pramdac with memory_clock_n := 1 } } else s
  let frequency : ℚ := float32 (float32 (frequency * float32 (s.pramdac.memory_clock_n : ℚ))
    / float32 (((s.pramdac.memory_clock_m <<< s.pramdac.memory_clock_p) % 0x100000000 : Nat) : ℚ))
  let time : ℚ :=
    float64 (float64 (1000000 * (NV5_86BOX_TIMER_SYSTEM_FIX_QUOTIENT : ℚ)) / frequency)
  let s := { s with nvbase := { s.nvbase with memory_clock_frequency := frequency } }
  let s := match s.nvbase.memory_clock_timer with
    | none => { s with nvbase := { s.nvbase with
        memory_clock_timer := some (rivatimer_start (rivatimer_create time)) } }
    | some _ => s
  { s with nvbase := { s.nvbase with
      memory_clock_timer := s.nvbase.memory_clock_timer.map (fun t => rivatimer_set_period t time) } }

/-- Programs the pixel clock (nv5_pramdac_set_pixel_clock).  The second
division guard tests and repairs memory_clock_n, as the source does.  The
floating-point conventions are those of nv5_pramdac_set_vram_clock; the
quotient cpuclock / frequency is a division of doubles. -/
def nv5_pramdac_set_pixel_clock (s : nv5_t) : nv5_t :=
  let frequency : ℚ := 13500000
  let s := if s.pramdac.pixel_clock_m = 0
    then { s with pramdac := { s.pramdac with pixel_clock_m := 1 } } else s
  let s := if s.pramdac.memory_clock_n = 0
    then { s with pramdac := { s.pramdac with memory_clock_n := 1 } } else s
  let frequency : ℚ := float32 (float32 (frequency * float32 (s.pramdac.pixel_clock_n : ℚ))
    / float32 (((s.pramdac.pixel_clock_m <<< s.pramdac.pixel_clock_p) % 0x100000000 : Nat) : ℚ))
  let s := { s with nvbase := { s.nvbase with
    svga := { s.nvbase.svga with clock := float64 (s.cpuclock / frequency) } } }
  let time : ℚ :=
    float64 (float64 (1000000 * (NV5_86BOX_TIMER_SYSTEM_FIX_QUOTIENT : ℚ)) / frequency)
  let s := { s with nvbase := { s.nvbase with pixel_clock_frequency := frequency } }
  let s := match s.nvbase.pixel_clock_timer with
    | none => { s with nvbase := { s.nvbase with
        pixel_clock_timer := some (rivatimer_start (rivatimer_create time)) } }
    | some _ => s
  { s with nvbase := { s.nvbase with
      pixel_clock_timer := s.nvbase.pixel_clock_timer.map (fun t => rivatimer_set_period t time) } }

/-- Packs the memory clock dividers (nv5_pramdac_get_vram_clock_register);
32-bit arithmetic. -/
def nv5_pramdac_get_vram_clock_register (s : nv5_t) : Nat :=
  (s.pramdac.memory_clock_m
    + (s.pramdac.memory_clock_n <<< 8)
    + (s.pramdac.memory_clock_p <<< 16)) % 0x100000000

/-- Packs the pixel clock dividers (nv5_pramdac_get_pixel_clock_register);
32-bit arithmetic. -/
def nv5_pramdac_get_pixel_clock_register (s : nv5_t) : Nat :=
  (s.pramdac.pixel_clock_m
    + (s.pramdac.pixel_clock_n <<< 8)
    + (s.pramdac.pixel_clock_p <<< 16)) % 0x100000000

/-- Unpacks and installs the memory clock dividers
(nv5_pramdac_set_vram_clock_register). -/
def nv5_pramdac_set_vram_clock_register (s : nv5_t) (value : Nat) : nv5_t :=
  let s := { s with pramdac := { s.pramdac with
    memory_clock_m := value &&& 0xFF,
    memory_clock_n := (value >>> 8) &&& 0xFF,
    memory_clock_p := (value >>> 16) &&& 0x07 } }
  nv5_pramdac_set_vram_clock s

/-- Unpacks and installs the pixel clock dividers
(nv5_pramdac_set_pixel_clock_register). -/
def nv5_pramdac_set_pixel_clock_register (s : nv5_t) (value : Nat) : nv5_t :=
  let s := { s with pramdac := { s.pramdac with
    pixel_clock_m := value &&& 0xFF,
    pixel_clock_n := (value >>> 8) &&& 0xFF,
    pixel_clock_p := (value >>> 16) &&& 0x07 } }
  nv5_pramdac_set_pixel_clock s

/-- Installs the power-on dividers and programs both clocks
(nv5_pramdac_init). -/
def nv5_pramdac_init (s : nv5_t) : nv5_t :=
  let s := { s with pramdac := { s.pramdac with
    pixel_clock_m := 0x07, memory_clock_m := 0x07,
    pixel_clock_n := 0xc8, memory_clock_n := 0xc8,
    pixel_clock_p := 0x0c, memory_clock_p := 0x0c } }
  let s := nv5_pramdac_set_pixel_clock s
  nv5_pramdac_set_vram_clock s

def pramdac_registers : List nv_register_t :=
  [ { address := NV5_PRAMDAC_CLOCK_PIXEL,
      on_read := some nv5_pramdac_get_pixel_clock_register,
      on_write := some nv5_pramdac_set_pixel_clock_register },
    { address := NV5_PRAMDAC_CLOCK_MEMORY,
      on_read := some nv5_pramdac_get_vram_clock_register,
      on_write := some nv5_pramdac_set_vram_clock_register },
    { address := NV5_PRAMDAC_COEFF_SELECT, on_read := none, on_write := none },
    { address := NV5_PRAMDAC_GENERAL_CONTROL, on_read := none, on_write := none },
    { address := NV5_PRAMDAC_VSERR_WIDTH, on_read := none, on_write := none },
    { address := NV5_PRAMDAC_VEQU_END, on_read := none, on_write := none },
    { address := NV5_PRAMDAC_VBBLANK_END, on_read := none, on_write := none },
    { address := NV5_PRAMDAC_VBLANK_END, on_read := none, on_write := none },
    { address := NV5_PRAMDAC_VBLANK_START, on_read := none, on_write := none },
    { address := NV5_PRAMDAC_VEQU_START, on_read := none, on_write := none },
    { address := NV5_PRAMDAC_VTOTAL, on_read := none, on_write := none },
    { address := NV5_PRAMDAC_HSYNC_WIDTH, on_read := none, on_write := none },
    { address := NV5_PRAMDAC_HBURST_START, on_read := none, on_write := none },
    { address := NV5_PRAMDAC_HBURST_END, on_read := none, on_write := none },
    { address := NV5_PRAMDAC_HTOTAL, on_read := none, on_write := none },
    { address := NV5_PRAMDAC_HEQU_WIDTH, on_read := none, on_write := none },
    { address := NV5_PRAMDAC_HSERR_WIDTH, on_read := none, on_write := none },
    { address := NV_REG_LIST_END, on_read := none, on_write := none } ]

/-- Reads a PRAMDAC register (nv5_pramdac_read). -/
def nv5_pramdac_read (s : nv5_t) (address : Nat) : Nat × nv5_t :=
  match nv_get_register address pramdac_registers pramdac_registers.length with
  | some reg =>
    match reg.on_read with
    | some f => (f s, s)
    | none =>
      if reg.address = NV5_PRAMDAC_COEFF_SELECT then (s.pramdac.coeff_select, s)
      else if reg.address = NV5_PRAMDAC_GENERAL_CONTROL then (s.pramdac.general_control, s)
      else if reg.address = NV5_PRAMDAC_VSERR_WIDTH then (s.pramdac.vserr_width, s)
      else if reg.address = NV5_PRAMDAC_VBBLANK_END then (s.pramdac.vbblank_end, s)
      else if reg.address = NV5_PRAMDAC_VBLANK_END then (s.pramdac.vblank_end, s)
      else if reg.address = NV5_PRAMDAC_VBLANK_START then (s.pramdac.vblank_start, s)
      else if reg.address = NV5_PRAMDAC_VEQU_START then (s.pramdac.vequ_start, s)
      else if reg.address = NV5_PRAMDAC_VTOTAL then (s.pramdac.vtotal, s)
      else if reg.address = NV5_PRAMDAC_HSYNC_WIDTH then (s.pramdac.hsync_width, s)
      else if reg.address = NV5_PRAMDAC_HBURST_START then (s.pramdac.hburst_start, s)
      else if reg.address = NV5_PRAMDAC_HBURST_END then (s.pramdac.hburst_end, s)
      else if reg.address = NV5_PRAMDAC_HBLANK_START then (s.pramdac.hblank_start, s)
      else if reg.address = NV5_PRAMDAC_HBLANK_END then (s.pramdac.hblank_end, s)
      else if reg.address = NV5_PRAMDAC_HTOTAL then (s.pramdac.htotal, s)
      else if reg.address = NV5_PRAMDAC_HEQU_WIDTH then (s.pramdac.hequ_width, s)
      else if reg.address = NV5_PRAMDAC_HSERR_WIDTH then (s.pramdac.hserr_width, s)
      else (0x00, s)
  | none => (0x00, s)

/-- Writes a PRAMDAC register (nv5_pramdac_write). -/
def nv5_pramdac_write (s : nv5_t) (address value : Nat) : nv5_t :=
  match nv_get_register address pramdac_registers pramdac_registers.length with
  | some reg =>
    match reg.on_write with
    | some f => f s value
    | none =>
      if reg.address = NV5_PRAMDAC_COEFF_SELECT then
        { s with pramdac := { s.pramdac with coeff_select := value } }
      else if reg.address = NV5_PRAMDAC_GENERAL_CONTROL then
        { s with pramdac := { s.pramdac with general_control := value } }
      else if reg.address = NV5_PRAMDAC_VSERR_WIDTH then
        { s with pramdac := { s.pramdac with vserr_width := value } }
      else if reg.address = NV5_PRAMDAC_VBBLANK_END then
        { s with pramdac := { s.pramdac with vbblank_end := value } }
      else if reg.address = NV5_PRAMDAC_VBLANK_END then
        { s with pramdac := { s.pramdac with vblank_end := value } }
      else if reg.address = NV5_PRAMDAC_VBLANK_START then
        { s with
          nvbase := { s.nvbase with svga := { s.nvbase.svga with vblankstart := value } },
          pramdac := { s.pramdac with vblank_start := value } }
      else if reg.address = NV5_PRAMDAC_VEQU_START then
        { s with pramdac := { s.pramdac with vequ_start := value } }
      else if reg.address = NV5_PRAMDAC_VTOTAL then
        { s with
          pramdac := { s.pramdac with vtotal := value },
          nvbase := { s.nvbase with svga := { s.nvbase.svga with vtotal := value } } }
      else if reg.address = NV5_PRAMDAC_HSYNC_WIDTH then
        { s with pramdac := { s.pramdac with hsync_width := value } }
      else if reg.address = NV5_PRAMDAC_HBURST_START then
        { s with pramdac := { s.pramdac with hburst_start := value } }
      else if reg.address = NV5_PRAMDAC_HBURST_END then
        { s with pramdac := { s.pramdac with hburst_end := value } }
      else if reg.address = NV5_PRAMDAC_HBLANK_START then
        { s with
          nvbase := { s.nvbase with svga := { s.nvbase.svga with hblankstart := value } },
          pramdac := { s.pramdac with hblank_start := value } }
      else if reg.address = NV5_PRAMDAC_HBLANK_END then
        { s with
          nvbase := { s.nvbase with svga := { s.nvbase.svga with hblank_end_val := value } },
          pramdac := { s.pramdac with hblank_end := value } }
      else if reg.address = NV5_PRAMDAC_HTOTAL then
        { s with
          pramdac := { s.pramdac with htotal := value },
          nvbase := { s.nvbase with svga := { s.nvbase.svga with htotal := value } } }
      else if reg.address = NV5_PRAMDAC_HEQU_WIDTH then
        { s with pramdac := { s.pramdac with hequ_width := value } }
      else if reg.address = NV5_PRAMDAC_HSERR_WIDTH then
        { s with pramdac := { s.pramdac with hserr_width := value } }
      else s
  | none => s

/-! ## nv5_core_arbiter.c: the arbiter -/

/-- Dummy read of an unimplemented subsystem (nv5_cio_read). -/
def nv5_cio_read (_address : Nat) : Nat := 0
/-- Dummy write of an unimplemented subsystem (nv5_cio_write). -/
def nv5_cio_write (s : nv5_t) (_address _value : Nat) : nv5_t := s
/-- Dummy read of an unimplemented subsystem (nv5_prm_read). -/
def nv5_prm_read (_address : Nat) : Nat := 0
/-- Dummy write of an unimplemented subsystem (nv5_prm_write). -/
def nv5_prm_write (s : nv5_t) (_address _value : Nat) : nv5_t := s
/-- Dummy read of an unimplemented subsystem (nv5_prmio_read). -/
def nv5_prmio_read (_address : Nat) : Nat := 0
/-- Dummy write of an unimplemented subsystem (nv5_prmio_write). -/
def nv5_prmio_write (s : nv5_t) (_address _value : Nat) : nv5_t := s
/-- Dummy read of an unimplemented subsystem (nv5_prom_read). -/
def nv5_prom_read (_address : Nat) : Nat := 0
/-- Dummy write of an unimplemented subsystem (nv5_prom_write). -/
def nv5_prom_write (s : nv5_t) (_address _value : Nat) : nv5_t := s
/-- Dummy read of an unimplemented subsystem (nv5_palt_read). -/
def nv5_palt_read (_address : Nat) : Nat := 0
/-- Dummy write of an unimplemented subsystem (nv5_palt_write). -/
def nv5_palt_write (s : nv5_t) (_address _value : Nat) : nv5_t := s
/-- Dummy read of an unimplemented subsystem (nv5_prmcio_read). -/
def nv5_prmcio_read (_address : Nat) : Nat := 0
/-- Dummy write of an unimplemented subsystem (nv5_prmcio_write). -/
def nv5_prmcio_write (s : nv5_t) (_address _value : Nat) : nv5_t := s
/-- Dummy read of an unimplemented subsystem (nv5_vram_read). -/
def nv5_vram_read (_address : Nat) : Nat := 0
/-- Dummy write of an unimplemented subsystem (nv5_vram_write). -/
def nv5_vram_write (s : nv5_t) (_address _value : Nat) : nv5_t := s
/-- Dummy read of an unimplemented subsystem (nv5_user_read). -/
def nv5_user_read (_address : Nat) : Nat := 0
/-- Dummy write of an unimplemented subsystem (nv5_user_write). -/
def nv5_user_write (s : nv5_t) (_address _value : Nat) : nv5_t := s

/-- Arbitrates an MMIO read (nv5_mmio_arbitrate_read): the chain of range
tests in source order, PFB appearing twice.  The first test is the sanity
check on the global pointer nv3. -/
def nv5_mmio_arbitrate_read (e : nv5_env) (s : nv5_t) (address : Nat) : Nat × nv5_t :=
  if !e.nv3 then (0x00, s)
  else
    let address := address &&& 0xFFFFFC
    if address ≥ NV5_PMC_START ∧ address ≤ NV5_PMC_END then nv5_pmc_read s address
    else if address ≥ NV5_CIO_START ∧ address ≤ NV5_CIO_END then (nv5_cio_read address, s)
    else if address ≥ NV5_PBUS_PCI_START ∧ address ≤ NV5_PBUS_PCI_END then
      e.nv5_pci_read s 0x00 (address &&& 0xFF)
    else if address ≥ NV5_PBUS_START ∧ address ≤ NV5_PBUS_END then nv5_pbus_read s address
    else if address ≥ NV5_PFIFO_START ∧ address ≤ NV5_PFIFO_END then nv5_pfifo_read s address
    else if address ≥ NV5_PFB_START ∧ address ≤ NV5_PFB_END then nv5_pfb_read s address
    else if address ≥ NV5_PRM_START ∧ address ≤ NV5_PRM_END then (nv5_prm_read address, s)
    else if address ≥ NV5_PRMIO_START ∧ address ≤ NV5_PRMIO_END then (nv5_prmio_read address, s)
    else if address ≥ NV5_PTIMER_START ∧ address ≤ NV5_PTIMER_END then nv5_ptimer_read s address
    else if address ≥ NV5_PFB_START ∧ address ≤ NV5_PFB_END then nv5_pfb_read s address
    else if address ≥ NV5_PEXTDEV_START ∧ address ≤ NV5_PEXTDEV_END then
      nv5_pextdev_read s address
    else if address ≥ NV5_PROM_START ∧ address ≤ NV5_PROM_END then (nv5_prom_read address, s)
    else if address ≥ NV5_PALT_START ∧ address ≤ NV5_PALT_END then (nv5_palt_read address, s)
    else if address ≥ NV5_PME_START ∧ address ≤ NV5_PME_END then nv5_pme_read s address
    else if address ≥ NV5_PGRAPH_START ∧ address ≤ NV5_PGRAPH_REAL_END then
      e.nv5_pgraph_read s address
    else if address ≥ NV5_PRMCIO_START ∧ address ≤ NV5_PRMCIO_END then
      (nv5_prmcio_read address, s)
    else if address ≥ NV5_PVIDEO_START ∧ address ≤ NV5_PVIDEO_END then nv5_pvideo_read s address
    else if address ≥ NV5_PRAMDAC_START ∧ address ≤ NV5_PRAMDAC_END then
      nv5_pramdac_read s address
    else if address ≥ NV5_VRAM_START ∧ address ≤ NV5_VRAM_END then (nv5_vram_read address, s)
    else if address ≥ NV5_USER_START ∧ address ≤ NV5_USER_END then (nv5_user_read address, s)
    else (0x00, s)

/-- Arbitrates an MMIO write (nv5_mmio_arbitrate_write): the chain of range
tests in source order.  The PCI mirror receives the value converted to 8
bits. -/
def nv5_mmio_arbitrate_write (e : nv5_env) (s : nv5_t) (address value : Nat) : nv5_t :=
  if !e.nv3 then s
  else
    let address := address &&& 0xFFFFFF
    let address := address &&& 0xFFFFFC
    if address ≥ NV5_PMC_START ∧ address ≤ NV5_PMC_END then nv5_pmc_write s address value
    else if address ≥ NV5_CIO_START ∧ address ≤ NV5_CIO_END then nv5_cio_write s address value
    else if address ≥ NV5_PBUS_PCI_START ∧ address ≤ NV5_PBUS_PCI_END then
      e.nv5_pci_write s 0x00 (address &&& 0xFF) (value % 0x100)
    else if address ≥ NV5_PBUS_START ∧ address ≤ NV5_PBUS_END then nv5_pbus_write s address value
    else if address ≥ NV5_PFIFO_START ∧ address ≤ NV5_PFIFO_END then
      nv5_pfifo_write s address value
    else if address ≥ NV5_PRM_START ∧ address ≤ NV5_PRM_END then nv5_prm_write s address value
    else if address ≥ NV5_PRMIO_START ∧ address ≤ NV5_PRMIO_END then
      nv5_prmio_write s address value
    else if address ≥ NV5_PTIMER_START ∧ address ≤ NV5_PTIMER_END then
      nv5_ptimer_write s address value
    else if address ≥ NV5_PFB_START ∧ address ≤ NV5_PFB_END then nv5_pfb_write s address value
    else if address ≥ NV5_PEXTDEV_START ∧ address ≤ NV5_PEXTDEV_END then
      nv5_pextdev_write s address value
    else if address ≥ NV5_PROM_START ∧ address ≤ NV5_PROM_END then nv5_prom_write s address value
    else if address ≥ NV5_PALT_START ∧ address ≤ NV5_PALT_END then nv5_palt_write s address value
    else if address ≥ NV5_PME_START ∧ address ≤ NV5_PME_END then nv5_pme_write s address value
    else if address ≥ NV5_PGRAPH_START ∧ address ≤ NV5_PGRAPH_REAL_END then
      e.nv5_pgraph_write s address value
    else if address ≥ NV5_PRMCIO_START ∧ address ≤ NV5_PRMCIO_END then
      nv5_prmcio_write s address value
    else if address ≥ NV5_PVIDEO_START ∧ address ≤ NV5_PVIDEO_END then
      nv5_pvideo_write s address value
    else if address ≥ NV5_PRAMDAC_START ∧ address ≤ NV5_PRAMDAC_END then
      nv5_pramdac_write s address value
    else if address ≥ NV5_VRAM_START ∧ address ≤ NV5_VRAM_END then nv5_vram_write s address value
    else if address ≥ NV5_USER_START ∧ address ≤ NV5_USER_END then nv5_user_write s address value
    else if address ≥ NV5_PRAMIN_START ∧ address ≤ NV5_PRAMIN_END then
      e.nv5_pramin_arbitrate_write s address value
    else s

/-! ## nv5_core_arbiter.c: the arbiter as an ordered table of ranges -/

/-- The subsystems the arbiter can hand an access to, one per entry point pair. -/
inductive nv5_subsystem where
  | pmc | cio | pbus_pci | pbus | pfifo | pfb | prm | prmio | ptimer | pextdev
  | prom | palt | pme | pgraph | prmcio | pvideo | pramdac | vram | user | pramin
deriving DecidableEq, Repr

/-- The ordered table of [start, end] ranges tested by nv5_mmio_arbitrate_read,
in source order, each with the subsystem whose read function the branch
calls. -/
def nv5_read_ranges : List (Nat × Nat × nv5_subsystem) :=
  [ (NV5_PMC_START, NV5_PMC_END, .pmc),
    (NV5_CIO_START, NV5_CIO_END, .cio),
    (NV5_PBUS_PCI_START, NV5_PBUS_PCI_END, .pbus_pci),
    (NV5_PBUS_START, NV5_PBUS_END, .pbus),
    (NV5_PFIFO_START, NV5_PFIFO_END, .pfifo),
    (NV5_PFB_START, NV5_PFB_END, .pfb),
    (NV5_PRM_START, NV5_PRM_END, .prm),
    (NV5_PRMIO_START, NV5_PRMIO_END, .prmio),
    (NV5_PTIMER_START, NV5_PTIMER_END, .ptimer),
    (NV5_PFB_START, NV5_PFB_END, .pfb),
    (NV5_PEXTDEV_START, NV5_PEXTDEV_END, .pextdev),
    (NV5_PROM_START, NV5_PROM_END, .prom),
    (NV5_PALT_START, NV5_PALT_END, .palt),
    (NV5_PME_START, NV5_PME_END, .pme),
    (NV5_PGRAPH_START, NV5_PGRAPH_REAL_END, .pgraph),
    (NV5_PRMCIO_START, NV5_PRMCIO_END, .prmcio),
    (NV5_PVIDEO_START, NV5_PVIDEO_END, .pvideo),
    (NV5_PRAMDAC_START, NV5_PRAMDAC_END, .pramdac),
    (NV5_VRAM_START, NV5_VRAM_END, .vram),
    (NV5_USER_START, NV5_USER_END, .user) ]

/-- The ordered table of [start, end] ranges tested by
nv5_mmio_arbitrate_write, in source order. -/
def nv5_write_ranges : List (Nat × Nat × nv5_subsystem) :=
  [ (NV5_PMC_START, NV5_PMC_END, .pmc),
    (NV5_CIO_START, NV5_CIO_END, .cio),
    (NV5_PBUS_PCI_START, NV5_PBUS_PCI_END, .pbus_pci),
    (NV5_PBUS_START, NV5_PBUS_END, .pbus),
    (NV5_PFIFO_START, NV5_PFIFO_END, .pfifo),
    (NV5_PRM_START, NV5_PRM_END, .prm),
    (NV5_PRMIO_START, NV5_PRMIO_END, .prmio),
    (NV5_PTIMER_START, NV5_PTIMER_END, .ptimer),
    (NV5_PFB_START, NV5_PFB_END, .pfb),
    (NV5_PEXTDEV_START, NV5_PEXTDEV_END, .pextdev),
    (NV5_PROM_START, NV5_PROM_END, .prom),
    (NV5_PALT_START, NV5_PALT_END, .palt),
    (NV5_PME_START, NV5_PME_END, .pme),
    (NV5_PGRAPH_START, NV5_PGRAPH_REAL_END, .pgraph),
    (NV5_PRMCIO_START, NV5_PRMCIO_END, .prmcio),
    (NV5_PVIDEO_START, NV5_PVIDEO_END, .pvideo),
    (NV5_PRAMDAC_START, NV5_PRAMDAC_END, .pramdac),
    (NV5_VRAM_START, NV5_VRAM_END, .vram),
    (NV5_USER_START, NV5_USER_END, .user),
    (NV5_PRAMIN_START, NV5_PRAMIN_END, .pramin) ]

/-- First-match scan of a range table: the subsystem of the first entry whose
range contains the address, if any. -/
def first_match : List (Nat × Nat × nv5_subsystem) → Nat → Option nv5_subsystem
  | [], _ => none
  | (start, stop, sub) :: rest, address =>
    if address ≥ start ∧ address ≤ stop then some sub else first_match rest address

/-- The read entry point that the arbiter's branch for a subsystem calls. -/
def read_entry (e : nv5_env) (s : nv5_t) (address : Nat) : nv5_subsystem → Nat × nv5_t
  | .pmc => nv5_pmc_read s address
  | .cio => (nv5_cio_read address, s)
  | .pbus_pci => e.nv5_pci_read s 0x00 (address &&& 0xFF)
  | .pbus => nv5_pbus_read s address
  | .pfifo => nv5_pfifo_read s address
  | .pfb => nv5_pfb_read s address
  | .prm => (nv5_prm_read address, s)
  | .prmio => (nv5_prmio_read address, s)
  | .ptimer => nv5_ptimer_read s address
  | .pextdev => nv5_pextdev_read s address
  | .prom => (nv5_prom_read address, s)
  | .palt => (nv5_palt_read address, s)
  | .pme => nv5_pme_read s address
  | .pgraph => e.nv5_pgraph_read s address
  | .prmcio => (nv5_prmcio_read address, s)
  | .pvideo => nv5_pvideo_read s address
  | .pramdac => nv5_pramdac_read s address
  | .vram => (nv5_vram_read address, s)
  | .user => (nv5_user_read address, s)
  | .pramin => (0x00, s)

/-- The write entry point that the arbiter's branch for a subsystem calls. -/
def write_entry (e : nv5_env) (s : nv5_t) (address value : Nat) : nv5_subsystem → nv5_t
  | .pmc => nv5_pmc_write s address value
  | .cio => nv5_cio_write s address value
  | .pbus_pci => e.nv5_pci_write s 0x00 (address &&& 0xFF) (value % 0x100)
  | .pbus => nv5_pbus_write s address value
  | .pfifo => nv5_pfifo_write s address value
  | .pfb => nv5_pfb_write s address value
  | .prm => nv5_prm_write s address value
  | .prmio => nv5_prmio_write s address value
  | .ptimer => nv5_ptimer_write s address value
  | .pextdev => nv5_pextdev_write s address value
  | .prom => nv5_prom_write s address value
  | .palt => nv5_palt_write s address value
  | .pme => nv5_pme_write s address value
  | .pgraph => e.nv5_pgraph_write s address value
  | .prmcio => nv5_prmcio_write s address value
  | .pvideo => nv5_pvideo_write s address value
  | .pramdac => nv5_pramdac_write s address value
  | .vram => nv5_vram_write s address value
  | .user => nv5_user_write s address value
  | .pramin => e.nv5_pramin_arbitrate_write s address value

/-- Hands a read to the selected subsystem; no selection reads as 0. -/
def read_dispatch (e : nv5_env) (s : nv5_t) (address : Nat) : Option nv5_subsystem → Nat × nv5_t
  | some sub => read_entry e s address sub
  | none => (0x00, s)

/-- Hands a write to the selected subsystem; no selection discards it. -/
def write_dispatch (e : nv5_env) (s : nv5_t) (address value : Nat) : Option nv5_subsystem → nv5_t
  | some sub => write_entry e s address value sub
  | none => s

/-! ## nv5_core.c: the byte/word access composer -/

/-- Determines whether an address is redirected to the SVGA subsystem
(nv5_is_svga_redirect_address). -/
def nv5_is_svga_redirect_address (addr : Nat) : Bool :=
  decide (addr ≥ NV5_PRMVIO_START ∧ addr ≤ NV5_PRMVIO_END
    ∨ addr = NV5_PRMCIO_CRTC_REGISTER_CUR_COLOR
    ∨ addr = NV5_PRMCIO_CRTC_REGISTER_CUR_INDEX_COLOR
    ∨ addr = NV5_PRMCIO_CRTC_REGISTER_CUR_MONO
    ∨ addr = NV5_PRMCIO_CRTC_REGISTER_CUR_INDEX_MONO)

/-- Reads 32 bits of MMIO (nv5_mmio_read32).  The collaborator nv5_svga_in
takes a 16-bit port and returns a byte. -/
def nv5_mmio_read32 (e : nv5_env) (s : nv5_t) (addr : Nat) : Nat × nv5_t :=
  let addr := addr &&& 0xFFFFFF
  if nv5_is_svga_redirect_address addr then
    let real_address := addr &&& 0x3FF
    let r0 := e.nv5_svga_in s real_address
    let r1 := e.nv5_svga_in r0.2 (real_address + 1)
    let r2 := e.nv5_svga_in r1.2 (real_address + 2)
    let r3 := e.nv5_svga_in r2.2 (real_address + 3)
    ((r0.1 ||| (r1.1 <<< 8) ||| (r2.1 <<< 16) ||| (r3.1 <<< 24)) % 0x100000000, r3.2)
  else
    nv5_mmio_arbitrate_read e s addr

/-- Reads 8 bits of MMIO (nv5_mmio_read8). -/
def nv5_mmio_read8 (e : nv5_env) (s : nv5_t) (addr : Nat) : Nat × nv5_t :=
  let addr := addr &&& 0xFFFFFF
  if nv5_is_svga_redirect_address addr then
    let real_address := addr &&& 0x3FF
    let r := e.nv5_svga_in s real_address
    (r.1 % 0x100, r.2)
  else
    let r := nv5_mmio_read32 e s addr
    (((r.1 >>> ((addr &&& 3) <<< 3)) &&& 0xFF) % 0x100, r.2)

/-- Reads 16 bits of MMIO (nv5_mmio_read16).  On the arbiter path the source
converts the masked value to uint8_t before returning it. -/
def nv5_mmio_read16 (e : nv5_env) (s : nv5_t) (addr : Nat) : Nat × nv5_t :=
  let addr := addr &&& 0xFFFFFF
  if nv5_is_svga_redirect_address addr then
    let real_address := addr &&& 0x3FF
    let r0 := e.nv5_svga_in s real_address
    let r1 := e.nv5_svga_in r0.2 (real_address + 1)
    ((r0.1 ||| (r1.1 <<< 8)) % 0x10000, r1.2)
  else
    let r := nv5_mmio_read32 e s addr
    (((r.1 >>> ((addr &&& 3) <<< 3)) &&& 0xFFFF) % 0x100, r.2)

/-- Writes 32 bits of MMIO (nv5_mmio_write32). -/
def nv5_mmio_write32 (e : nv5_env) (s : nv5_t) (addr val : Nat) : nv5_t :=
  let addr := addr &&& 0xFFFFFF
  if nv5_is_svga_redirect_address addr then
    let real_address := addr &&& 0x3FF
    let s := e.nv5_svga_out s real_address (val &&& 0xFF)
    let s := e.nv5_svga_out s (real_address + 1) ((val >>> 8) &&& 0xFF)
    let s := e.nv5_svga_out s (real_address + 2) ((val >>> 16) &&& 0xFF)
    e.nv5_svga_out s (real_address + 3) ((val >>> 24) &&& 0xFF)
  else
    nv5_mmio_arbitrate_write e s addr val

/-- Writes 8 bits of MMIO (nv5_mmio_write8).  The lane mask is the C
expression (~0xFF << (addr & 3) << 3), which groups as
((~0xFF << (addr & 3)) << 3); it and the shifted value are 32-bit patterns. -/
def nv5_mmio_write8 (e : nv5_env) (s : nv5_t) (addr val : Nat) : nv5_t :=
  let addr := addr &&& 0xFFFFFF
  if nv5_is_svga_redirect_address addr then
    let real_address := addr &&& 0x3FF
    e.nv5_svga_out s real_address (val &&& 0xFF)
  else
    let r := nv5_mmio_read32 e s addr
    let new_val := r.1
    let new_val := new_val &&& (((0xFFFFFF00 <<< (addr &&& 3)) <<< 3) % 0x100000000)
    let new_val := new_val ||| ((val <<< ((addr &&& 3) <<< 3)) % 0x100000000)
    nv5_mmio_write32 e r.2 addr new_val

/-- Writes 16 bits of MMIO (nv5_mmio_write16).  The lane mask is the C
expression (~0xFFFF << (addr & 3) << 3), grouped as in nv5_mmio_write8. -/
def nv5_mmio_write16 (e : nv5_env) (s : nv5_t) (addr val : Nat) : nv5_t :=
  let addr := addr &&& 0xFFFFFF
  if nv5_is_svga_redirect_address addr then
    let real_address := addr &&& 0x3FF
    let s := e.nv5_svga_out s real_address (val &&& 0xFF)
    e.nv5_svga_out s (real_address + 1) ((val >>> 8) &&& 0xFF)
  else
    let r := nv5_mmio_read32 e s addr
    let new_val := r.1
    let new_val := new_val &&& (((0xFFFF0000 <<< (addr &&& 3)) <<< 3) % 0x100000000)
    let new_val := new_val ||| ((val <<< ((addr &&& 3) <<< 3)) % 0x100000000)
    nv5_mmio_write32 e r.2 addr new_val

/-! ## nv5_pbus.c: the real-mode access shifter -/

/-- Reads element i of a C array kept as a list; an element that the list does
not hold reads as 0 (the arrays start zero-filled). -/
def array_get (l : List Nat) (i : Nat) : Nat :=
  l.getD i 0

/-- Writes element i of a C array kept as a list, extending the list with
zeros up to the index when it is shorter. -/
def array_set (l : List Nat) (i v : Nat) : List Nat :=
  (l ++ List.replicate (i + 1 - l.length) 0).set i v

/-- Reads a byte through the real-mode access ports (nv5_pbus_rma_read).  The
port is a uint16_t and the result a uint8_t.  On the ports for which the
switch has no case the source returns its local ret unassigned; the byte
returned there is the one of the environment. -/
def nv5_pbus_rma_read (e : nv5_env) (s : nv5_t) (addr : Nat) : Nat × nv5_t :=
  let addr := (addr % 0x10000) &&& 0xFF
  if addr = 0x00 then (NV5_RMA_SIGNATURE_MSB, s)
  else if addr = 0x01 then (NV5_RMA_SIGNATURE_BYTE2, s)
  else if addr = 0x02 then (NV5_RMA_SIGNATURE_BYTE1, s)
  else if addr = 0x03 then (NV5_RMA_SIGNATURE_LSB, s)
  else if 0x08 ≤ addr ∧ addr ≤ 0x0B then
    let real_final_address := (s.pbus.rma.addr + (addr &&& 0x03)) % 0x100000000
    if s.pbus.rma.addr < NV5_MMIO_SIZE then
      nv5_mmio_read8 e s real_final_address
    else
      let svga := { s.nvbase.svga with chain4 := true, packed_chain4 := true }
      let r := e.svga_read_linear svga
        (((real_final_address + 0x100000000 - NV5_MMIO_SIZE) % 0x100000000)
          &&& ((svga.vram_max + 0x100000000 - 1) % 0x100000000))
      let svga := { r.2 with chain4 := false, packed_chain4 := false }
      (r.1 % 0x100, { s with nvbase := { s.nvbase with svga := svga } })
  else (e.uninitialised_ret % 0x100, s)

/-- Writes a byte through the real-mode access ports (nv5_pbus_rma_write).
The port is a uint16_t and the value a uint8_t; the accumulators are 32 bits
wide, ~0xff and its siblings are 32-bit complements, and the final addition
wraps. -/
def nv5_pbus_rma_write (e : nv5_env) (s : nv5_t) (addr val : Nat) : nv5_t :=
  let addr := (addr % 0x10000) &&& 0xFF
  let val := val % 0x100
  let s :=
    if addr < 0x08 then
      if addr % 0x04 = 0x00 then
        { s with pbus := { s.pbus with rma := { s.pbus.rma with
          addr := (s.pbus.rma.addr &&& 0xFFFFFF00) ||| val } } }
      else if addr % 0x04 = 0x01 then
        { s with pbus := { s.pbus with rma := { s.pbus.rma with
          addr := (s.pbus.rma.addr &&& 0xFFFF00FF) ||| (val <<< 8) } } }
      else if addr % 0x04 = 0x02 then
        { s with pbus := { s.pbus with rma := { s.pbus.rma with
          addr := (s.pbus.rma.addr &&& 0xFF00FFFF) ||| (val <<< 16) } } }
      else
        { s with pbus := { s.pbus with rma := { s.pbus.rma with
          addr := (s.pbus.rma.addr &&& 0x00FFFFFF) ||| (val <<< 24) } } }
    else
      if addr % 0x04 = 0x00 then
        { s with pbus := { s.pbus with rma := { s.pbus.rma with
          data := (s.pbus.rma.data &&& 0xFFFFFF00) ||| val } } }
      else if addr % 0x04 = 0x01 then
        { s with pbus := { s.pbus with rma := { s.pbus.rma with
          data := (s.pbus.rma.data &&& 0xFFFF00FF) ||| (val <<< 8) } } }
      else if addr % 0x04 = 0x02 then
        { s with pbus := { s.pbus with rma := { s.pbus.rma with
          data := (s.pbus.rma.data &&& 0xFF00FFFF) ||| (val <<< 16) } } }
      else
        let s := { s with pbus := { s.pbus with rma := { s.pbus.rma with
          data := (s.pbus.rma.data &&& 0x00FFFFFF) ||| (val <<< 24) } } }
        if s.pbus.rma.addr < NV5_MMIO_SIZE then
          nv5_mmio_write32 e s s.pbus.rma.addr s.pbus.rma.data
        else
          let svga := { s.nvbase.svga with chain4 := true, packed_chain4 := true }
          let svga := e.svga_writel_linear svga
            (((s.pbus.rma.addr + 0x100000000 - NV5_MMIO_SIZE) % 0x100000000)
              &&& ((svga.vram_max + 0x100000000 - 1) % 0x100000000))
            s.pbus.rma.data
          let svga := { svga with chain4 := false, packed_chain4 := false }
          { s with nvbase := { s.nvbase with svga := svga } }
  if addr &&& 0x10 ≠ 0 then
    { s with pbus := { s.pbus with rma := { s.pbus.rma with
      addr := (s.pbus.rma.addr + 0x04) % 0x100000000 } } }
  else s

/-! ## nv5_core.c: the SVGA port pair -/

/-- Reads an SVGA port (nv5_svga_in), with nv5_pbus_rma_read passed in as
rma_read: the source reaches it again through nv5_mmio_read8 from inside
nv5_pbus_rma_read.  The global nv5 is not NULL.  The port is a uint16_t, the
result a uint8_t.  The source writes the forwarded port as
mode & NV5_CRTC_REGISTER_RMA_MODE_MAX - 1, in which the subtraction binds
first. -/
def nv5_svga_in (e : nv5_env) (rma_read : nv5_t → Nat → Nat × nv5_t)
    (s : nv5_t) (addr : Nat) : Nat × nv5_t :=
  let addr := addr % 0x10000
  if addr ≥ NV5_RMA_REGISTER_START ∧ addr ≤ NV5_RMA_REGISTER_END then
    if s.pbus.rma.mode &&& 0x01 = 0 then (0x00, s)
    else
      let real_rma_read_addr :=
        ((s.pbus.rma.mode &&& (NV5_CRTC_REGISTER_RMA_MODE_MAX - 1)) <<< 1) + (addr &&& 0x03)
      let r := rma_read s real_rma_read_addr
      (r.1 % 0x100, r.2)
  else
    let addr :=
      if ((addr &&& 0xFFF0 = 0x3D0 ∨ addr &&& 0xFFF0 = 0x3B0) ∧ addr < 0x3de)
          ∧ s.nvbase.svga.miscout &&& 1 = 0 then
        addr ^^^ 0x60
      else addr
    if addr = 0x3D4 then (s.nvbase.svga.crtcreg % 0x100, s)
    else if addr = 0x3D5 then
      if s.nvbase.svga.crtcreg = NV5_CRTC_REGISTER_RL0 then
        ((s.nvbase.svga.displine &&& 0xFF) % 0x100, s)
      else if s.nvbase.svga.crtcreg = NV5_CRTC_REGISTER_RL1 then
        (((s.nvbase.svga.displine >>> 8) &&& 7) % 0x100, s)
      else if s.nvbase.svga.crtcreg = NV5_CRTC_REGISTER_I2C then
        (((e.i2c_gpio_get_sda s.nvbase.i2c <<< 3) ||| (e.i2c_gpio_get_scl s.nvbase.i2c <<< 2))
          % 0x100, s)
      else (array_get s.nvbase.svga.crtc s.nvbase.svga.crtcreg % 0x100, s)
    else
      let r := e.svga_in s.nvbase.svga addr
      (r.1 % 0x100, { s with nvbase := { s.nvbase with svga := r.2 } })

/-- Writes an SVGA port (nv5_svga_out), with nv5_pbus_rma_write passed in as
rma_write: the source reaches it again through nv5_mmio_write32 from inside
nv5_pbus_rma_write.  The global nv5 is not NULL.  The port is a uint16_t, the
value a uint8_t; the bank members are 32 bits wide. -/
def nv5_svga_out (e : nv5_env) (rma_write : nv5_t → Nat → Nat → nv5_t)
    (s : nv5_t) (addr val : Nat) : nv5_t :=
  let addr := addr % 0x10000
  let val := val % 0x100
  if addr ≥ NV5_RMA_REGISTER_START ∧ addr ≤ NV5_RMA_REGISTER_END then
    let s := { s with pbus := { s.pbus with rma := { s.pbus.rma with
      rma_regs := array_set s.pbus.rma.rma_regs (addr &&& 3) val } } }
    if s.pbus.rma.mode &&& 0x01 = 0 then s
    else
      let real_rma_write_addr :=
        ((s.pbus.rma.mode &&& (NV5_CRTC_REGISTER_RMA_MODE_MAX - 1)) <<< 1) + (addr &&& 0x03)
      rma_write s real_rma_write_addr (array_get s.pbus.rma.rma_regs (addr &&& 3))
  else
    let addr :=
      if ((addr &&& 0xFFF0 = 0x3D0 ∨ addr &&& 0xFFF0 = 0x3B0) ∧ addr < 0x3de)
          ∧ s.nvbase.svga.miscout &&& 1 = 0 then
        addr ^^^ 0x60
      else addr
    let crtcreg := s.nvbase.svga.crtcreg % 0x100
    if addr = 0x3D4 then
      { s with nvbase := { s.nvbase with svga := { s.nvbase.svga with crtcreg := val } } }
    else if addr = 0x3D5 then
      if s.nvbase.svga.crtcreg < NV5_CRTC_REGISTER_OVERFLOW
          ∧ array_get s.nvbase.svga.crtc 0x11 &&& 0x80 ≠ 0 then s
      else
        let val :=
          if s.nvbase.svga.crtcreg = NV5_CRTC_REGISTER_OVERFLOW
              ∧ array_get s.nvbase.svga.crtc 0x11 &&& 0x80 ≠ 0 then
            ((array_get s.nvbase.svga.crtc NV5_CRTC_REGISTER_OVERFLOW &&& 0xFFFFFFEF)
              ||| (val &&& 0x10)) % 0x100
          else val
        let old_value := array_get s.nvbase.svga.crtc crtcreg % 0x100
        let s : nv5_t := { s with nvbase := { s.nvbase with svga := { s.nvbase.svga with
          crtc := array_set s.nvbase.svga.crtc crtcreg val } } }
        let s : nv5_t :=
          if crtcreg = NV5_CRTC_REGISTER_READ_BANK then
            let s := { s with nvbase := { s.nvbase with cio_read_bank := val } }
            if s.nvbase.svga.chain4 then
              { s with nvbase := { s.nvbase with svga := { s.nvbase.svga with
                read_bank := (s.nvbase.cio_read_bank <<< 15) % 0x100000000 } } }
            else
              { s with nvbase := { s.nvbase with svga := { s.nvbase.svga with
                read_bank := (s.nvbase.cio_read_bank <<< 13) % 0x100000000 } } }
          else if crtcreg = NV5_CRTC_REGISTER_WRITE_BANK then
            let s := { s with nvbase := { s.nvbase with cio_write_bank := val } }
            if s.nvbase.svga.chain4 then
              { s with nvbase := { s.nvbase with svga := { s.nvbase.svga with
                write_bank := (s.nvbase.cio_write_bank <<< 15) % 0x100000000 } } }
            else
              { s with nvbase := { s.nvbase with svga := { s.nvbase.svga with
                write_bank := (s.nvbase.cio_write_bank <<< 13) % 0x100000000 } } }
          else if crtcreg = NV5_CRTC_REGISTER_RMA then
            { s with pbus := { s.pbus with rma := { s.pbus.rma with
              mode := val &&& NV5_CRTC_REGISTER_RMA_MODE_MAX } } }
          else if crtcreg = NV5_CRTC_REGISTER_I2C_GPIO then
            let scl := if val &&& 0x20 ≠ 0 then 1 else 0
            let sda := if val &&& 0x10 ≠ 0 then 1 else 0
            { s with nvbase := { s.nvbase with i2c := e.i2c_gpio_set s.nvbase.i2c scl sda } }
          else s
        if old_value ≠ val then
          if s.nvbase.svga.crtcreg < 0xE ∧ s.nvbase.svga.crtcreg > 0x10 then
            let s := { s with nvbase := { s.nvbase with svga := { s.nvbase.svga with
              fullchange := e.changeframecount } } }
            e.svga_recalctimings s
          else s
        else s
    else
      { s with nvbase := { s.nvbase with svga := e.svga_out s.nvbase.svga addr val } }

/-- Initialises PTIMER (nv5_ptimer_init): the source writes two log lines and
stores nothing, so the record stays as it was (zero-filled after calloc). -/
def nv5_ptimer_init (s : nv5_t) : nv5_t := s

/-! ## nv5_pramin_ramht.c -/

/-- An object name (nv5_pramin_name_t).  The C type is an anonymous union of
the 32-bit name with four uint8_t members, so each of the four members starts
at offset 0 of the name. -/
structure nv5_pramin_name_t where
  name : Nat
deriving DecidableEq, Repr

/-- The byte at offset 0 of the name, which every uint8_t member of the union
reads (the low byte on the little-endian hosts the emulator is built for). -/
def nv5_pramin_name_t.byte0 (n : nv5_pramin_name_t) : Nat := n.name % 0x100

/-- Member byte_high of the union. -/
def nv5_pramin_name_t.byte_high (n : nv5_pramin_name_t) : Nat := n.byte0

/-- Member byte_mid2 of the union. -/
def nv5_pramin_name_t.byte_mid2 (n : nv5_pramin_name_t) : Nat := n.byte0

/-- Member byte_mid1 of the union. -/
def nv5_pramin_name_t.byte_mid1 (n : nv5_pramin_name_t) : Nat := n.byte0

/-- Member byte_low of the union. -/
def nv5_pramin_name_t.byte_low (n : nv5_pramin_name_t) : Nat := n.byte0

/-- The RAMHT hash of an object name on a channel (nv5_ramht_hash). -/
def nv5_ramht_hash (name : nv5_pramin_name_t) (channel : Nat) : Nat :=
  let hash := (name.byte_high ^^^ name.byte_mid2 ^^^ name.byte_mid1 ^^^ name.byte_low
    ^^^ (channel % 0x100)) % 0x100000000
  hash

/-! ## Fixtures for concrete evaluation -/

/-- An environment for evaluating concrete accesses: nv3 is not NULL and the
outside functions return 0 and leave the device alone. -/
def env_quiet : nv5_env :=
  { nv3 := true,
    nv5_pci_read := fun s _ _ => (0, s),
    nv5_pci_write := fun s _ _ _ => s,
    nv5_pgraph_read := fun s _ => (0, s),
    nv5_pgraph_write := fun s _ _ => s,
    nv5_pramin_arbitrate_write := fun s _ _ => s,
    nv5_svga_in := fun s _ => (0, s),
    nv5_svga_out := fun s _ _ => s,
    svga_in := fun v _ => (0, v),
    svga_out := fun v _ _ => v,
    svga_recalctimings := fun s => s,
    svga_read_linear := fun v _ => (0, v),
    svga_writel_linear := fun v _ _ => v,
    i2c_gpio_get_sda := fun _ => 0,
    i2c_gpio_get_scl := fun _ => 0,
    i2c_gpio_set := fun b _ _ => b,
    changeframecount := 0,
    uninitialised_ret := 0 }

/-- The zero-filled device (the record right after calloc). -/
def nv5_zero : nv5_t := default

/-- The zero-filled device with the PMC global-enable word set to v. -/
def st_pmc_enable (v : Nat) : nv5_t :=
  { nv5_zero with pmc := { nv5_zero.pmc with enable := v } }

/-- The zero-filled device with PFB config register 1 set to v. -/
def st_pfb_config_1 (v : Nat) : nv5_t :=
  { nv5_zero with pfb := { nv5_zero.pfb with config_1 := v } }

/-- The zero-filled device with both PGRAPH interrupt-0 words set. -/
def st_pgraph0 (status enable : Nat) : nv5_t :=
  { nv5_zero with pgraph := { nv5_zero.pgraph with
      interrupt_status_0 := status, interrupt_enable_0 := enable } }

/-- A device with a PBUS interrupt pending and enabled, the given global
enable word, stored aggregate and state of the shared line. -/
def st_pbus_pending (global_enable aggregate : Nat) (line : Bool) : nv5_t :=
  { nv5_zero with
    pbus := { nv5_zero.pbus with interrupt_status := 1, interrupt_enable := 1 },
    pmc := { nv5_zero.pmc with interrupt_enable := global_enable, interrupt_status := aggregate },
    nvbase := { nv5_zero.nvbase with pci_irq_state := line } }

/-- A device with only the software bit stored in the aggregate, the given
global enable word and state of the shared line. -/
def st_software_only (global_enable : Nat) (line : Bool) : nv5_t :=
  { nv5_zero with
    pmc := { nv5_zero.pmc with interrupt_enable := global_enable, interrupt_status := 0x80000000 },
    nvbase := { nv5_zero.nvbase with pci_irq_state := line } }

/-- A device in which every subsystem has status 0x11 pending, PFIFO is not
repressed (pmc.enable has bit 8 set) and the shared line is asserted. -/
def st_all_pending : nv5_t :=
  { nv5_zero with
    pbus := { nv5_zero.pbus with interrupt_status := 0x11, interrupt_enable := 1 },
    pfifo := { nv5_zero.pfifo with interrupt_status := 0x11, interrupt_enable := 0x11 },
    pme := { nv5_zero.pme with interrupt_status := 0x11, interrupt_enable := 0x11 },
    pvideo := { nv5_zero.pvideo with interrupt_status := 0x11, interrupt_enable := 1 },
    ptimer := { nv5_zero.ptimer with interrupt_status := 0x11, interrupt_enable := 1 },
    pmc := { nv5_zero.pmc with enable := 0x100, interrupt_enable := 3 },
    nvbase := { nv5_zero.nvbase with pci_irq_state := true } }

/-- A device whose pmc.enable is 0x1000 (bit 8, PFIFO, clear; bit 12 set) and
whose PFIFO interrupt status is 0x11. -/
def st_pfifo_bit_clear : nv5_t :=
  { nv5_zero with
    pmc := { nv5_zero.pmc with enable := 0x1000 },
    pfifo := { nv5_zero.pfifo with interrupt_status := 0x11 } }

/-- Appends numbers to the journal that the collaborators of env_journal keep
in the crtc member of the host SVGA record. -/
def journal (v : svga_t) (l : List Nat) : svga_t :=
  { v with crtc := v.crtc ++ l }

/-- An environment for observing the calls made to the SVGA and VRAM
collaborators: it is env_quiet, except that every call of nv5_svga_in and
nv5_svga_out appends the port number it is given to the journal, and every
call of svga_read_linear and svga_writel_linear appends the linear offset it
is given (the write also the value). -/
def env_journal : nv5_env :=
  { env_quiet with
    nv5_svga_in := fun s port =>
      (0, { s with nvbase := { s.nvbase with svga := journal s.nvbase.svga [port] } }),
    nv5_svga_out := fun s port _ =>
      { s with nvbase := { s.nvbase with svga := journal s.nvbase.svga [port] } },
    svga_read_linear := fun v addr => (0, journal v [addr]),
    svga_writel_linear := fun v addr val => journal v [addr, val] }

/-- The zero-filled device with the shifter mode and address accumulator
set. -/
def st_rma (mode addr : Nat) : nv5_t :=
  { nv5_zero with pbus := { nv5_zero.pbus with
      rma := { nv5_zero.pbus.rma with mode := mode, addr := addr } } }

/-- The zero-filled device with 32 MB of VRAM (vram_max = 0x2000000). -/
def st_vram_32mb : nv5_t :=
  { nv5_zero with nvbase := { nv5_zero.nvbase with
      svga := { nv5_zero.nvbase.svga with vram_max := 0x2000000 } } }

/-- A device ready to tick: numerator 1, denominator 1, a memory clock of
1 MHz, the counter at the given value, the alarm at 0x20, and the PTIMER and
hardware interrupt enables set. -/
def st_ticking (time : Nat) : nv5_t :=
  { nv5_zero with
    ptimer := { nv5_zero.ptimer with
      clock_numerator := 1, clock_denominator := 1, time := time, alarm := 0x20,
      interrupt_enable := 1 },
    nvbase := { nv5_zero.nvbase with memory_clock_frequency := 1000000 },
    pmc := { nv5_zero.pmc with interrupt_enable := 1 } }

/-- A device in which PFIFO is enabled (pmc.enable has only bit 8 set) and all
else is zero. -/
def st_pfifo_enabled : nv5_t :=
  { nv5_zero with pmc := { nv5_zero.pmc with enable := 0x100 } }

/-- The zero-filled device with the PTIMER counter at the given value. -/
def st_ptimer_time (time : Nat) : nv5_t :=
  { nv5_zero with ptimer := { nv5_zero.ptimer with time := time } }

/-- A device in which PBUS, PME, PVIDEO and PTIMER all hold the given
interrupt status word and all else is zero. -/
def st_status_words (status : Nat) : nv5_t :=
  { nv5_zero with
    pbus := { nv5_zero.pbus with interrupt_status := status },
    pme := { nv5_zero.pme with interrupt_status := status },
    pvideo := { nv5_zero.pvideo with interrupt_status := status },
    ptimer := { nv5_zero.ptimer with interrupt_status := status } }

/-! ## Statements in the words of the description -/

/-- The line rule in the words of the interface description: the shared line
is asserted iff the aggregate is nonzero, the global enable word is nonzero,
and the gate selected by the test of the low 31 bits (hardware bit 0x1 when
they are nonzero, software bit 0x2 otherwise) is enabled. -/
def spec_line_asserted (aggregate global_enable : Nat) : Bool :=
  decide (aggregate ≠ 0 ∧ global_enable ≠ 0
    ∧ (if aggregate &&& 0x7FFFFFFF ≠ 0
        then global_enable &&& NV5_PMC_INTERRUPT_ENABLE_HARDWARE ≠ 0
        else global_enable &&& NV5_PMC_INTERRUPT_ENABLE_SOFTWARE ≠ 0))

/-- Lookup in the words of the description: scan (at most n entries) until the
sentinel and return the first entry with the address. -/
def spec_lookup (address : Nat) (table : List nv_register_t) (n : Nat) : Option nv_register_t :=
  ((table.take n).takeWhile (fun r => r.address != NV_REG_LIST_END)).find?
    (fun r => r.address == address)

/-- Two [start, end] ranges share an address. -/
def ranges_share (r1 r2 : Nat × Nat × nv5_subsystem) : Prop :=
  ∃ a : Nat, (a ≥ r1.1 ∧ a ≤ r1.2.1) ∧ (a ≥ r2.1 ∧ a ≤ r2.2.1)

/-- The stretches of the 24-bit aperture that no arbiter range covers. -/
def nv5_unmapped_gaps : List (Nat × Nat) :=
  [ (0x5000, 0x6FFF), (0x8000, 0x8FFF), (0xA000, 0xFFFFF), (0x102000, 0x10FFFF),
    (0x130000, 0x1FFFFF), (0x201000, 0x3FFFFF), (0x5C2000, 0x600FFF),
    (0x602000, 0x67FFFF), (0x681000, 0x7FFFFF) ]

/-- An address is not an entry of a descriptor table: no descriptor other than
the sentinel carries it. -/
def not_in_table (table : List nv_register_t) (address : Nat) : Prop :=
  ∀ r ∈ table, r.address ≠ NV_REG_LIST_END → r.address ≠ address

/-- The XOR of the four bytes of a 32-bit name (bits 31:24, 23:16, 15:8, 7:0)
with the low byte of the channel: the hash in the words of the description. -/
def spec_ramht_hash (name channel : Nat) : Nat :=
  ((name >>> 24) % 0x100) ^^^ ((name >>> 16) % 0x100) ^^^ ((name >>> 8) % 0x100)
    ^^^ (name % 0x100) ^^^ (channel % 0x100)

/-! ## Sequences of clock register writes -/

/-- A write to one of the two clock registers. -/
inductive clock_write where
  | memory (v : Nat)
  | pixel (v : Nat)
deriving DecidableEq, Repr

/-- Performs one clock register write through nv5_pramdac_write. -/
def apply_clock_write (s : nv5_t) : clock_write → nv5_t
  | .memory v => nv5_pramdac_write s NV5_PRAMDAC_CLOCK_MEMORY v
  | .pixel v => nv5_pramdac_write s NV5_PRAMDAC_CLOCK_PIXEL v

/-- The state reached from nv5_pramdac_init by a sequence of clock register
writes, first write first. -/
def run_clock_writes (s0 : nv5_t) (ws : List clock_write) : nv5_t :=
  ws.foldl apply_clock_write (nv5_pramdac_init s0)

/-- Whether a write goes to the memory clock register. -/
def clock_write.is_memory : clock_write → Bool
  | .memory _ => true
  | .pixel _ => false

/-- Whether a write goes to the pixel clock register. -/
def clock_write.is_pixel : clock_write → Bool
  | .memory _ => false
  | .pixel _ => true

/-! ## Frames, and transfers through the real-mode access shifter -/

/-- The device s with the state record of one subsystem engine and the shared
interrupt line taken from t: what a register write of that engine may turn s
into when it leaves the state records of all other subsystems alone.  The
engines are PBUS, PFIFO, PFB, PEXTDEV, PME, PVIDEO and PTIMER; for any other
subsystem only the line is taken from t. -/
def with_own_record : nv5_subsystem → nv5_t → nv5_t → nv5_t
  | .pbus, s, t =>
    { s with
      pbus := t.pbus,
      nvbase := { s.nvbase with pci_irq_state := t.nvbase.pci_irq_state } }
  | .pfifo, s, t =>
    { s with
      pfifo := t.pfifo,
      nvbase := { s.nvbase with pci_irq_state := t.nvbase.pci_irq_state } }
  | .pfb, s, t =>
    { s with
      pfb := t.pfb,
      nvbase := { s.nvbase with pci_irq_state := t.nvbase.pci_irq_state } }
  | .pextdev, s, t =>
    { s with
      pextdev := t.pextdev,
      nvbase := { s.nvbase with pci_irq_state := t.nvbase.pci_irq_state } }
  | .pme, s, t =>
    { s with
      pme := t.pme,
      nvbase := { s.nvbase with pci_irq_state := t.nvbase.pci_irq_state } }
  | .pvideo, s, t =>
    { s with
      pvideo := t.pvideo,
      nvbase := { s.nvbase with pci_irq_state := t.nvbase.pci_irq_state } }
  | .ptimer, s, t =>
    { s with
      ptimer := t.ptimer,
      nvbase := { s.nvbase with pci_irq_state := t.nvbase.pci_irq_state } }
  | _, s, t =>
    { s with nvbase := { s.nvbase with pci_irq_state := t.nvbase.pci_irq_state } }

/-- The device with the two accumulators of the shifter holding the given
address and data. -/
def rma_loaded (s : nv5_t) (addr data : Nat) : nv5_t :=
  { s with pbus := { s.pbus with rma := { s.pbus.rma with addr := addr, data := data } } }

/-- A sequence of byte writes (port, value) to the shifter through
nv5_pbus_rma_write, first write first. -/
def rma_write_seq (e : nv5_env) (s : nv5_t) (ws : List (Nat × Nat)) : nv5_t :=
  ws.foldl (fun s w => nv5_pbus_rma_write e s w.1 w.2) s

/-- The 32-bit write to the VRAM collaborator that completes a transfer to an
address outside the register aperture, as the else branch of
nv5_pbus_rma_write makes it on a device whose accumulators are loaded: chain4
and packed_chain4 are set for the call and cleared after it, and the linear
offset is the address accumulator less NV5_MMIO_SIZE, masked with
vram_max - 1 (32-bit arithmetic). -/
def rma_vram_write (e : nv5_env) (s : nv5_t) : nv5_t :=
  { s with nvbase := { s.nvbase with
      svga := { e.svga_writel_linear
          { s.nvbase.svga with chain4 := true, packed_chain4 := true }
          (((s.pbus.rma.addr + 0x100000000 - NV5_MMIO_SIZE) % 0x100000000)
            &&& ((s.nvbase.svga.vram_max + 0x100000000 - 1) % 0x100000000))
          s.pbus.rma.data with
        chain4 := false, packed_chain4 := false } } }

/-! ## Auxiliary facts -/

theorem and_mask24_of_lt (a : Nat) (h : a < 0x1000000) : a &&& 0xFFFFFF = a := by
  have h1 : a &&& 0xFFFFFF = a % 2 ^ 24 := Nat.and_pow_two_sub_one_eq_mod a 24
  rw [h1]
  exact Nat.mod_eq_of_lt h

theorem arbitrate_read_aligned (e : nv5_env) (s : nv5_t) (a : Nat) :
    nv5_mmio_arbitrate_read e s (a &&& 0xFFFFFC) = nv5_mmio_arbitrate_read e s a := by
  have h : (a &&& 0xFFFFFC) &&& 0xFFFFFC = a &&& 0xFFFFFC := by
    rw [Nat.and_assoc, Nat.and_self]
  unfold nv5_mmio_arbitrate_read
  simp only [h]

theorem mmio_read32_of_not_redirect (e : nv5_env) (s : nv5_t) (a : Nat)
    (ha : a < 0x1000000) (hr : nv5_is_svga_redirect_address a = false) :
    nv5_mmio_read32 e s a = nv5_mmio_arbitrate_read e s a := by
  unfold nv5_mmio_read32
  simp only [and_mask24_of_lt a ha, hr]
  rfl

theorem ite_or_bit (c : Prop) [Decidable c] (v x : Nat) :
    (if c then v ||| x else v) = v ||| (if c then x else 0) := by
  split <;> simp

theorem testBit_ite_bit (c : Prop) [Decidable c] (k j : Nat) :
    (if c then 1 <<< k else 0).testBit j = (decide c && decide (k = j)) := by
  split
  · rename_i h
    simp [h, Nat.one_shiftLeft, Nat.testBit_two_pow]
  · rename_i h
    simp [h]

/-- The aggregate as an OR of one conditional bit per source. -/
theorem new_intr_value_eq (s : nv5_t) :
    new_intr_value s =
      (if s.pme.interrupt_status &&& s.pme.interrupt_enable ≠ 0 then 1 <<< 4 else 0)
      ||| (if s.pfifo.interrupt_status &&& s.pfifo.interrupt_enable ≠ 0 then 1 <<< 8 else 0)
      ||| (if s.pgraph.interrupt_status_0 &&& (1 <<< 8) ≠ 0
            ∧ s.pgraph.interrupt_enable_0 &&& (1 <<< 8) ≠ 0 then 1 <<< 24 else 0)
      ||| (if s.pgraph.interrupt_status_0 &&& 0xFFFFFEFF ≠ 0
            ∧ s.pgraph.interrupt_enable_0 &&& 0xFFFFFEFF ≠ 0 then 1 <<< 12 else 0)
      ||| (if s.pgraph.interrupt_status_1 &&& s.pgraph.interrupt_enable_1 ≠ 0 then 1 <<< 13 else 0)
      ||| (if s.pvideo.interrupt_status &&& s.pvideo.interrupt_enable ≠ 0 then 1 <<< 16 else 0)
      ||| (if s.ptimer.interrupt_status &&& s.ptimer.interrupt_enable ≠ 0 then 1 <<< 20 else 0)
      ||| (if s.pbus.interrupt_status &&& s.pbus.interrupt_enable ≠ 0 then 1 <<< 28 else 0)
      ||| (if s.pmc.interrupt_status &&& (1 <<< 31) ≠ 0 then 1 <<< 31 else 0) := by
  unfold new_intr_value
  simp only [NV5_PMC_INTERRUPT_PMEDIA_PENDING, NV5_PMC_INTERRUPT_PMEDIA,
    NV5_PMC_INTERRUPT_PFIFO_PENDING, NV5_PMC_INTERRUPT_PFIFO,
    NV5_PMC_INTERRUPT_PFB_PENDING, NV5_PMC_INTERRUPT_PFB,
    NV5_PMC_INTERRUPT_PGRAPH0_PENDING, NV5_PMC_INTERRUPT_PGRAPH0,
    NV5_PMC_INTERRUPT_PGRAPH1_PENDING, NV5_PMC_INTERRUPT_PGRAPH1,
    NV5_PMC_INTERRUPT_PVIDEO_PENDING, NV5_PMC_INTERRUPT_PVIDEO,
    NV5_PMC_INTERRUPT_PTIMER_PENDING, NV5_PMC_INTERRUPT_PTIMER,
    NV5_PMC_INTERRUPT_PBUS_PENDING, NV5_PMC_INTERRUPT_PBUS,
    NV5_PMC_INTERRUPT_SOFTWARE_PENDING, NV5_PMC_INTERRUPT_SOFTWARE,
    ite_or_bit, Nat.zero_or]

theorem handle_interrupts_aggregate (s : nv5_t) (send_now : Bool) :
    (nv5_pmc_handle_interrupts s send_now).2.pmc.interrupt_status = new_intr_value s
      ∧ (nv5_pmc_handle_interrupts s send_now).1 = new_intr_value s := by
  unfold nv5_pmc_handle_interrupts nv5_pmc_clear_interrupts
  simp only
  split_ifs <;> exact ⟨rfl, rfl⟩

theorem new_intr_value_testBit (s : nv5_t) (j : Nat) :
    (new_intr_value s).testBit j =
      ((decide (s.pme.interrupt_status &&& s.pme.interrupt_enable ≠ 0) && decide (4 = j))
      || (decide (s.pfifo.interrupt_status &&& s.pfifo.interrupt_enable ≠ 0) && decide (8 = j))
      || (decide (s.pgraph.interrupt_status_0 &&& (1 <<< 8) ≠ 0
            ∧ s.pgraph.interrupt_enable_0 &&& (1 <<< 8) ≠ 0) && decide (24 = j))
      || (decide (s.pgraph.interrupt_status_0 &&& 0xFFFFFEFF ≠ 0
            ∧ s.pgraph.interrupt_enable_0 &&& 0xFFFFFEFF ≠ 0) && decide (12 = j))
      || (decide (s.pgraph.interrupt_status_1 &&& s.pgraph.interrupt_enable_1 ≠ 0) && decide (13 = j))
      || (decide (s.pvideo.interrupt_status &&& s.pvideo.interrupt_enable ≠ 0) && decide (16 = j))
      || (decide (s.ptimer.interrupt_status &&& s.ptimer.interrupt_enable ≠ 0) && decide (20 = j))
      || (decide (s.pbus.interrupt_status &&& s.pbus.interrupt_enable ≠ 0) && decide (28 = j))
      || (decide (s.pmc.interrupt_status &&& (1 <<< 31) ≠ 0) && decide (31 = j))) := by
  rw [new_intr_value_eq]
  simp only [Nat.testBit_or, testBit_ite_bit]

theorem pmc_read_intr (s : nv5_t) :
    nv5_pmc_read s NV5_PMC_INTERRUPT_STATUS
      = nv5_pmc_handle_interrupts (nv5_pmc_clear_interrupts s) false := by rfl

theorem pbus_write_intr (s : nv5_t) (v : Nat) :
    nv5_pbus_write s NV5_PBUS_INTR v
      = nv5_pmc_clear_interrupts { s with pbus := { s.pbus with
          interrupt_status := s.pbus.interrupt_status &&& (v ^^^ 0xFFFFFFFF) } } := by rfl

theorem pfifo_write_intr (s : nv5_t) (v : Nat) (h : nv5_pfifo_repressed s = false) :
    nv5_pfifo_write s NV5_PFIFO_INTR v
      = nv5_pmc_clear_interrupts { s with pfifo := { s.pfifo with
          interrupt_status := s.pfifo.interrupt_status &&& (v ^^^ 0xFFFFFFFF) } } := by
  unfold nv5_pfifo_write
  rw [h]
  rfl

theorem pmc_write_intr_en (s : nv5_t) (v : Nat) :
    nv5_pmc_write s NV5_PMC_INTERRUPT_ENABLE v
      = (nv5_pmc_handle_interrupts
          { s with pmc := { s.pmc with interrupt_enable := v &&& 0x03 } } (v != 0)).2 := by rfl

theorem not32_eq (v : Nat) (h : v < 0x100000000) : v ^^^ 0xFFFFFFFF = 0xFFFFFFFF - v := by
  apply Nat.eq_of_testBit_eq
  intro i
  have h2 : (0xFFFFFFFF : Nat) - v = 2 ^ 32 - (v + 1) := by omega
  have h3 : (0xFFFFFFFF : Nat) = 2 ^ 32 - 1 := by norm_num
  rw [h2, Nat.testBit_two_pow_sub_succ h, Nat.testBit_xor, h3, Nat.testBit_two_pow_sub_one]
  by_cases hi : i < 32
  · simp [hi]
  · have : v.testBit i = false := by
      apply Nat.testBit_lt_two_pow
      calc v < 2 ^ 32 := h
        _ ≤ 2 ^ i := Nat.pow_le_pow_right (by decide) (by omega)
    simp [hi, this]

theorem testBit_of_lt_two_pow32 (v i : Nat) (h : v < 0x100000000) (hi : ¬ i < 32) :
    v.testBit i = false := by
  apply Nat.testBit_lt_two_pow
  calc v < 2 ^ 32 := h
    _ ≤ 2 ^ i := Nat.pow_le_pow_right (by decide) (by omega)

theorem and_not32_self (v : Nat) (h : v < 0x100000000) : v &&& (0xFFFFFFFF - v) = 0 := by
  rw [← not32_eq v h]
  apply Nat.eq_of_testBit_eq
  intro i
  have h3 : (0xFFFFFFFF : Nat) = 2 ^ 32 - 1 := by norm_num
  rw [Nat.testBit_and, Nat.testBit_xor, h3, Nat.testBit_two_pow_sub_one]
  by_cases hi : i < 32
  · simp [hi]
  · simp [hi, testBit_of_lt_two_pow32 v i h hi]

theorem new_intr_value_lt (s : nv5_t) : new_intr_value s < 0x100000000 := by
  have h : new_intr_value s < 2 ^ 32 := by
    apply Nat.lt_pow_two_of_testBit
    intro i hi
    rw [new_intr_value_testBit]
    have h4 : ¬ (4 = i) := by omega
    have h8 : ¬ (8 = i) := by omega
    have h12 : ¬ (12 = i) := by omega
    have h13 : ¬ (13 = i) := by omega
    have h16 : ¬ (16 = i) := by omega
    have h20 : ¬ (20 = i) := by omega
    have h24 : ¬ (24 = i) := by omega
    have h28 : ¬ (28 = i) := by omega
    have h31 : ¬ (31 = i) := by omega
    simp [h4, h8, h12, h13, h16, h20, h24, h28, h31]
  exact h

theorem and_low31_eq_zero_iff (x : Nat) (h : x < 0x100000000) :
    x &&& 0x7FFFFFFF = 0 ↔ (x = 0 ∨ (x + 0x100000000 - 0x80000000) % 0x100000000 = 0) := by
  have h1 : x &&& 0x7FFFFFFF = x % 2 ^ 31 := Nat.and_pow_two_sub_one_eq_mod x 31
  rw [h1]
  omega

/-- What nv5_pmc_handle_interrupts leaves behind: only the stored aggregate
and the shared line can differ from the state before. -/
theorem handle_interrupts_frame (s : nv5_t) (send_now : Bool) :
    (nv5_pmc_handle_interrupts s send_now).2
      = { s with
          pmc := { s.pmc with interrupt_status := new_intr_value s },
          nvbase := { s.nvbase with
            pci_irq_state := (nv5_pmc_handle_interrupts s send_now).2.nvbase.pci_irq_state } } := by
  unfold nv5_pmc_handle_interrupts nv5_pmc_clear_interrupts pci_clear_irq pci_set_irq
  simp only
  split_ifs <;> rfl

/-- The shared line after nv5_pmc_handle_interrupts with send_now set. -/
theorem handle_interrupts_line_send (s : nv5_t) :
    ((nv5_pmc_handle_interrupts s true).2.nvbase.pci_irq_state = true
      ↔ (s.pmc.interrupt_enable ≠ 0 ∧ new_intr_value s &&& 0x7FFFFFFF ≠ 0
          ∧ (s.pmc.interrupt_enable &&& 0x1 ≠ 0 ∨ s.nvbase.pci_irq_state = true))) := by
  have hlt := new_intr_value_lt s
  have hz := and_low31_eq_zero_iff (new_intr_value s) hlt
  unfold nv5_pmc_handle_interrupts nv5_pmc_clear_interrupts pci_clear_irq pci_set_irq
  simp only [NV5_PMC_INTERRUPT_ENABLE_HARDWARE, NV5_PMC_INTERRUPT_ENABLE_SOFTWARE]
  split_ifs with h1 h2 h3 h4 h5 <;> simp_all

theorem bit8_test (x : Nat) : x &&& 256 ≠ 0 ↔ x.testBit 8 = true := by
  have h : (256 : Nat) = 2 ^ 8 := by norm_num
  rw [h]
  constructor
  · intro hne
    by_contra hb
    apply hne
    apply Nat.eq_of_testBit_eq
    intro i
    rw [Nat.testBit_and, Nat.testBit_two_pow, Nat.zero_testBit]
    by_cases hi : 8 = i
    · subst hi
      simp at hb
      simp [hb]
    · simp [hi]
  · intro hb hz
    have : (x &&& 2 ^ 8).testBit 8 = true := by
      rw [Nat.testBit_and, hb, Nat.testBit_two_pow_self]
      rfl
    rw [hz] at this
    simp at this

theorem pme_write_intr (s : nv5_t) (v : Nat) :
    nv5_pme_write s NV5_PME_INTR v
      = nv5_pmc_clear_interrupts { s with pme := { s.pme with
          interrupt_status := s.pme.interrupt_status &&& (v ^^^ 0xFFFFFFFF) } } := by rfl

theorem pvideo_write_intr (s : nv5_t) (v : Nat) :
    nv5_pvideo_write s NV5_PVIDEO_INTR v
      = nv5_pmc_clear_interrupts { s with pvideo := { s.pvideo with
          interrupt_status := s.pvideo.interrupt_status &&& (v ^^^ 0xFFFFFFFF) } } := by rfl

theorem ptimer_write_intr (s : nv5_t) (v : Nat) :
    nv5_ptimer_write s NV5_PTIMER_INTR v
      = nv5_pmc_clear_interrupts { s with ptimer := { s.ptimer with
          interrupt_status := s.ptimer.interrupt_status &&& (v ^^^ 0xFFFFFFFF) } } := by rfl

/-! ### The arbiter, the register tables and the clock generators -/

theorem get_register_eq_spec_lookup (address : Nat) (table : List nv_register_t) (n : Nat) :
    nv_get_register address table n = spec_lookup address table n := by
  induction table generalizing n with
  | nil => cases n <;> rfl
  | cons r rest ih =>
    cases n with
    | zero => rfl
    | succ m =>
      unfold nv_get_register spec_lookup
      by_cases h1 : r.address = NV_REG_LIST_END
      · simp [h1, List.takeWhile]
      · have hb1 : (r.address == NV_REG_LIST_END) = false := by simp [h1]
        have hb1n : (r.address != NV_REG_LIST_END) = true := by simp [h1]
        by_cases h2 : r.address = address
        · have hb2 : (r.address == address) = true := by simp [h2]
          simp only [hb1, hb2, hb1n, List.take_succ_cons, List.takeWhile, List.find?,
            Bool.false_eq_true, if_false, if_true]
        · have hb2 : (r.address == address) = false := by simp [h2]
          have := ih m
          unfold spec_lookup at this
          simp only [hb1, hb2, hb1n, List.take_succ_cons, List.takeWhile, List.find?,
            Bool.false_eq_true, if_false, this]

theorem get_register_none_of_absent (address : Nat) (table : List nv_register_t) (n : Nat)
    (h : ∀ r ∈ table, r.address ≠ NV_REG_LIST_END → r.address ≠ address) :
    nv_get_register address table n = none := by
  induction table generalizing n with
  | nil => cases n <;> rfl
  | cons r rest ih =>
    cases n with
    | zero => rfl
    | succ m =>
      unfold nv_get_register
      by_cases h1 : r.address = NV_REG_LIST_END
      · simp [h1]
      · have h2 : r.address ≠ address := h r (List.mem_cons_self _ _) h1
        simp only [beq_iff_eq, h1, h2, if_false]
        exact ih m (fun q hq => h q (List.mem_cons_of_mem _ hq))

theorem get_register_some_iff (address : Nat) (table : List nv_register_t) (n : Nat)
    (r : nv_register_t) :
    nv_get_register address table n = some r
      ↔ ∃ i, i < n ∧ table[i]? = some r ∧ r.address = address
          ∧ r.address ≠ NV_REG_LIST_END
          ∧ ∀ j, j < i → ∀ q, table[j]? = some q →
              q.address ≠ NV_REG_LIST_END ∧ q.address ≠ address := by
  induction table generalizing n with
  | nil =>
    cases n <;> simp [nv_get_register]
  | cons x rest ih =>
    cases n with
    | zero => simp [nv_get_register]
    | succ m =>
      unfold nv_get_register
      by_cases h1 : x.address = NV_REG_LIST_END
      · simp only [beq_iff_eq, h1, if_true]
        constructor
        · intro h; cases h
        · rintro ⟨i, _, hi, ha, hne, hprev⟩
          cases i with
          | zero =>
            simp at hi
            subst hi
            exact absurd h1 hne
          | succ k =>
            have := (hprev 0 (Nat.succ_pos k) x (by simp)).1
            exact absurd h1 this
      · by_cases h2 : x.address = address
        · have hb1 : (x.address == NV_REG_LIST_END) = false := by simp [h1]
          have hb2 : (x.address == address) = true := by simp [h2]
          simp only [hb1, hb2, Bool.false_eq_true, if_false, if_true]
          constructor
          · intro h
            cases h
            exact ⟨0, Nat.succ_pos m, by simp, h2, h1, fun j hj => absurd hj (Nat.not_lt_zero j)⟩
          · rintro ⟨i, _, hi, ha, hne, hprev⟩
            cases i with
            | zero =>
              simp at hi
              rw [hi]
            | succ k =>
              have := (hprev 0 (Nat.succ_pos k) x (by simp)).2
              exact absurd h2 this
        · have hb1 : (x.address == NV_REG_LIST_END) = false := by simp [h1]
          have hb2 : (x.address == address) = false := by simp [h2]
          simp only [hb1, hb2, Bool.false_eq_true, if_false]
          rw [ih m]
          constructor
          · rintro ⟨i, hi, hget, ha, hne, hprev⟩
            refine ⟨i + 1, Nat.succ_lt_succ hi, by simpa using hget, ha, hne, ?_⟩
            intro j hj q hq
            cases j with
            | zero =>
              simp at hq
              subst hq
              exact ⟨h1, h2⟩
            | succ k =>
              exact hprev k (Nat.lt_of_succ_lt_succ hj) q (by simpa using hq)
          · rintro ⟨i, hi, hget, ha, hne, hprev⟩
            cases i with
            | zero =>
              simp at hget
              subst hget
              exact absurd ha h2
            | succ k =>
              refine ⟨k, Nat.lt_of_succ_lt_succ hi, by simpa using hget, ha, hne, ?_⟩
              intro j hj q hq
              exact hprev (j + 1) (Nat.succ_lt_succ hj) q (by simpa using hq)
theorem first_match_cons (start stop : Nat) (sub : nv5_subsystem)
    (rest : List (Nat × Nat × nv5_subsystem)) (x : Nat) :
    first_match ((start, stop, sub) :: rest) x
      = if x ≥ start ∧ x ≤ stop then some sub else first_match rest x := rfl

theorem first_match_nil (x : Nat) : first_match [] x = none := rfl

theorem read_dispatch_ite (e : nv5_env) (s : nv5_t) (x : Nat) (c : Prop) [Decidable c]
    (sub : nv5_subsystem) (o : Option nv5_subsystem) :
    read_dispatch e s x (if c then some sub else o)
      = if c then read_entry e s x sub else read_dispatch e s x o := by
  split <;> rfl

theorem write_dispatch_ite (e : nv5_env) (s : nv5_t) (x v : Nat) (c : Prop) [Decidable c]
    (sub : nv5_subsystem) (o : Option nv5_subsystem) :
    write_dispatch e s x v (if c then some sub else o)
      = if c then write_entry e s x v sub else write_dispatch e s x v o := by
  split <;> rfl

theorem arbitrate_read_eq_first_match (e : nv5_env) (s : nv5_t) (a : Nat) :
    nv5_mmio_arbitrate_read e s a
      = if !e.nv3 then (0x00, s)
        else read_dispatch e s (a &&& 0xFFFFFC) (first_match nv5_read_ranges (a &&& 0xFFFFFC)) := by
  unfold nv5_mmio_arbitrate_read
  cases hn : e.nv3
  · rfl
  · simp only [Bool.not_true, Bool.false_eq_true, if_false]
    generalize a &&& 0xFFFFFC = x
    unfold nv5_read_ranges
    rw [first_match_cons, read_dispatch_ite,
      first_match_cons, read_dispatch_ite,
      first_match_cons, read_dispatch_ite,
      first_match_cons, read_dispatch_ite,
      first_match_cons, read_dispatch_ite,
      first_match_cons, read_dispatch_ite,
      first_match_cons, read_dispatch_ite,
      first_match_cons, read_dispatch_ite,
      first_match_cons, read_dispatch_ite,
      first_match_cons, read_dispatch_ite,
      first_match_cons, read_dispatch_ite,
      first_match_cons, read_dispatch_ite,
      first_match_cons, read_dispatch_ite,
      first_match_cons, read_dispatch_ite,
      first_match_cons, read_dispatch_ite,
      first_match_cons, read_dispatch_ite,
      first_match_cons, read_dispatch_ite,
      first_match_cons, read_dispatch_ite,
      first_match_cons, read_dispatch_ite,
      first_match_cons, read_dispatch_ite,
      first_match_nil]
    rfl

theorem arbitrate_write_eq_first_match (e : nv5_env) (s : nv5_t) (a v : Nat) :
    nv5_mmio_arbitrate_write e s a v
      = if !e.nv3 then s
        else write_dispatch e s ((a &&& 0xFFFFFF) &&& 0xFFFFFC) v
          (first_match nv5_write_ranges ((a &&& 0xFFFFFF) &&& 0xFFFFFC)) := by
  unfold nv5_mmio_arbitrate_write
  cases hn : e.nv3
  · rfl
  · simp only [Bool.not_true, Bool.false_eq_true, if_false]
    generalize (a &&& 0xFFFFFF) &&& 0xFFFFFC = x
    unfold nv5_write_ranges
    rw [first_match_cons, write_dispatch_ite,
      first_match_cons, write_dispatch_ite,
      first_match_cons, write_dispatch_ite,
      first_match_cons, write_dispatch_ite,
      first_match_cons, write_dispatch_ite,
      first_match_cons, write_dispatch_ite,
      first_match_cons, write_dispatch_ite,
      first_match_cons, write_dispatch_ite,
      first_match_cons, write_dispatch_ite,
      first_match_cons, write_dispatch_ite,
      first_match_cons, write_dispatch_ite,
      first_match_cons, write_dispatch_ite,
      first_match_cons, write_dispatch_ite,
      first_match_cons, write_dispatch_ite,
      first_match_cons, write_dispatch_ite,
      first_match_cons, write_dispatch_ite,
      first_match_cons, write_dispatch_ite,
      first_match_cons, write_dispatch_ite,
      first_match_cons, write_dispatch_ite,
      first_match_cons, write_dispatch_ite,
      first_match_nil]
    rfl

theorem first_match_none (t : List (Nat × Nat × nv5_subsystem)) (x : Nat)
    (h : ∀ r ∈ t, ¬ (x ≥ r.1 ∧ x ≤ r.2.1)) : first_match t x = none := by
  induction t with
  | nil => rfl
  | cons r rest ih =>
    obtain ⟨st, en, sub⟩ := r
    rw [first_match_cons, if_neg (h (st, en, sub) (List.mem_cons_self _ _))]
    exact ih (fun q hq => h q (List.mem_cons_of_mem _ hq))

theorem unmapped_iff_in_gap (x : Nat) (hx : x ≤ 0xFFFFFF) :
    (∀ r ∈ nv5_read_ranges ++ nv5_write_ranges, ¬ (x ≥ r.1 ∧ x ≤ r.2.1))
      ↔ ∃ g ∈ nv5_unmapped_gaps, g.1 ≤ x ∧ x ≤ g.2 := by
  simp only [nv5_read_ranges, nv5_write_ranges, nv5_unmapped_gaps, List.cons_append,
    List.nil_append, List.forall_mem_cons, List.exists_mem_cons_iff, List.mem_cons,
    List.not_mem_nil, forall_eq_or_imp, exists_eq_or_imp,
    NV5_PMC_START, NV5_PMC_END, NV5_CIO_START, NV5_CIO_END, NV5_PBUS_PCI_START,
    NV5_PBUS_PCI_END, NV5_PBUS_START, NV5_PBUS_END, NV5_PFIFO_START, NV5_PFIFO_END,
    NV5_PFB_START, NV5_PFB_END, NV5_PRM_START, NV5_PRM_END, NV5_PRMIO_START, NV5_PRMIO_END,
    NV5_PTIMER_START, NV5_PTIMER_END, NV5_PEXTDEV_START, NV5_PEXTDEV_END, NV5_PROM_START,
    NV5_PROM_END, NV5_PALT_START, NV5_PALT_END, NV5_PME_START, NV5_PME_END,
    NV5_PGRAPH_START, NV5_PGRAPH_REAL_END, NV5_PRMCIO_START, NV5_PRMCIO_END,
    NV5_PVIDEO_START, NV5_PVIDEO_END, NV5_PRAMDAC_START, NV5_PRAMDAC_END, NV5_VRAM_START,
    NV5_VRAM_END, NV5_PNVM_START, NV5_PNVM_END, NV5_USER_START, NV5_USER_END,
    NV5_PRAMIN_START, NV5_PRAMIN_END]
  simp only [IsEmpty.forall_iff, and_true, false_and, exists_false, or_false, not_false_eq_true,
    implies_true]
  omega
theorem ranges_share_iff (r1 r2 : Nat × Nat × nv5_subsystem) :
    ranges_share r1 r2 ↔ (max r1.1 r2.1 ≤ min r1.2.1 r2.2.1) := by
  unfold ranges_share
  constructor
  · rintro ⟨a, ⟨h1, h2⟩, h3, h4⟩
    omega
  · intro h
    refine ⟨max r1.1 r2.1, ⟨?_, ?_⟩, ?_, ?_⟩ <;> omega

theorem read_ranges_share_fin :
    ∀ i j : Fin 20, i < j →
      (decide (max (nv5_read_ranges.get i).1 (nv5_read_ranges.get j).1
          ≤ min (nv5_read_ranges.get i).2.1 (nv5_read_ranges.get j).2.1)
        = decide ((i.val, j.val) ∈ [(0, 1), (2, 3), (5, 9)])) := by
  decide


theorem first_match_read_overlaps (x : Nat) :
    (NV5_CIO_START ≤ x ∧ x ≤ NV5_CIO_END
        → first_match nv5_read_ranges x = some nv5_subsystem.pmc)
      ∧ (NV5_PBUS_PCI_START ≤ x ∧ x ≤ NV5_PBUS_PCI_END
        → first_match nv5_read_ranges x = some nv5_subsystem.pbus_pci)
      ∧ (NV5_PFB_START ≤ x ∧ x ≤ NV5_PFB_END
        → first_match nv5_read_ranges x = some nv5_subsystem.pfb) := by
  unfold nv5_read_ranges
  simp only [NV5_PMC_START, NV5_PMC_END, NV5_CIO_START, NV5_CIO_END, NV5_PBUS_PCI_START,
    NV5_PBUS_PCI_END, NV5_PBUS_START, NV5_PBUS_END, NV5_PFIFO_START, NV5_PFIFO_END,
    NV5_PFB_START, NV5_PFB_END]
  refine ⟨?_, ?_, ?_⟩
  · intro h
    rw [first_match_cons, if_pos (by omega)]
  · intro h
    rw [first_match_cons, if_neg (by omega), first_match_cons, if_neg (by omega),
      first_match_cons, if_pos (by omega)]
  · intro h
    rw [first_match_cons, if_neg (by omega), first_match_cons, if_neg (by omega),
      first_match_cons, if_neg (by omega), first_match_cons, if_neg (by omega),
      first_match_cons, if_neg (by omega), first_match_cons, if_pos (by omega)]
theorem not_in_table_iff (table : List nv_register_t) (address : Nat) :
    not_in_table table address
      ↔ ∀ a ∈ table.map (fun r => r.address), a ≠ NV_REG_LIST_END → a ≠ address := by
  unfold not_in_table
  simp only [List.mem_map, forall_exists_index, and_imp, forall_apply_eq_imp_iff₂]


theorem pack_clock_fields (v : Nat) :
    ((v &&& 0xFF) + (((v >>> 8) &&& 0xFF) <<< 8) + (((v >>> 16) &&& 0x07) <<< 16)) % 0x100000000
      = v &&& 0x7FFFF := by
  have h1 : v &&& 0xFF = v % 2 ^ 8 := Nat.and_pow_two_sub_one_eq_mod v 8
  have h2 : (v >>> 8) &&& 0xFF = (v >>> 8) % 2 ^ 8 := Nat.and_pow_two_sub_one_eq_mod _ 8
  have h3 : (v >>> 16) &&& 0x07 = (v >>> 16) % 2 ^ 3 := Nat.and_pow_two_sub_one_eq_mod _ 3
  have h4 : v &&& 0x7FFFF = v % 2 ^ 19 := Nat.and_pow_two_sub_one_eq_mod v 19
  rw [h1, h2, h3, h4, Nat.shiftRight_eq_div_pow, Nat.shiftRight_eq_div_pow, Nat.shiftLeft_eq,
    Nat.shiftLeft_eq]
  omega

theorem pramdac_write_clock_memory (s : nv5_t) (v : Nat) :
    nv5_pramdac_write s NV5_PRAMDAC_CLOCK_MEMORY v = nv5_pramdac_set_vram_clock_register s v := by
  rfl

theorem pramdac_write_clock_pixel (s : nv5_t) (v : Nat) :
    nv5_pramdac_write s NV5_PRAMDAC_CLOCK_PIXEL v = nv5_pramdac_set_pixel_clock_register s v := by
  rfl

theorem pramdac_read_clock_memory (s : nv5_t) :
    nv5_pramdac_read s NV5_PRAMDAC_CLOCK_MEMORY = (nv5_pramdac_get_vram_clock_register s, s) := by
  rfl

theorem pramdac_read_clock_pixel (s : nv5_t) :
    nv5_pramdac_read s NV5_PRAMDAC_CLOCK_PIXEL = (nv5_pramdac_get_pixel_clock_register s, s) := by
  rfl

/-- Rounding a positive quotient of coprime naturals. -/
theorem round_float_ratio (p a b : Nat) (ha : 0 < a) (hb : 0 < b) (h : Nat.Coprime a b) :
    round_float p ((a : ℚ) / (b : ℚ))
      = (float_significand p a b : ℚ) * (2 : ℚ) ^ float_exponent p a b := by
  have hq : (0 : ℚ) < (a : ℚ) / (b : ℚ) :=
    div_pos (Nat.cast_pos.mpr ha) (Nat.cast_pos.mpr hb)
  have hnum : ((a : ℚ) / (b : ℚ)).num = (a : ℤ) := by
    have := Rat.num_div_eq_of_coprime (a := (a : ℤ)) (b := (b : ℤ)) (by exact_mod_cast hb)
      (by simpa using h)
    simpa using this
  have hden : ((a : ℚ) / (b : ℚ)).den = b := by
    have := Rat.den_div_eq_of_coprime (a := (a : ℤ)) (b := (b : ℤ)) (by exact_mod_cast hb)
      (by simpa using h)
    have h2 : ((((a : ℚ) / (b : ℚ)).den : ℤ)) = (b : ℤ) := by simpa using this
    exact_mod_cast h2
  unfold round_float
  rw [if_neg (ne_of_gt hq), hnum, hden]
  simp only [Int.natAbs_ofNat]
  rw [if_neg (not_lt.mpr (le_of_lt hq))]

theorem round_float_zero (p : Nat) : round_float p 0 = 0 := by
  unfold round_float
  rw [if_pos rfl]

theorem float32_zero : float32 0 = 0 := round_float_zero 24

/-- The constant 1000000.0 * 10 of the period computations is a double as it
stands. -/
theorem float64_ten_million : float64 (1000000 * (10 : ℚ)) = 10000000 := by
  have e : (1000000 * (10 : ℚ)) = ((10000000 : Nat) : ℚ) / ((1 : Nat) : ℚ) := by norm_num
  unfold float64
  rw [e, round_float_ratio 53 10000000 1 (by decide) (by decide) (by decide)]
  have h1 : float_significand 53 10000000 1 = 5368709120000000 := by decide
  have h2 : float_exponent 53 10000000 1 = -29 := by decide
  rw [h1, h2]
  norm_num

theorem float32_nat_200 : float32 ((200 : Nat) : ℚ) = 200 := by
  have e : ((200 : Nat) : ℚ) = ((200 : Nat) : ℚ) / ((1 : Nat) : ℚ) := by norm_num
  unfold float32
  rw [e, round_float_ratio 24 200 1 (by decide) (by decide) (by decide)]
  have h1 : float_significand 24 200 1 = 13107200 := by decide
  have h2 : float_exponent 24 200 1 = -16 := by decide
  rw [h1, h2]
  norm_num

theorem float32_nat_28672 : float32 ((28672 : Nat) : ℚ) = 28672 := by
  have e : ((28672 : Nat) : ℚ) = ((28672 : Nat) : ℚ) / ((1 : Nat) : ℚ) := by norm_num
  unfold float32
  rw [e, round_float_ratio 24 28672 1 (by decide) (by decide) (by decide)]
  have h1 : float_significand 24 28672 1 = 14680064 := by decide
  have h2 : float_exponent 24 28672 1 = -9 := by decide
  rw [h1, h2]
  norm_num

theorem float32_2700000000 : float32 (13500000 * 200) = 2700000000 := by
  have e : (13500000 * 200 : ℚ) = ((2700000000 : Nat) : ℚ) / ((1 : Nat) : ℚ) := by norm_num
  unfold float32
  rw [e, round_float_ratio 24 2700000000 1 (by decide) (by decide) (by decide)]
  have h1 : float_significand 24 2700000000 1 = 10546875 := by decide
  have h2 : float_exponent 24 2700000000 1 = 8 := by decide
  rw [h1, h2]
  norm_num

/-- The single-precision quotient of the power-on memory clock. -/
theorem float32_power_on_quotient :
    float32 ((13500000 * 200 : ℚ) / ((7 <<< 12 : Nat) : ℚ)) = 12053571 / 128 := by
  have e : ((13500000 * 200 : ℚ) / ((7 <<< 12 : Nat) : ℚ))
      = ((10546875 : Nat) : ℚ) / ((112 : Nat) : ℚ) := by
    norm_num [Nat.shiftLeft_eq]
  unfold float32
  rw [e, round_float_ratio 24 10546875 112 (by decide) (by decide) (by decide)]
  have h1 : float_significand 24 10546875 112 = 12053571 := by decide
  have h2 : float_exponent 24 10546875 112 = -7 := by decide
  rw [h1, h2]
  norm_num

/-- The double-precision period of the power-on memory clock. -/
theorem float64_power_on_period :
    float64 (10000000 / (12053571 / 128 : ℚ)) = 7472639647404899 / 70368744177664 := by
  have e : (10000000 / (12053571 / 128 : ℚ))
      = ((1280000000 : Nat) : ℚ) / ((12053571 : Nat) : ℚ) := by
    norm_num
  unfold float64
  rw [e, round_float_ratio 53 1280000000 12053571 (by decide) (by decide) (by decide)]
  have h1 : float_significand 53 1280000000 12053571 = 7472639647404899 := by decide
  have h2 : float_exponent 53 1280000000 12053571 = -46 := by decide
  rw [h1, h2]
  norm_num

/-- The RAMDAC record after nv5_pramdac_set_vram_clock: M and N of the memory
clock are raised to 1 when they are 0, nothing else changes. -/
theorem set_vram_clock_pramdac (s : nv5_t) :
    (nv5_pramdac_set_vram_clock s).pramdac
      = { s.pramdac with
          memory_clock_m := if s.pramdac.memory_clock_m = 0 then 1 else s.pramdac.memory_clock_m,
          memory_clock_n := if s.pramdac.memory_clock_n = 0 then 1 else s.pramdac.memory_clock_n } := by
  unfold nv5_pramdac_set_vram_clock
  simp only
  split_ifs <;> split <;> rfl

/-- The RAMDAC record after nv5_pramdac_set_pixel_clock: M of the pixel clock
and N of the memory clock are raised to 1 when they are 0, nothing else
changes. -/
theorem set_pixel_clock_pramdac (s : nv5_t) :
    (nv5_pramdac_set_pixel_clock s).pramdac
      = { s.pramdac with
          pixel_clock_m := if s.pramdac.pixel_clock_m = 0 then 1 else s.pramdac.pixel_clock_m,
          memory_clock_n := if s.pramdac.memory_clock_n = 0 then 1 else s.pramdac.memory_clock_n } := by
  unfold nv5_pramdac_set_pixel_clock
  simp only
  split_ifs <;> split <;> rfl

/-- The frequency stored by nv5_pramdac_set_pixel_clock. -/
theorem set_pixel_clock_frequency (s : nv5_t) :
    (nv5_pramdac_set_pixel_clock s).nvbase.pixel_clock_frequency
      = float32 (float32 (13500000 * float32 (s.pramdac.pixel_clock_n : ℚ))
          / float32 ((((if s.pramdac.pixel_clock_m = 0 then 1 else s.pramdac.pixel_clock_m)
                <<< s.pramdac.pixel_clock_p) % 0x100000000 : Nat) : ℚ)) := by
  unfold nv5_pramdac_set_pixel_clock
  simp only
  split_ifs <;> split <;> rfl

/-- The frequency stored by nv5_pramdac_set_vram_clock and the period of the
memory clock timer afterwards. -/
theorem set_vram_clock_frequency (s : nv5_t) :
    (nv5_pramdac_set_vram_clock s).nvbase.memory_clock_frequency
        = float32 (float32 (13500000
              * float32 ((if s.pramdac.memory_clock_n = 0 then 1 else s.pramdac.memory_clock_n
                : Nat) : ℚ))
          / float32 ((((if s.pramdac.memory_clock_m = 0 then 1 else s.pramdac.memory_clock_m)
                <<< s.pramdac.memory_clock_p) % 0x100000000 : Nat) : ℚ))
      ∧ (nv5_pramdac_set_vram_clock s).nvbase.memory_clock_timer.map (fun t => t.period)
        = some (float64 (float64 (1000000 * (NV5_86BOX_TIMER_SYSTEM_FIX_QUOTIENT : ℚ))
            / (nv5_pramdac_set_vram_clock s).nvbase.memory_clock_frequency)) := by
  unfold nv5_pramdac_set_vram_clock
  simp only
  by_cases hm : s.pramdac.memory_clock_m = 0 <;> by_cases hn : s.pramdac.memory_clock_n = 0 <;>
    cases ht : s.nvbase.memory_clock_timer <;>
    simp only [hm, hn, ht, if_true, if_false, Option.map_some', Option.map_none',
      rivatimer_set_period, rivatimer_start, rivatimer_create, and_self]


theorem pramdac_init_pramdac (s : nv5_t) :
    (nv5_pramdac_init s).pramdac
      = { s.pramdac with
          pixel_clock_m := 0x07, memory_clock_m := 0x07,
          pixel_clock_n := 0xc8, memory_clock_n := 0xc8,
          pixel_clock_p := 0x0c, memory_clock_p := 0x0c } := by
  unfold nv5_pramdac_init
  simp only [set_vram_clock_pramdac, set_pixel_clock_pramdac]
  rfl

/-- The memory clock after nv5_pramdac_init: the frequency stored is the
single-precision quotient of 13500000 * 200 by 7 << 12 (the product and both
conversions are exact), and the period of the timer is the double-precision
quotient of 10000000 by that frequency. -/
theorem pramdac_init_memory_frequency (s : nv5_t) :
    (nv5_pramdac_init s).nvbase.memory_clock_frequency
        = float32 ((13500000 * 200 : ℚ) / ((7 <<< 12 : Nat) : ℚ))
      ∧ (nv5_pramdac_init s).nvbase.memory_clock_timer.map (fun t => t.period)
        = some (float64 ((1000000 * (NV5_86BOX_TIMER_SYSTEM_FIX_QUOTIENT : ℚ))
            / (nv5_pramdac_init s).nvbase.memory_clock_frequency)) := by
  have hfix : float64 (1000000 * (NV5_86BOX_TIMER_SYSTEM_FIX_QUOTIENT : ℚ))
      = 1000000 * (NV5_86BOX_TIMER_SYSTEM_FIX_QUOTIENT : ℚ) := by
    have h10 : ((NV5_86BOX_TIMER_SYSTEM_FIX_QUOTIENT : Nat) : ℚ) = 10 := by
      norm_num [NV5_86BOX_TIMER_SYSTEM_FIX_QUOTIENT]
    rw [h10, float64_ten_million]
    norm_num
  unfold nv5_pramdac_init
  simp only
  refine ⟨?_, ?_⟩
  · rw [(set_vram_clock_frequency _).1]
    simp only [set_pixel_clock_pramdac]
    have hn : ((if (200 : Nat) = 0 then 1 else 200 : Nat) : ℚ) = ((200 : Nat) : ℚ) := by
      norm_num
    have hm : ((((if (7 : Nat) = 0 then 1 else 7) <<< 12) % 0x100000000 : Nat) : ℚ)
        = ((28672 : Nat) : ℚ) := by
      norm_num [Nat.shiftLeft_eq]
    have hd : (((7 <<< 12 : Nat) : ℚ)) = 28672 := by
      norm_num [Nat.shiftLeft_eq]
    show float32 (float32 (13500000
        * float32 ((if (200 : Nat) = 0 then 1 else 200 : Nat) : ℚ))
      / float32 ((((if (7 : Nat) = 0 then 1 else 7) <<< 12) % 0x100000000 : Nat) : ℚ)) = _
    rw [hn, hm, float32_nat_200, float32_2700000000, float32_nat_28672, hd]
    norm_num
  · rw [(set_vram_clock_frequency _).2, hfix]


theorem apply_memory_write_pramdac (s : nv5_t) (v : Nat) :
    (apply_clock_write s (.memory v)).pramdac
      = { s.pramdac with
          memory_clock_m := if v &&& 0xFF = 0 then 1 else v &&& 0xFF,
          memory_clock_n := if (v >>> 8) &&& 0xFF = 0 then 1 else (v >>> 8) &&& 0xFF,
          memory_clock_p := (v >>> 16) &&& 0x07 } := by
  show (nv5_pramdac_write s NV5_PRAMDAC_CLOCK_MEMORY v).pramdac = _
  rw [pramdac_write_clock_memory]
  unfold nv5_pramdac_set_vram_clock_register
  rw [set_vram_clock_pramdac]

theorem apply_pixel_write_pramdac (s : nv5_t) (v : Nat) :
    (apply_clock_write s (.pixel v)).pramdac
      = { s.pramdac with
          pixel_clock_m := if v &&& 0xFF = 0 then 1 else v &&& 0xFF,
          pixel_clock_n := (v >>> 8) &&& 0xFF,
          pixel_clock_p := (v >>> 16) &&& 0x07,
          memory_clock_n := if s.pramdac.memory_clock_n = 0 then 1 else s.pramdac.memory_clock_n } := by
  show (nv5_pramdac_write s NV5_PRAMDAC_CLOCK_PIXEL v).pramdac = _
  rw [pramdac_write_clock_pixel]
  unfold nv5_pramdac_set_pixel_clock_register
  rw [set_pixel_clock_pramdac]

theorem and_255_le (x : Nat) : x &&& 0xFF ≤ 255 := Nat.and_le_right

theorem and_7_le (x : Nat) : x &&& 0x07 ≤ 7 := Nat.and_le_right

/-- The divider bounds that hold along every run of clock register writes;
mw and pw tell whether the memory and the pixel register have been written. -/
theorem run_clock_writes_bounds (s0 : nv5_t) (ws : List clock_write) :
    (1 ≤ (run_clock_writes s0 ws).pramdac.memory_clock_m
        ∧ (run_clock_writes s0 ws).pramdac.memory_clock_m ≤ 255)
      ∧ (1 ≤ (run_clock_writes s0 ws).pramdac.memory_clock_n
        ∧ (run_clock_writes s0 ws).pramdac.memory_clock_n ≤ 255)
      ∧ (1 ≤ (run_clock_writes s0 ws).pramdac.pixel_clock_m
        ∧ (run_clock_writes s0 ws).pramdac.pixel_clock_m ≤ 255)
      ∧ (run_clock_writes s0 ws).pramdac.pixel_clock_n ≤ 255
      ∧ (if ws.any clock_write.is_memory then (run_clock_writes s0 ws).pramdac.memory_clock_p ≤ 7
          else (run_clock_writes s0 ws).pramdac.memory_clock_p = 12)
      ∧ (if ws.any clock_write.is_pixel then (run_clock_writes s0 ws).pramdac.pixel_clock_p ≤ 7
          else (run_clock_writes s0 ws).pramdac.pixel_clock_p = 12) := by
  induction ws using List.reverseRecOn with
  | nil =>
    unfold run_clock_writes
    simp only [List.foldl_nil, pramdac_init_pramdac, List.any_nil, Bool.false_eq_true, if_false]
    decide
  | append_singleton ws w ih =>
    have hrun : run_clock_writes s0 (ws ++ [w]) = apply_clock_write (run_clock_writes s0 ws) w := by
      unfold run_clock_writes
      rw [List.foldl_append]
      rfl
    obtain ⟨⟨h1, h2⟩, ⟨h3, h4⟩, ⟨h5, h6⟩, h7, h8, h9⟩ := ih
    rw [hrun]
    cases w with
    | memory v =>
      have hm := and_255_le v
      have hn := and_255_le (v >>> 8)
      have hp := and_7_le (v >>> 16)
      simp only [apply_memory_write_pramdac, List.any_append, List.any_cons, List.any_nil,
        clock_write.is_memory, clock_write.is_pixel, Bool.or_true, Bool.or_false, if_true]
      refine ⟨⟨?_, ?_⟩, ⟨?_, ?_⟩, ⟨h5, h6⟩, h7, hp, h9⟩
      · split <;> omega
      · split <;> omega
      · split <;> omega
      · split <;> omega
    | pixel v =>
      have hm := and_255_le v
      have hn := and_255_le (v >>> 8)
      have hp := and_7_le (v >>> 16)
      simp only [apply_pixel_write_pramdac, List.any_append, List.any_cons, List.any_nil,
        clock_write.is_memory, clock_write.is_pixel, Bool.or_true, Bool.or_false, if_true]
      refine ⟨⟨h1, h2⟩, ⟨?_, ?_⟩, ⟨?_, ?_⟩, hn, h8, hp⟩
      · split <;> omega
      · split <;> omega
      · split <;> omega
      · split <;> omega

theorem unpack_packed (m n p : Nat) (hm : m ≤ 255) (hn : n ≤ 255) (hp : p ≤ 7) :
    ((m + (n <<< 8) + (p <<< 16)) % 0x100000000) &&& 0xFF = m
      ∧ (((m + (n <<< 8) + (p <<< 16)) % 0x100000000) >>> 8) &&& 0xFF = n
      ∧ (((m + (n <<< 8) + (p <<< 16)) % 0x100000000) >>> 16) &&& 0x07 = p := by
  have h1 : ∀ x : Nat, x &&& 0xFF = x % 2 ^ 8 := fun x => Nat.and_pow_two_sub_one_eq_mod x 8
  have h3 : ∀ x : Nat, x &&& 0x07 = x % 2 ^ 3 := fun x => Nat.and_pow_two_sub_one_eq_mod x 3
  simp only [h1, h3, Nat.shiftRight_eq_div_pow, Nat.shiftLeft_eq]
  omega

theorem memory_write_back (s : nv5_t)
    (hm1 : 1 ≤ s.pramdac.memory_clock_m) (hm : s.pramdac.memory_clock_m ≤ 255)
    (hn1 : 1 ≤ s.pramdac.memory_clock_n) (hn : s.pramdac.memory_clock_n ≤ 255)
    (hp : s.pramdac.memory_clock_p ≤ 7) :
    (nv5_pramdac_write s NV5_PRAMDAC_CLOCK_MEMORY
        (nv5_pramdac_read s NV5_PRAMDAC_CLOCK_MEMORY).1).pramdac = s.pramdac := by
  have hu := unpack_packed _ _ _ hm hn hp
  have h := apply_memory_write_pramdac s (nv5_pramdac_read s NV5_PRAMDAC_CLOCK_MEMORY).1
  rw [pramdac_read_clock_memory] at h ⊢
  unfold nv5_pramdac_get_vram_clock_register at h ⊢
  simp only [apply_clock_write] at h
  rw [h, hu.1, hu.2.1, hu.2.2, if_neg (by omega), if_neg (by omega)]

theorem pixel_write_back (s : nv5_t)
    (hm1 : 1 ≤ s.pramdac.pixel_clock_m) (hm : s.pramdac.pixel_clock_m ≤ 255)
    (hn : s.pramdac.pixel_clock_n ≤ 255) (hp : s.pramdac.pixel_clock_p ≤ 7)
    (hmn : 1 ≤ s.pramdac.memory_clock_n) :
    (nv5_pramdac_write s NV5_PRAMDAC_CLOCK_PIXEL
        (nv5_pramdac_read s NV5_PRAMDAC_CLOCK_PIXEL).1).pramdac = s.pramdac := by
  have hu := unpack_packed _ _ _ hm hn hp
  have h := apply_pixel_write_pramdac s (nv5_pramdac_read s NV5_PRAMDAC_CLOCK_PIXEL).1
  rw [pramdac_read_clock_pixel] at h ⊢
  unfold nv5_pramdac_get_pixel_clock_register at h ⊢
  simp only [apply_clock_write] at h
  rw [h, hu.1, hu.2.1, hu.2.2, if_neg (by omega), if_neg (by omega)]

theorem pfifo_repressed_iff (s : nv5_t) :
    nv5_pfifo_repressed s = true ↔ s.pmc.enable >>> 8 = 0 := by
  unfold nv5_pfifo_repressed NV5_PMC_ENABLE_PFIFO NV5_PMC_ENABLE_PFIFO_ENABLED
  by_cases h : s.pmc.enable >>> 8 = 0
  · rw [if_pos h]
    exact ⟨fun _ => h, fun _ => by decide⟩
  · rw [if_neg h]
    exact ⟨fun hc => absurd hc (by decide), fun hc => absurd hc h⟩

/-! ### The shifter, the SVGA redirect, the timer tick and the interrupt line -/

theorem testBit_mask_range (lo hi i : Nat) (h : lo ≤ hi) :
    (2 ^ hi - 2 ^ lo).testBit i = (decide (lo ≤ i) && decide (i < hi)) := by
  have hlo : 0 < 2 ^ lo := Nat.two_pow_pos lo
  have hle : 2 ^ lo ≤ 2 ^ hi := Nat.pow_le_pow_right (by norm_num) h
  have e : 2 ^ hi - 2 ^ lo = 2 ^ hi - ((2 ^ lo - 1) + 1) := by omega
  rw [e, Nat.testBit_two_pow_sub_succ (by omega), Nat.testBit_two_pow_sub_one]
  by_cases h1 : lo ≤ i <;> by_cases h2 : i < hi <;> simp [h1, h2]
  omega

/-- Four bytes placed at the four byte lanes make a 32-bit value. -/
theorem or_bytes_lt (b0 b1 b2 b3 : Nat)
    (h0 : b0 < 0x100) (h1 : b1 < 0x100) (h2 : b2 < 0x100) (h3 : b3 < 0x100) :
    b0 ||| (b1 <<< 8) ||| (b2 <<< 16) ||| (b3 <<< 24) < 0x100000000 := by
  have e32 : (0x100000000 : Nat) = 2 ^ 32 := by norm_num
  rw [e32]
  refine Nat.or_lt_two_pow (Nat.or_lt_two_pow (Nat.or_lt_two_pow ?_ ?_) ?_) ?_
  · omega
  · rw [Nat.shiftLeft_eq]
    omega
  · rw [Nat.shiftLeft_eq]
    omega
  · rw [Nat.shiftLeft_eq]
    omega

theorem get_register_mem (address : Nat) (table : List nv_register_t) (n : Nat)
    (r : nv_register_t) (h : nv_get_register address table n = some r) : r ∈ table := by
  obtain ⟨i, _, hi, _⟩ := (get_register_some_iff address table n r).1 h
  exact List.getElem?_mem hi

theorem pbus_write_frame (s : nv5_t) (address value : Nat) :
    nv5_pbus_write s address value
      = with_own_record .pbus s (nv5_pbus_write s address value) := by
  unfold nv5_pbus_write
  cases h : nv_get_register address pbus_registers pbus_registers.length with
  | none => rfl
  | some reg =>
    have hm := get_register_mem _ _ _ _ h
    simp only [pbus_registers, List.mem_cons, List.mem_singleton, List.not_mem_nil, or_false] at hm
    rcases hm with rfl | rfl | rfl <;> rfl

theorem pfb_write_frame (s : nv5_t) (address value : Nat) :
    nv5_pfb_write s address value
      = with_own_record .pfb s (nv5_pfb_write s address value) := by
  unfold nv5_pfb_write
  cases h : nv_get_register address pfb_registers pfb_registers.length with
  | none => rfl
  | some reg =>
    have hm := get_register_mem _ _ _ _ h
    simp only [pfb_registers, List.mem_cons, List.mem_singleton, List.not_mem_nil, or_false] at hm
    rcases hm with rfl | rfl | rfl | rfl <;> rfl

theorem pextdev_write_frame (s : nv5_t) (address value : Nat) :
    nv5_pextdev_write s address value
      = with_own_record .pextdev s (nv5_pextdev_write s address value) := by
  unfold nv5_pextdev_write
  split
  · rfl
  · cases h : nv_get_register address pextdev_registers pextdev_registers.length with
    | none => rfl
    | some reg =>
      have hm := get_register_mem _ _ _ _ h
      simp only [pextdev_registers, List.mem_cons, List.mem_singleton, List.not_mem_nil,
        or_false] at hm
      rcases hm with rfl | rfl <;> rfl

theorem pme_write_frame (s : nv5_t) (address value : Nat) :
    nv5_pme_write s address value
      = with_own_record .pme s (nv5_pme_write s address value) := by
  unfold nv5_pme_write
  cases h : nv_get_register address pme_registers pme_registers.length with
  | none => rfl
  | some reg =>
    have hm := get_register_mem _ _ _ _ h
    simp only [pme_registers, List.mem_cons, List.mem_singleton, List.not_mem_nil, or_false] at hm
    rcases hm with rfl | rfl | rfl <;> rfl

theorem pvideo_write_frame (s : nv5_t) (address value : Nat) :
    nv5_pvideo_write s address value
      = with_own_record .pvideo s (nv5_pvideo_write s address value) := by
  unfold nv5_pvideo_write
  cases h : nv_get_register address pvideo_registers pvideo_registers.length with
  | none => rfl
  | some reg =>
    have hm := get_register_mem _ _ _ _ h
    simp only [pvideo_registers, List.mem_cons, List.mem_singleton, List.not_mem_nil,
      or_false] at hm
    rcases hm with rfl | rfl | rfl <;> rfl

theorem ptimer_write_frame (s : nv5_t) (address value : Nat) :
    nv5_ptimer_write s address value
      = with_own_record .ptimer s (nv5_ptimer_write s address value) := by
  unfold nv5_ptimer_write
  cases h : nv_get_register address ptimer_registers ptimer_registers.length with
  | none => rfl
  | some reg =>
    have hm := get_register_mem _ _ _ _ h
    simp only [ptimer_registers, List.mem_cons, List.mem_singleton, List.not_mem_nil,
      or_false] at hm
    rcases hm with rfl | rfl | rfl | rfl | rfl | rfl | rfl | rfl <;> rfl

/-- A PFIFO write other than the one that reaches the interrupt-enable case
stays within the PFIFO record and the shared line. -/
theorem pfifo_write_frame (s : nv5_t) (address value : Nat)
    (h : address ≠ NV5_PFIFO_INTR_EN ∨ nv5_pfifo_repressed s = true) :
    nv5_pfifo_write s address value
      = with_own_record .pfifo s (nv5_pfifo_write s address value) := by
  unfold nv5_pfifo_write
  split
  · rfl
  · rename_i hrep
    have hne : address ≠ NV5_PFIFO_INTR_EN := by
      rcases h with h | h
      · exact h
      · exact absurd h hrep
    cases hg : nv_get_register address pfifo_registers pfifo_registers.length with
    | none => rfl
    | some reg =>
      have hm := get_register_mem _ _ _ _ hg
      have ha := ((get_register_some_iff _ _ _ _).1 hg).choose_spec.2.2.1
      simp only [pfifo_registers, List.mem_cons, List.mem_singleton, List.not_mem_nil,
        or_false] at hm
      rcases hm with rfl | rfl | rfl | rfl | rfl | rfl
      · rfl
      · exact absurd ha.symm hne
      · rfl
      · rfl
      · rfl
      · rfl

theorem redirect_lt (a : Nat) (h : nv5_is_svga_redirect_address a = true) : a < 0x1000000 := by
  unfold nv5_is_svga_redirect_address at h
  simp only [decide_eq_true_eq, NV5_PRMVIO_START, NV5_VGA_START, NV5_PRMVIO_END,
    NV5_PRMCIO_CRTC_REGISTER_CUR_COLOR, NV5_PRMCIO_CRTC_REGISTER_CUR_INDEX_COLOR,
    NV5_PRMCIO_CRTC_REGISTER_CUR_MONO, NV5_PRMCIO_CRTC_REGISTER_CUR_INDEX_MONO] at h
  omega

/-- The write to port 0xB: the data accumulator receives its top byte and the
transaction is performed. -/
theorem rma_write_data3 (e : nv5_env) (s : nv5_t) (v : Nat) :
    nv5_pbus_rma_write e s 0xB v
      = if s.pbus.rma.addr < NV5_MMIO_SIZE then
          nv5_mmio_write32 e
            (rma_loaded s s.pbus.rma.addr
              ((s.pbus.rma.data &&& 0x00FFFFFF) ||| ((v % 0x100) <<< 24)))
            s.pbus.rma.addr ((s.pbus.rma.data &&& 0x00FFFFFF) ||| ((v % 0x100) <<< 24))
        else
          rma_vram_write e
            (rma_loaded s s.pbus.rma.addr
              ((s.pbus.rma.data &&& 0x00FFFFFF) ||| ((v % 0x100) <<< 24))) := rfl

/-- A tick of a timer whose numerator and denominator are nonzero and whose
advanced counter reaches the alarm: the counter is advanced, bit 0 of the
PTIMER status is set and the aggregator is run with dispatch requested. -/
theorem ptimer_tick_alarm (s : nv5_t) (real_time : ℚ)
    (hn : s.ptimer.clock_numerator ≠ 0) (hd : s.ptimer.clock_denominator ≠ 0)
    (halarm : s.ptimer.alarm
      ≤ (s.ptimer.time + ptimer_tick_increment s real_time) % 0x10000000000000000) :
    nv5_ptimer_tick s real_time
      = (nv5_pmc_handle_interrupts
          { s with ptimer := { s.ptimer with
              time := (s.ptimer.time + ptimer_tick_increment s real_time) % 0x10000000000000000,
              interrupt_status := s.ptimer.interrupt_status ||| 1 } } true).2 := by
  unfold nv5_ptimer_tick
  rw [if_neg (by
    intro h
    rcases h with h | h
    · exact hn h
    · exact hd h)]
  simp only
  rw [if_pos (show _ ≥ _ from halarm)]
  rfl

theorem ptimer_tick_alarm_ptimer (s : nv5_t) (real_time : ℚ)
    (hn : s.ptimer.clock_numerator ≠ 0) (hd : s.ptimer.clock_denominator ≠ 0)
    (halarm : s.ptimer.alarm
      ≤ (s.ptimer.time + ptimer_tick_increment s real_time) % 0x10000000000000000) :
    (nv5_ptimer_tick s real_time).ptimer
      = { s.ptimer with
          time := (s.ptimer.time + ptimer_tick_increment s real_time) % 0x10000000000000000,
          interrupt_status := s.ptimer.interrupt_status ||| 1 } := by
  rw [ptimer_tick_alarm s real_time hn hd halarm, handle_interrupts_frame]

theorem testBit_zero_or_one (x : Nat) : (x ||| 1).testBit 0 = true := by
  rw [Nat.testBit_or]
  simp

theorem testBit_zero_and_not32 (x v : Nat) (hv : v.testBit 0 = true) :
    (x &&& (v ^^^ 0xFFFFFFFF)).testBit 0 = false := by
  rw [Nat.testBit_and, Nat.testBit_xor, hv]
  simp

/-- Rounding a rational that is given as a quotient of coprime naturals, with
the significand and the exponent worked out. -/
theorem round_float_eval (p a b m : Nat) (e : Int) (q : ℚ) (hq : q = (a : ℚ) / (b : ℚ))
    (ha : 0 < a) (hb : 0 < b) (hc : Nat.Coprime a b)
    (hm : float_significand p a b = m) (he : float_exponent p a b = e) :
    round_float p q = (m : ℚ) * (2 : ℚ) ^ e := by
  rw [hq, round_float_ratio p a b ha hb hc, hm, he]

/-- On the fixture st_ticking a tick of 5 microseconds advances the counter
by 50: 5/10^6 s at 1 MHz is 5 cycles, scaled by the fix quotient 10.  In
double precision the quotient of 5/10^6 by 1/10^6 is 5 + 2^-50 and the scaled
value 50 + 2^-47, which truncates to 50. -/
theorem tick_increment_st_ticking (t : Nat) : ptimer_tick_increment (st_ticking t) 5 = 50 := by
  have h1 : float64 ((5 : ℚ) / 1000000) = 5902958103587057 / 2 ^ 70 := by
    unfold float64
    rw [round_float_eval 53 1 200000 5902958103587057 (-70) _ (by norm_num) (by decide)
      (by decide) (by decide) (by decide) (by decide)]
    norm_num
  have h2 : float64 ((1 : ℚ) / 1000000) = 4722366482869645 / 2 ^ 72 := by
    unfold float64
    rw [round_float_eval 53 1 1000000 4722366482869645 (-72) _ (by norm_num) (by decide)
      (by decide) (by decide) (by decide) (by decide)]
    norm_num
  have h3 : float64 ((5902958103587057 / 2 ^ 70 : ℚ) / (4722366482869645 / 2 ^ 72))
      = 5629499534213121 / 2 ^ 50 := by
    unfold float64
    rw [round_float_eval 53 23611832414348228 4722366482869645 5629499534213121 (-50) _
      (by norm_num) (by decide) (by decide) (by decide) (by decide) (by decide)]
    norm_num
  have h4 : float64 ((1 : ℚ) * 10) = 10 := by
    unfold float64
    rw [round_float_eval 53 10 1 5629499534213120 (-49) _ (by norm_num) (by decide)
      (by decide) (by decide) (by decide) (by decide)]
    norm_num
  have h5 : float64 ((5629499534213121 / 2 ^ 50 : ℚ) * 10) = 7036874417766401 / 2 ^ 47 := by
    unfold float64
    rw [round_float_eval 53 28147497671065605 562949953421312 7036874417766401 (-47) _
      (by norm_num) (by decide) (by decide) (by decide) (by decide) (by decide)]
    norm_num
  have h6 : float64 ((7036874417766401 / 2 ^ 47 : ℚ) / 1) = 7036874417766401 / 2 ^ 47 := by
    unfold float64
    rw [round_float_eval 53 7036874417766401 140737488355328 7036874417766401 (-47) _
      (by norm_num) (by decide) (by decide) (by decide) (by decide) (by decide)]
    norm_num
  have hfl : Rat.floor (7036874417766401 / 2 ^ 47 : ℚ) = 50 := by
    have h : ⌊(7036874417766401 / 2 ^ 47 : ℚ)⌋ = 50 := by
      rw [Int.floor_eq_iff]
      norm_num
    exact h
  show (Rat.floor (float64 (float64 (float64 (float64 ((5 : ℚ) / 1000000)
      / float64 ((1 : ℚ) / 1000000)) * float64 (((1 : Nat) : ℚ) * ((10 : Nat) : ℚ)))
      / ((1 : Nat) : ℚ)))).toNat = 50
  have hc1 : (((1 : Nat) : ℚ) * ((10 : Nat) : ℚ)) = (1 : ℚ) * 10 := by norm_num
  have hc2 : (((1 : Nat) : ℚ)) = 1 := by norm_num
  rw [hc1, hc2, h1, h2, h3, h4, h5, h6, hfl]
  rfl

/-- The shared line after nv5_pmc_handle_interrupts without dispatch: it is
deasserted when the global enable word is 0 and otherwise left as it was. -/
theorem handle_interrupts_line_nosend (s : nv5_t) :
    ((nv5_pmc_handle_interrupts s false).2.nvbase.pci_irq_state = true
      ↔ (s.pmc.interrupt_enable ≠ 0 ∧ s.nvbase.pci_irq_state = true)) := by
  unfold nv5_pmc_handle_interrupts nv5_pmc_clear_interrupts pci_clear_irq
  simp only
  split_ifs with h1 <;> simp_all

theorem new_intr_value_clear (s : nv5_t) :
    new_intr_value (nv5_pmc_clear_interrupts s) = new_intr_value s := rfl

theorem and_low31_software_only : (0x80000000 : Nat) &&& 0x7FFFFFFF = 0 := by decide

/-! ### The recompute run twice, the two range chains, byte lanes and alignment -/

theorem and_two_pow_ne_zero_iff (x k : Nat) : x &&& 2 ^ k ≠ 0 ↔ x.testBit k = true := by
  constructor
  · intro hne
    by_contra hb
    apply hne
    apply Nat.eq_of_testBit_eq
    intro i
    rw [Nat.testBit_and, Nat.testBit_two_pow, Nat.zero_testBit]
    by_cases hi : k = i
    · subst hi
      simp at hb
      simp [hb]
    · simp [hi]
  · intro hb hz
    have h := congrArg (fun n => Nat.testBit n k) hz
    simp [Nat.testBit_and, Nat.testBit_two_pow, hb] at h

theorem bit31_decide (x : Nat) : decide (x &&& (1 <<< 31) ≠ 0) = x.testBit 31 := by
  rw [Nat.one_shiftLeft]
  rcases hb : x.testBit 31 with _ | _
  · simp only [decide_eq_false_iff_not]
    intro h
    rw [and_two_pow_ne_zero_iff] at h
    rw [hb] at h
    exact Bool.noConfusion h
  · simp only [decide_eq_true_eq]
    exact (and_two_pow_ne_zero_iff x 31).mpr hb

/-- Storing the aggregate back into the master status word does not change
the next aggregate: the recompute reads only bit 31 of the stored word and has
just copied that bit. -/
theorem new_intr_value_stored (s : nv5_t) (nb : nv_base_t) :
    new_intr_value { s with
        pmc := { s.pmc with interrupt_status := new_intr_value s },
        nvbase := nb }
      = new_intr_value s := by
  apply Nat.eq_of_testBit_eq
  intro j
  rw [new_intr_value_testBit, new_intr_value_testBit]
  simp only [bit31_decide]
  rw [new_intr_value_testBit]
  simp only [bit31_decide]
  by_cases hj : 31 = j
  · subst hj
    simp
  · simp [hj]

theorem handle_interrupts_nosend_twice (s : nv5_t) :
    nv5_pmc_handle_interrupts (nv5_pmc_handle_interrupts s false).2 false
      = nv5_pmc_handle_interrupts s false := by
  unfold nv5_pmc_handle_interrupts nv5_pmc_clear_interrupts pci_clear_irq
  simp only [Bool.false_eq_true, if_false]
  split_ifs <;> simp only [new_intr_value_stored]

theorem first_match_append_some (l1 l2 : List (Nat × Nat × nv5_subsystem)) (x : Nat)
    (sub : nv5_subsystem) (h : first_match l1 x = some sub) :
    first_match (l1 ++ l2) x = some sub := by
  induction l1 with
  | nil => exact absurd h (by simp [first_match_nil])
  | cons r rest ih =>
    obtain ⟨st, en, sb⟩ := r
    rw [List.cons_append, first_match_cons]
    rw [first_match_cons] at h
    split
    · rename_i hc
      rw [if_pos hc] at h
      exact h
    · rename_i hc
      rw [if_neg hc] at h
      exact ih h

theorem first_match_append_none (l1 l2 : List (Nat × Nat × nv5_subsystem)) (x : Nat)
    (h : first_match l1 x = none) :
    first_match (l1 ++ l2) x = first_match l2 x := by
  induction l1 with
  | nil => rfl
  | cons r rest ih =>
    obtain ⟨st, en, sb⟩ := r
    rw [List.cons_append, first_match_cons]
    rw [first_match_cons] at h
    split
    · rename_i hc
      rw [if_pos hc] at h
      exact absurd h (by simp)
    · rename_i hc
      rw [if_neg hc] at h
      exact ih h

/-- A selected subsystem comes from an entry of the table whose range holds
the address. -/
theorem first_match_some_mem (t : List (Nat × Nat × nv5_subsystem)) (x : Nat)
    (sub : nv5_subsystem) (h : first_match t x = some sub) :
    ∃ r ∈ t, r.2.2 = sub ∧ x ≥ r.1 ∧ x ≤ r.2.1 := by
  induction t with
  | nil => exact absurd h (by simp [first_match_nil])
  | cons r rest ih =>
    obtain ⟨st, en, sb⟩ := r
    rw [first_match_cons] at h
    by_cases hc : x ≥ st ∧ x ≤ en
    · rw [if_pos hc] at h
      exact ⟨(st, en, sb), List.mem_cons_self _ _, Option.some.inj h, hc.1, hc.2⟩
    · rw [if_neg hc] at h
      obtain ⟨r, hr, h1⟩ := ih h
      exact ⟨r, List.mem_cons_of_mem _ hr, h1⟩

/-- On the 24-bit aperture the read chain and the write chain of the arbiter
select the same subsystem. -/
theorem first_match_read_eq_write (x : Nat) (hx : x ≤ 0xFFFFFF) :
    first_match nv5_read_ranges x = first_match nv5_write_ranges x := by
  have hR : nv5_read_ranges
      = [ (NV5_PMC_START, NV5_PMC_END, nv5_subsystem.pmc),
          (NV5_CIO_START, NV5_CIO_END, nv5_subsystem.cio),
          (NV5_PBUS_PCI_START, NV5_PBUS_PCI_END, nv5_subsystem.pbus_pci),
          (NV5_PBUS_START, NV5_PBUS_END, nv5_subsystem.pbus),
          (NV5_PFIFO_START, NV5_PFIFO_END, nv5_subsystem.pfifo) ]
        ++ ((NV5_PFB_START, NV5_PFB_END, nv5_subsystem.pfb)
          :: ([ (NV5_PRM_START, NV5_PRM_END, nv5_subsystem.prm),
                (NV5_PRMIO_START, NV5_PRMIO_END, nv5_subsystem.prmio),
                (NV5_PTIMER_START, NV5_PTIMER_END, nv5_subsystem.ptimer) ]
            ++ ((NV5_PFB_START, NV5_PFB_END, nv5_subsystem.pfb)
              :: (nv5_read_ranges.drop 10)))) := rfl
  have hW : nv5_write_ranges
      = [ (NV5_PMC_START, NV5_PMC_END, nv5_subsystem.pmc),
          (NV5_CIO_START, NV5_CIO_END, nv5_subsystem.cio),
          (NV5_PBUS_PCI_START, NV5_PBUS_PCI_END, nv5_subsystem.pbus_pci),
          (NV5_PBUS_START, NV5_PBUS_END, nv5_subsystem.pbus),
          (NV5_PFIFO_START, NV5_PFIFO_END, nv5_subsystem.pfifo) ]
        ++ ([ (NV5_PRM_START, NV5_PRM_END, nv5_subsystem.prm),
              (NV5_PRMIO_START, NV5_PRMIO_END, nv5_subsystem.prmio),
              (NV5_PTIMER_START, NV5_PTIMER_END, nv5_subsystem.ptimer) ]
          ++ ((NV5_PFB_START, NV5_PFB_END, nv5_subsystem.pfb)
            :: (nv5_read_ranges.drop 10
              ++ [(NV5_PRAMIN_START, NV5_PRAMIN_END, nv5_subsystem.pramin)]))) := rfl
  have hC : first_match (nv5_read_ranges.drop 10
      ++ [(NV5_PRAMIN_START, NV5_PRAMIN_END, nv5_subsystem.pramin)]) x
        = first_match (nv5_read_ranges.drop 10) x := by
    cases hc : first_match (nv5_read_ranges.drop 10) x with
    | some sub => exact first_match_append_some _ _ _ _ hc
    | none =>
      rw [first_match_append_none _ _ _ hc, first_match_cons, if_neg, first_match_nil]
      simp only [NV5_PRAMIN_START]
      omega
  rw [hR, hW]
  cases hA : first_match
      [ (NV5_PMC_START, NV5_PMC_END, nv5_subsystem.pmc),
        (NV5_CIO_START, NV5_CIO_END, nv5_subsystem.cio),
        (NV5_PBUS_PCI_START, NV5_PBUS_PCI_END, nv5_subsystem.pbus_pci),
        (NV5_PBUS_START, NV5_PBUS_END, nv5_subsystem.pbus),
        (NV5_PFIFO_START, NV5_PFIFO_END, nv5_subsystem.pfifo) ] x with
  | some sub =>
    rw [first_match_append_some _ _ _ _ hA, first_match_append_some _ _ _ _ hA]
  | none =>
    rw [first_match_append_none _ _ _ hA, first_match_append_none _ _ _ hA]
    by_cases hp : x ≥ NV5_PFB_START ∧ x ≤ NV5_PFB_END
    · have hB : first_match
          [ (NV5_PRM_START, NV5_PRM_END, nv5_subsystem.prm),
            (NV5_PRMIO_START, NV5_PRMIO_END, nv5_subsystem.prmio),
            (NV5_PTIMER_START, NV5_PTIMER_END, nv5_subsystem.ptimer) ] x = none := by
        apply first_match_none
        simp only [List.forall_mem_cons, List.mem_cons, List.not_mem_nil, forall_eq_or_imp,
          NV5_PRM_START, NV5_PRM_END, NV5_PRMIO_START, NV5_PRMIO_END, NV5_PTIMER_START,
          NV5_PTIMER_END, NV5_PFB_START, NV5_PFB_END] at hp ⊢
        refine ⟨by omega, by omega, by omega, ?_⟩
        intro a ha
        exact absurd ha (by simp)
      rw [first_match_cons, if_pos hp, first_match_append_none _ _ _ hB, first_match_cons,
        if_pos hp]
    · rw [first_match_cons, if_neg hp]
      cases hB : first_match
          [ (NV5_PRM_START, NV5_PRM_END, nv5_subsystem.prm),
            (NV5_PRMIO_START, NV5_PRMIO_END, nv5_subsystem.prmio),
            (NV5_PTIMER_START, NV5_PTIMER_END, nv5_subsystem.ptimer) ] x with
      | some sub =>
        rw [first_match_append_some _ _ _ _ hB, first_match_append_some _ _ _ _ hB]
      | none =>
        rw [first_match_append_none _ _ _ hB, first_match_append_none _ _ _ hB,
          first_match_cons, if_neg hp, first_match_cons, if_neg hp, hC]

/-- On the 24-bit aperture neither chain selects the VRAM or the PRAMIN
branch: their ranges start at 0x1000000 and 0x1C00000. -/
theorem first_match_not_vram_pramin (x : Nat) (hx : x ≤ 0xFFFFFF) :
    first_match nv5_write_ranges x ≠ some nv5_subsystem.vram
      ∧ first_match nv5_write_ranges x ≠ some nv5_subsystem.pramin := by
  constructor
  · intro h
    obtain ⟨r, hr, hs, h1, h2⟩ := first_match_some_mem _ _ _ h
    simp only [nv5_write_ranges, List.mem_cons, List.not_mem_nil, or_false] at hr
    rcases hr with rfl | rfl | rfl | rfl | rfl | rfl | rfl | rfl | rfl | rfl | rfl | rfl
      | rfl | rfl | rfl | rfl | rfl | rfl | rfl | rfl <;>
      first
      | exact absurd hs (by decide)
      | (simp only [NV5_VRAM_START, NV5_PNVM_START] at h1; omega)
  · intro h
    obtain ⟨r, hr, hs, h1, h2⟩ := first_match_some_mem _ _ _ h
    simp only [nv5_write_ranges, List.mem_cons, List.not_mem_nil, or_false] at hr
    rcases hr with rfl | rfl | rfl | rfl | rfl | rfl | rfl | rfl | rfl | rfl | rfl | rfl
      | rfl | rfl | rfl | rfl | rfl | rfl | rfl | rfl <;>
      first
      | exact absurd hs (by decide)
      | (simp only [NV5_PRAMIN_START] at h1; omega)

/-- Write-1-to-clear applied to a word that was assembled from the status
itself: with the lane-0 mask of the 8-bit path, 0xFFFFF800, every set bit of
the status from bit 11 up is written back as a 1 and so cleared. -/
theorem w1c_after_rmw_lane0 (S v : Nat) :
    S &&& (((S &&& 0xFFFFF800) ||| (v % 0x100000000)) ^^^ 0xFFFFFFFF)
      = (S &&& 0x7FF) &&& (v ^^^ 0xFFFFFFFF) := by
  have h1 : (0xFFFFF800 : Nat) = 2 ^ 32 - 2 ^ 11 := by decide
  have h2 : (0xFFFFFFFF : Nat) = 2 ^ 32 - 1 := by decide
  have h3 : (0x7FF : Nat) = 2 ^ 11 - 1 := by decide
  have h4 : (0x100000000 : Nat) = 2 ^ 32 := by decide
  apply Nat.eq_of_testBit_eq
  intro i
  rw [h1, h2, h3, h4, Nat.testBit_and, Nat.testBit_xor, Nat.testBit_or, Nat.testBit_and,
    Nat.testBit_and, Nat.testBit_and, Nat.testBit_xor, testBit_mask_range 11 32 i (by decide),
    Nat.testBit_two_pow_sub_one, Nat.testBit_two_pow_sub_one, Nat.testBit_mod_two_pow]
  by_cases a : i < 11 <;> by_cases b : i < 32 <;> cases S.testBit i <;> cases v.testBit i <;>
    simp [a, b] <;> omega

/-- Alignment to a 32-bit word inside the 24-bit aperture, in arithmetic
form. -/
theorem and_aligned24_eq (a : Nat) : a &&& 0xFFFFFC = a % 0x1000000 / 4 * 4 := by
  have h1 : (0xFFFFFC : Nat) = 2 ^ 24 - 2 ^ 2 := by decide
  have h2 : (0x1000000 : Nat) = 2 ^ 24 := by decide
  have h3 : a % 2 ^ 24 / 4 * 4 = ((a % 2 ^ 24) >>> 2) <<< 2 := by
    rw [Nat.shiftLeft_eq, Nat.shiftRight_eq_div_pow]
  apply Nat.eq_of_testBit_eq
  intro i
  rw [h1, h2, h3, Nat.testBit_and, testBit_mask_range 2 24 i (by decide), Nat.testBit_shiftLeft,
    Nat.testBit_shiftRight, Nat.testBit_mod_two_pow]
  by_cases h : 2 ≤ i
  · have e : 2 + (i - 2) = i := by omega
    rw [e]
    by_cases h4 : i < 24 <;> simp [h, h4]
  · simp [h]

/-- The saved byte reads back from the slot it was stored in. -/
theorem array_get_set (l : List Nat) (i v : Nat) : array_get (array_set l i v) i = v := by
  unfold array_get array_set
  have hlen : i < (l ++ List.replicate (i + 1 - l.length) 0).length := by
    rw [List.length_append, List.length_replicate]
    omega
  rw [List.getD_eq_getElem?_getD, List.getElem?_set_self hlen]
  rfl

/-! ## Verified properties -/

/-- C1: for every 24-bit address that is not redirected to the SVGA core, the
8-bit read returns byte number (a & 3) of the 32-bit arbitrated read at the
aligned address, and leaves the device in the state that read leaves it in.
This holds whether or not the arbiter's pointer check passes. -/
theorem C1_mmio_read8_byte_of_arbitrated_read (e : nv5_env) (s : nv5_t) (a : Nat)
    (ha : a < 0x1000000) (hr : nv5_is_svga_redirect_address a = false) :
    (nv5_mmio_read8 e s a).1
        = ((nv5_mmio_arbitrate_read e s (a &&& 0xFFFFFC)).1 >>> (8 * (a &&& 3))) &&& 0xFF
      ∧ (nv5_mmio_read8 e s a).2 = (nv5_mmio_arbitrate_read e s (a &&& 0xFFFFFC)).2 := by
  have hsh : (a &&& 3) <<< 3 = 8 * (a &&& 3) := by
    rw [Nat.shiftLeft_eq]; omega
  have hlt : ∀ x : Nat, (x &&& 0xFF) % 0x100 = x &&& 0xFF := fun x =>
    Nat.mod_eq_of_lt (Nat.lt_of_le_of_lt Nat.and_le_right (by decide))
  unfold nv5_mmio_read8
  simp only [and_mask24_of_lt a ha, hr, mmio_read32_of_not_redirect e s a ha hr,
    arbitrate_read_aligned, hsh, hlt]
  exact ⟨rfl, rfl⟩

/-- Witness of C1 at the PMC global-enable register holding 0xAABBCCDD, read
at byte lane 2. -/
theorem C1_mmio_read8_byte_of_arbitrated_read_witness :
    (nv5_mmio_read8 env_quiet { nv5_zero with pmc := { nv5_zero.pmc with enable := 0xAABBCCDD } } 0x202).1
        = ((nv5_mmio_arbitrate_read env_quiet
            { nv5_zero with pmc := { nv5_zero.pmc with enable := 0xAABBCCDD } }
            (0x202 &&& 0xFFFFFC)).1 >>> (8 * (0x202 &&& 3))) &&& 0xFF
      ∧ (nv5_mmio_read8 env_quiet { nv5_zero with pmc := { nv5_zero.pmc with enable := 0xAABBCCDD } } 0x202).2
        = (nv5_mmio_arbitrate_read env_quiet
            { nv5_zero with pmc := { nv5_zero.pmc with enable := 0xAABBCCDD } }
            (0x202 &&& 0xFFFFFC)).2 :=
  C1_mmio_read8_byte_of_arbitrated_read env_quiet _ 0x202 (by decide) (by decide)

/-- C2 (defect in the code): a 16-bit read of a register holding 0x1234 at
byte lane 0 returns 0x34, while the 16-bit slice of the 32-bit read of the
same word is 0x1234; the arbiter path of nv5_mmio_read16 converts its result
to 8 bits. -/
theorem C2_mmio_read16_loses_high_byte :
    (nv5_mmio_read32 env_quiet (st_pmc_enable 0x1234) (0x200 &&& 0xFFFFFC)).1 = 0x1234
      ∧ ((nv5_mmio_read32 env_quiet (st_pmc_enable 0x1234) (0x200 &&& 0xFFFFFC)).1
            >>> (8 * (0x200 &&& 3))) &&& 0xFFFF = 0x1234
      ∧ (nv5_mmio_read16 env_quiet (st_pmc_enable 0x1234) 0x200).1 = 0x34 := by
  decide

/-- C3 (defect in the code): with the PMC global-enable word (0x200) or PFB
config register 1 (0x100204) holding 0xFFFFFFFF, an 8-bit write of 0 to byte
lane 0 leaves 0xFFFFF800, so bits 8 to 10 of lane 1 are lost, and a 16-bit
write of 0 to lane 0 leaves 0xFFF80000, so bits 16 to 18 of lane 2 are lost;
an 8-bit write to lane 1 leaves 0xFFFFF000, so lane 0 is lost. -/
theorem C3_mmio_write_clobbers_other_lanes :
    (nv5_mmio_read32 env_quiet
        (nv5_mmio_write8 env_quiet (st_pmc_enable 0xFFFFFFFF) 0x200 0x00) 0x200).1 = 0xFFFFF800
      ∧ (nv5_mmio_read32 env_quiet
        (nv5_mmio_write16 env_quiet (st_pmc_enable 0xFFFFFFFF) 0x200 0x0000) 0x200).1 = 0xFFF80000
      ∧ (nv5_mmio_read32 env_quiet
        (nv5_mmio_write8 env_quiet (st_pmc_enable 0xFFFFFFFF) 0x201 0x00) 0x200).1 = 0xFFFFF000
      ∧ (nv5_mmio_read32 env_quiet
        (nv5_mmio_write8 env_quiet (st_pfb_config_1 0xFFFFFFFF) 0x100204 0x00) 0x100204).1
          = 0xFFFFF800
      ∧ (nv5_mmio_read32 env_quiet
        (nv5_mmio_write16 env_quiet (st_pfb_config_1 0xFFFFFFFF) 0x100204 0x0000) 0x100204).1
          = 0xFFF80000 := by
  decide

/-- C4 (defect in the code): with the PMC global-enable word holding
0xFFFFFFFF, an 8-bit write of 0 to byte lane 1, 2 or 3 followed by an 8-bit
read of the same address returns 0xF0, 0xFF and 0xFF, not 0: the lane is not
fully cleared before the new byte is ORed in.  Lane 0 reads back 0. -/
theorem C4_mmio_write8_read8_mismatch :
    (nv5_mmio_read8 env_quiet
        (nv5_mmio_write8 env_quiet (st_pmc_enable 0xFFFFFFFF) 0x201 0x00) 0x201).1 = 0xF0
      ∧ (nv5_mmio_read8 env_quiet
        (nv5_mmio_write8 env_quiet (st_pmc_enable 0xFFFFFFFF) 0x202 0x00) 0x202).1 = 0xFF
      ∧ (nv5_mmio_read8 env_quiet
        (nv5_mmio_write8 env_quiet (st_pmc_enable 0xFFFFFFFF) 0x203 0x00) 0x203).1 = 0xFF
      ∧ (nv5_mmio_read8 env_quiet
        (nv5_mmio_write8 env_quiet (st_pmc_enable 0xFFFFFFFF) 0x200 0x00) 0x200).1 = 0x00 := by
  decide

/-- C5: for every device state and either value of send_now, after
nv5_pmc_handle_interrupts the stored aggregate (which is also the value
returned) has the mediaport bit 4, FIFO bit 8, graphics-1 bit 13, video bit
16, timer bit 20 and bus bit 28 set exactly when that subsystem's
interrupt_status & interrupt_enable is nonzero; the call itself changes none
of these status and enable words. -/
theorem C5_aggregate_bit_iff_pending (s : nv5_t) (send_now : Bool) :
    (nv5_pmc_handle_interrupts s send_now).1
        = (nv5_pmc_handle_interrupts s send_now).2.pmc.interrupt_status
      ∧ ((nv5_pmc_handle_interrupts s send_now).2.pmc.interrupt_status.testBit 4 = true
          ↔ s.pme.interrupt_status &&& s.pme.interrupt_enable ≠ 0)
      ∧ ((nv5_pmc_handle_interrupts s send_now).2.pmc.interrupt_status.testBit 8 = true
          ↔ s.pfifo.interrupt_status &&& s.pfifo.interrupt_enable ≠ 0)
      ∧ ((nv5_pmc_handle_interrupts s send_now).2.pmc.interrupt_status.testBit 13 = true
          ↔ s.pgraph.interrupt_status_1 &&& s.pgraph.interrupt_enable_1 ≠ 0)
      ∧ ((nv5_pmc_handle_interrupts s send_now).2.pmc.interrupt_status.testBit 16 = true
          ↔ s.pvideo.interrupt_status &&& s.pvideo.interrupt_enable ≠ 0)
      ∧ ((nv5_pmc_handle_interrupts s send_now).2.pmc.interrupt_status.testBit 20 = true
          ↔ s.ptimer.interrupt_status &&& s.ptimer.interrupt_enable ≠ 0)
      ∧ ((nv5_pmc_handle_interrupts s send_now).2.pmc.interrupt_status.testBit 28 = true
          ↔ s.pbus.interrupt_status &&& s.pbus.interrupt_enable ≠ 0)
      ∧ (nv5_pmc_handle_interrupts s send_now).2.pme = s.pme
      ∧ (nv5_pmc_handle_interrupts s send_now).2.pfifo = s.pfifo
      ∧ (nv5_pmc_handle_interrupts s send_now).2.pgraph = s.pgraph
      ∧ (nv5_pmc_handle_interrupts s send_now).2.pvideo = s.pvideo
      ∧ (nv5_pmc_handle_interrupts s send_now).2.ptimer = s.ptimer
      ∧ (nv5_pmc_handle_interrupts s send_now).2.pbus = s.pbus := by
  have hf := handle_interrupts_frame s send_now
  have ha := handle_interrupts_aggregate s send_now
  refine ⟨?_, ?_, ?_, ?_, ?_, ?_, ?_, ?_, ?_, ?_, ?_, ?_, ?_⟩
  · rw [ha.1, ha.2]
  · rw [ha.1]; simp [new_intr_value_testBit]
  · rw [ha.1]; simp [new_intr_value_testBit]
  · rw [ha.1]; simp [new_intr_value_testBit]
  · rw [ha.1]; simp [new_intr_value_testBit]
  · rw [ha.1]; simp [new_intr_value_testBit]
  · rw [ha.1]; simp [new_intr_value_testBit]
  · rw [hf]
  · rw [hf]
  · rw [hf]
  · rw [hf]
  · rw [hf]
  · rw [hf]

/-- C6, counterexample: with pgraph.interrupt_status_0 = interrupt_enable_0 =
0x100 (only the VBLANK bit), pending is nonzero but bit 12 of the aggregate
is clear after nv5_pmc_handle_interrupts. -/
theorem C6_counterexample :
    ¬ (((nv5_pmc_handle_interrupts (st_pgraph0 0x100 0x100) true).2.pmc.interrupt_status.testBit 12
          = true)
        ↔ (st_pgraph0 0x100 0x100).pgraph.interrupt_status_0
            &&& (st_pgraph0 0x100 0x100).pgraph.interrupt_enable_0 ≠ 0) := by
  decide

/-- C6, as amended: after nv5_pmc_handle_interrupts, bit 8 (VBLANK) of
pending = interrupt_status_0 & interrupt_enable_0 is reported in bit 24 (PFB)
of the aggregate; bit 12 is set whenever pending has a bit other than bit 8,
and bit 12 is set only if interrupt_status_0 and interrupt_enable_0 each have
a bit other than bit 8. -/
theorem C6_pgraph0_bit_amended (s : nv5_t) (send_now : Bool) :
    ((nv5_pmc_handle_interrupts s send_now).2.pmc.interrupt_status.testBit 24 = true
        ↔ (s.pgraph.interrupt_status_0 &&& s.pgraph.interrupt_enable_0).testBit 8 = true)
      ∧ ((s.pgraph.interrupt_status_0 &&& s.pgraph.interrupt_enable_0) &&& 0xFFFFFEFF ≠ 0
          → (nv5_pmc_handle_interrupts s send_now).2.pmc.interrupt_status.testBit 12 = true)
      ∧ ((nv5_pmc_handle_interrupts s send_now).2.pmc.interrupt_status.testBit 12 = true
          → s.pgraph.interrupt_status_0 &&& 0xFFFFFEFF ≠ 0
            ∧ s.pgraph.interrupt_enable_0 &&& 0xFFFFFEFF ≠ 0) := by
  have ha := handle_interrupts_aggregate s send_now
  rw [ha.1]
  refine ⟨?_, ?_, ?_⟩
  · simp [new_intr_value_testBit, bit8_test]
  · intro h
    have h1 : s.pgraph.interrupt_status_0 &&& 0xFFFFFEFF ≠ 0 := by
      intro hz
      apply h
      rw [Nat.and_assoc, Nat.and_comm s.pgraph.interrupt_enable_0, ← Nat.and_assoc, hz,
        Nat.zero_and]
    have h2 : s.pgraph.interrupt_enable_0 &&& 0xFFFFFEFF ≠ 0 := by
      intro hz
      apply h
      rw [Nat.and_assoc, hz, Nat.and_zero]
    simp [new_intr_value_testBit, h1, h2]
  · intro h
    simpa [new_intr_value_testBit] using h

/-- Witness of the amended C6: status 0x3 and enable 0x2 overlap in bit 1, so
bit 12 of the aggregate is set. -/
theorem C6_pgraph0_bit_amended_witness :
    ((st_pgraph0 0x3 0x2).pgraph.interrupt_status_0
          &&& (st_pgraph0 0x3 0x2).pgraph.interrupt_enable_0) &&& 0xFFFFFEFF ≠ 0
      ∧ (nv5_pmc_handle_interrupts (st_pgraph0 0x3 0x2) true).2.pmc.interrupt_status.testBit 12
          = true :=
  ⟨by decide, (C6_pgraph0_bit_amended (st_pgraph0 0x3 0x2) true).2.1 (by decide)⟩

/-- C7, counterexample.  First state: a PBUS interrupt is pending (aggregate
0x10000000), the global enable word is 2 (hardware gate closed) and the line
was asserted before; the line stays asserted although the stated rule says
deasserted.  Second state: only the software bit is stored (aggregate
0x80000000) and the global enable word is 2 (software gate open); the line is
deasserted although the stated rule says asserted. -/
theorem C7_counterexample :
    ¬ ((nv5_pmc_handle_interrupts (st_pbus_pending 2 0 true) true).2.nvbase.pci_irq_state = true
        ↔ spec_line_asserted
            (nv5_pmc_handle_interrupts (st_pbus_pending 2 0 true) true).2.pmc.interrupt_status
            (nv5_pmc_handle_interrupts (st_pbus_pending 2 0 true) true).2.pmc.interrupt_enable
          = true)
      ∧ ¬ ((nv5_pmc_handle_interrupts (st_software_only 2 false) true).2.nvbase.pci_irq_state = true
        ↔ spec_line_asserted
            (nv5_pmc_handle_interrupts (st_software_only 2 false) true).2.pmc.interrupt_status
            (nv5_pmc_handle_interrupts (st_software_only 2 false) true).2.pmc.interrupt_enable
          = true) := by
  decide

/-- C7, as amended: for every device state and prior line state whose
recomputed aggregate is not the software-only value 0x80000000, after
nv5_pmc_handle_interrupts(true) the shared line is asserted iff the aggregate
is nonzero AND pmc.interrupt_enable is nonzero AND (the hardware enable bit
0x1 is set OR the line was already asserted before the call: a closed
hardware gate suppresses the assertion but does not deassert).  The global
enable word is left as it was. -/
theorem C7_line_after_send_amended (s : nv5_t)
    (hsw : (nv5_pmc_handle_interrupts s true).2.pmc.interrupt_status ≠ 0x80000000) :
    ((nv5_pmc_handle_interrupts s true).2.nvbase.pci_irq_state = true
        ↔ ((nv5_pmc_handle_interrupts s true).2.pmc.interrupt_status ≠ 0
            ∧ s.pmc.interrupt_enable ≠ 0
            ∧ (s.pmc.interrupt_enable &&& NV5_PMC_INTERRUPT_ENABLE_HARDWARE ≠ 0
                ∨ s.nvbase.pci_irq_state = true)))
      ∧ (nv5_pmc_handle_interrupts s true).2.pmc.interrupt_enable = s.pmc.interrupt_enable := by
  constructor
  · rw [(handle_interrupts_aggregate s true).1] at hsw ⊢
    have hlt := new_intr_value_lt s
    have hz := and_low31_eq_zero_iff (new_intr_value s) hlt
    have hhw : new_intr_value s &&& 0x7FFFFFFF ≠ 0 ↔ new_intr_value s ≠ 0 := by
      rw [Ne, hz]
      omega
    rw [handle_interrupts_line_send s, hhw]
    simp only [NV5_PMC_INTERRUPT_ENABLE_HARDWARE]
    constructor
    · rintro ⟨h1, h2, h3⟩
      exact ⟨h2, h1, h3⟩
    · rintro ⟨h1, h2, h3⟩
      exact ⟨h2, h1, h3⟩
  · rw [handle_interrupts_frame]

/-- Witness of the amended C7: a PBUS interrupt is pending (aggregate
0x10000000), both gates are open and the line is deasserted before; the call
asserts the line. -/
theorem C7_line_after_send_amended_witness :
    (nv5_pmc_handle_interrupts (st_pbus_pending 3 0 false) true).2.pmc.interrupt_status
        ≠ 0x80000000
      ∧ (nv5_pmc_handle_interrupts (st_pbus_pending 3 0 false) true).2.nvbase.pci_irq_state
        = true :=
  ⟨by decide,
   ((C7_line_after_send_amended (st_pbus_pending 3 0 false) (by decide)).1).2
     ⟨by decide, by decide, Or.inl (by decide)⟩⟩

/-- C8, counterexample: start from a state whose aggregate was just
recomputed with a PBUS interrupt pending and enabled (bit 28 set); writing 1
to NV5_PBUS_INTR through nv5_pbus_write clears the PBUS status, yet the stored
aggregate still has bit 28 set and differs from the recompute of the new
pairs. -/
theorem C8_counterexample :
    (nv5_pbus_write (nv5_pmc_handle_interrupts (st_pbus_pending 3 0 false) false).2
        NV5_PBUS_INTR 1).pbus.interrupt_status = 0
      ∧ (nv5_pbus_write (nv5_pmc_handle_interrupts (st_pbus_pending 3 0 false) false).2
        NV5_PBUS_INTR 1).pmc.interrupt_status.testBit 28 = true
      ∧ (nv5_pbus_write (nv5_pmc_handle_interrupts (st_pbus_pending 3 0 false) false).2
        NV5_PBUS_INTR 1).pmc.interrupt_status
          ≠ new_intr_value
              (nv5_pbus_write (nv5_pmc_handle_interrupts (st_pbus_pending 3 0 false) false).2
                NV5_PBUS_INTR 1) := by
  decide

/-- C8, as amended: a write of a status or enable register of PBUS, PFIFO,
PME, PVIDEO or PTIMER through its engine's write function leaves the stored
aggregate pmc.interrupt_status as it was (the write triggers no recompute);
the aggregate is the recompute of the new pairs after the next
nv5_pmc_handle_interrupts, as run by a read of NV5_PMC_INTERRUPT_STATUS:
the value read is stored, and each subsystem bit of it is set iff that
subsystem's new status & enable is nonzero. -/
theorem C8_aggregate_lazy_amended (s : nv5_t) (v : Nat) :
    ∀ s' ∈ [ nv5_pbus_write s NV5_PBUS_INTR v, nv5_pbus_write s NV5_PBUS_INTR_EN v,
             nv5_pfifo_write s NV5_PFIFO_INTR v, nv5_pfifo_write s NV5_PFIFO_INTR_EN v,
             nv5_pme_write s NV5_PME_INTR v, nv5_pme_write s NV5_PME_INTR_EN v,
             nv5_pvideo_write s NV5_PVIDEO_INTR v, nv5_pvideo_write s NV5_PVIDEO_INTR_EN v,
             nv5_ptimer_write s NV5_PTIMER_INTR v, nv5_ptimer_write s NV5_PTIMER_INTR_EN v ],
      s'.pmc.interrupt_status = s.pmc.interrupt_status
        ∧ (nv5_pmc_read s' NV5_PMC_INTERRUPT_STATUS).2.pmc.interrupt_status
            = (nv5_pmc_read s' NV5_PMC_INTERRUPT_STATUS).1
        ∧ ((nv5_pmc_read s' NV5_PMC_INTERRUPT_STATUS).1.testBit 28 = true
            ↔ s'.pbus.interrupt_status &&& s'.pbus.interrupt_enable ≠ 0)
        ∧ ((nv5_pmc_read s' NV5_PMC_INTERRUPT_STATUS).1.testBit 8 = true
            ↔ s'.pfifo.interrupt_status &&& s'.pfifo.interrupt_enable ≠ 0)
        ∧ ((nv5_pmc_read s' NV5_PMC_INTERRUPT_STATUS).1.testBit 4 = true
            ↔ s'.pme.interrupt_status &&& s'.pme.interrupt_enable ≠ 0)
        ∧ ((nv5_pmc_read s' NV5_PMC_INTERRUPT_STATUS).1.testBit 16 = true
            ↔ s'.pvideo.interrupt_status &&& s'.pvideo.interrupt_enable ≠ 0)
        ∧ ((nv5_pmc_read s' NV5_PMC_INTERRUPT_STATUS).1.testBit 20 = true
            ↔ s'.ptimer.interrupt_status &&& s'.ptimer.interrupt_enable ≠ 0) := by
  intro s' hs'
  have hrec : ∀ t : nv5_t,
      (nv5_pmc_read t NV5_PMC_INTERRUPT_STATUS).2.pmc.interrupt_status
          = (nv5_pmc_read t NV5_PMC_INTERRUPT_STATUS).1
        ∧ ((nv5_pmc_read t NV5_PMC_INTERRUPT_STATUS).1.testBit 28 = true
            ↔ t.pbus.interrupt_status &&& t.pbus.interrupt_enable ≠ 0)
        ∧ ((nv5_pmc_read t NV5_PMC_INTERRUPT_STATUS).1.testBit 8 = true
            ↔ t.pfifo.interrupt_status &&& t.pfifo.interrupt_enable ≠ 0)
        ∧ ((nv5_pmc_read t NV5_PMC_INTERRUPT_STATUS).1.testBit 4 = true
            ↔ t.pme.interrupt_status &&& t.pme.interrupt_enable ≠ 0)
        ∧ ((nv5_pmc_read t NV5_PMC_INTERRUPT_STATUS).1.testBit 16 = true
            ↔ t.pvideo.interrupt_status &&& t.pvideo.interrupt_enable ≠ 0)
        ∧ ((nv5_pmc_read t NV5_PMC_INTERRUPT_STATUS).1.testBit 20 = true
            ↔ t.ptimer.interrupt_status &&& t.ptimer.interrupt_enable ≠ 0) := by
    intro t
    have ha := handle_interrupts_aggregate (nv5_pmc_clear_interrupts t) false
    rw [pmc_read_intr, ha.1, ha.2]
    simp [new_intr_value_testBit, nv5_pmc_clear_interrupts]
  refine ⟨?_, hrec s'⟩
  have hfifo1 : (nv5_pfifo_write s NV5_PFIFO_INTR v).pmc.interrupt_status
      = s.pmc.interrupt_status := by
    cases h : nv5_pfifo_repressed s
    · rw [pfifo_write_intr s v h]; rfl
    · unfold nv5_pfifo_write; rw [h]; rfl
  have hfifo2 : (nv5_pfifo_write s NV5_PFIFO_INTR_EN v).pmc.interrupt_status
      = s.pmc.interrupt_status := by
    cases h : nv5_pfifo_repressed s
    · unfold nv5_pfifo_write; rw [h]; rfl
    · unfold nv5_pfifo_write; rw [h]; rfl
  simp only [List.mem_cons, List.mem_singleton, List.not_mem_nil, or_false] at hs'
  rcases hs' with h | h | h | h | h | h | h | h | h | h <;> subst h
  · rfl
  · rfl
  · exact hfifo1
  · exact hfifo2
  · rfl
  · rfl
  · rfl
  · rfl
  · rfl
  · rfl

/-- Witness of the amended C8 at the PBUS status write of the counterexample
state. -/
theorem C8_aggregate_lazy_amended_witness :
    (nv5_pbus_write (st_pbus_pending 3 0x10000000 false) NV5_PBUS_INTR 1).pmc.interrupt_status
        = (st_pbus_pending 3 0x10000000 false).pmc.interrupt_status
      ∧ ((nv5_pmc_read (nv5_pbus_write (st_pbus_pending 3 0x10000000 false) NV5_PBUS_INTR 1)
            NV5_PMC_INTERRUPT_STATUS).1.testBit 28 = true
          ↔ (nv5_pbus_write (st_pbus_pending 3 0x10000000 false) NV5_PBUS_INTR 1).pbus.interrupt_status
              &&& (nv5_pbus_write (st_pbus_pending 3 0x10000000 false) NV5_PBUS_INTR 1).pbus.interrupt_enable
              ≠ 0) :=
  ⟨(C8_aggregate_lazy_amended (st_pbus_pending 3 0x10000000 false) 1 _
      (List.mem_cons_self _ _)).1,
   (C8_aggregate_lazy_amended (st_pbus_pending 3 0x10000000 false) 1 _
      (List.mem_cons_self _ _)).2.2.1⟩

/-- C9: for each of PBUS, PME, PVIDEO and PTIMER, and for PFIFO when its
enablement test lets the access through, every prior state and every 32-bit
mask v: writing v to the subsystem's interrupt status register leaves
status = status & ~v (0 when v is the current status), leaves that
subsystem's enable, the records of the other subsystems and the PMC record as
they were, and leaves the shared interrupt line deasserted. -/
theorem C9_write_one_to_clear (s : nv5_t) (v : Nat) (hv : v < 0x100000000) :
    ((nv5_pbus_write s NV5_PBUS_INTR v).pbus.interrupt_status
          = s.pbus.interrupt_status &&& (0xFFFFFFFF - v)
        ∧ (v = s.pbus.interrupt_status → (nv5_pbus_write s NV5_PBUS_INTR v).pbus.interrupt_status = 0)
        ∧ (nv5_pbus_write s NV5_PBUS_INTR v).pbus.interrupt_enable = s.pbus.interrupt_enable
        ∧ (nv5_pbus_write s NV5_PBUS_INTR v).pfifo = s.pfifo
        ∧ (nv5_pbus_write s NV5_PBUS_INTR v).pme = s.pme
        ∧ (nv5_pbus_write s NV5_PBUS_INTR v).pvideo = s.pvideo
        ∧ (nv5_pbus_write s NV5_PBUS_INTR v).ptimer = s.ptimer
        ∧ (nv5_pbus_write s NV5_PBUS_INTR v).pgraph = s.pgraph
        ∧ (nv5_pbus_write s NV5_PBUS_INTR v).pmc = s.pmc
        ∧ (nv5_pbus_write s NV5_PBUS_INTR v).nvbase.pci_irq_state = false)
      ∧ ((nv5_pme_write s NV5_PME_INTR v).pme.interrupt_status
          = s.pme.interrupt_status &&& (0xFFFFFFFF - v)
        ∧ (v = s.pme.interrupt_status → (nv5_pme_write s NV5_PME_INTR v).pme.interrupt_status = 0)
        ∧ (nv5_pme_write s NV5_PME_INTR v).pme.interrupt_enable = s.pme.interrupt_enable
        ∧ (nv5_pme_write s NV5_PME_INTR v).pbus = s.pbus
        ∧ (nv5_pme_write s NV5_PME_INTR v).pfifo = s.pfifo
        ∧ (nv5_pme_write s NV5_PME_INTR v).pvideo = s.pvideo
        ∧ (nv5_pme_write s NV5_PME_INTR v).ptimer = s.ptimer
        ∧ (nv5_pme_write s NV5_PME_INTR v).pgraph = s.pgraph
        ∧ (nv5_pme_write s NV5_PME_INTR v).pmc = s.pmc
        ∧ (nv5_pme_write s NV5_PME_INTR v).nvbase.pci_irq_state = false)
      ∧ ((nv5_pvideo_write s NV5_PVIDEO_INTR v).pvideo.interrupt_status
          = s.pvideo.interrupt_status &&& (0xFFFFFFFF - v)
        ∧ (v = s.pvideo.interrupt_status
            → (nv5_pvideo_write s NV5_PVIDEO_INTR v).pvideo.interrupt_status = 0)
        ∧ (nv5_pvideo_write s NV5_PVIDEO_INTR v).pvideo.interrupt_enable = s.pvideo.interrupt_enable
        ∧ (nv5_pvideo_write s NV5_PVIDEO_INTR v).pbus = s.pbus
        ∧ (nv5_pvideo_write s NV5_PVIDEO_INTR v).pfifo = s.pfifo
        ∧ (nv5_pvideo_write s NV5_PVIDEO_INTR v).pme = s.pme
        ∧ (nv5_pvideo_write s NV5_PVIDEO_INTR v).ptimer = s.ptimer
        ∧ (nv5_pvideo_write s NV5_PVIDEO_INTR v).pgraph = s.pgraph
        ∧ (nv5_pvideo_write s NV5_PVIDEO_INTR v).pmc = s.pmc
        ∧ (nv5_pvideo_write s NV5_PVIDEO_INTR v).nvbase.pci_irq_state = false)
      ∧ ((nv5_ptimer_write s NV5_PTIMER_INTR v).ptimer.interrupt_status
          = s.ptimer.interrupt_status &&& (0xFFFFFFFF - v)
        ∧ (v = s.ptimer.interrupt_status
            → (nv5_ptimer_write s NV5_PTIMER_INTR v).ptimer.interrupt_status = 0)
        ∧ (nv5_ptimer_write s NV5_PTIMER_INTR v).ptimer.interrupt_enable = s.ptimer.interrupt_enable
        ∧ (nv5_ptimer_write s NV5_PTIMER_INTR v).pbus = s.pbus
        ∧ (nv5_ptimer_write s NV5_PTIMER_INTR v).pfifo = s.pfifo
        ∧ (nv5_ptimer_write s NV5_PTIMER_INTR v).pme = s.pme
        ∧ (nv5_ptimer_write s NV5_PTIMER_INTR v).pvideo = s.pvideo
        ∧ (nv5_ptimer_write s NV5_PTIMER_INTR v).pgraph = s.pgraph
        ∧ (nv5_ptimer_write s NV5_PTIMER_INTR v).pmc = s.pmc
        ∧ (nv5_ptimer_write s NV5_PTIMER_INTR v).nvbase.pci_irq_state = false)
      ∧ (nv5_pfifo_repressed s = false →
          (nv5_pfifo_write s NV5_PFIFO_INTR v).pfifo.interrupt_status
            = s.pfifo.interrupt_status &&& (0xFFFFFFFF - v)
          ∧ (v = s.pfifo.interrupt_status
              → (nv5_pfifo_write s NV5_PFIFO_INTR v).pfifo.interrupt_status = 0)
          ∧ (nv5_pfifo_write s NV5_PFIFO_INTR v).pfifo.interrupt_enable = s.pfifo.interrupt_enable
          ∧ (nv5_pfifo_write s NV5_PFIFO_INTR v).pbus = s.pbus
          ∧ (nv5_pfifo_write s NV5_PFIFO_INTR v).pme = s.pme
          ∧ (nv5_pfifo_write s NV5_PFIFO_INTR v).pvideo = s.pvideo
          ∧ (nv5_pfifo_write s NV5_PFIFO_INTR v).ptimer = s.ptimer
          ∧ (nv5_pfifo_write s NV5_PFIFO_INTR v).pgraph = s.pgraph
          ∧ (nv5_pfifo_write s NV5_PFIFO_INTR v).pmc = s.pmc
          ∧ (nv5_pfifo_write s NV5_PFIFO_INTR v).nvbase.pci_irq_state = false) := by
  have hn := not32_eq v hv
  have hz : ∀ x : Nat, v = x → x &&& (0xFFFFFFFF - v) = 0 := by
    intro x hx
    subst hx
    exact and_not32_self v hv
  refine ⟨?_, ?_, ?_, ?_, ?_⟩
  · rw [pbus_write_intr, hn]
    exact ⟨rfl, hz _, rfl, rfl, rfl, rfl, rfl, rfl, rfl, rfl⟩
  · rw [pme_write_intr, hn]
    exact ⟨rfl, hz _, rfl, rfl, rfl, rfl, rfl, rfl, rfl, rfl⟩
  · rw [pvideo_write_intr, hn]
    exact ⟨rfl, hz _, rfl, rfl, rfl, rfl, rfl, rfl, rfl, rfl⟩
  · rw [ptimer_write_intr, hn]
    exact ⟨rfl, hz _, rfl, rfl, rfl, rfl, rfl, rfl, rfl, rfl⟩
  · intro hg
    rw [pfifo_write_intr s v hg, hn]
    exact ⟨rfl, hz _, rfl, rfl, rfl, rfl, rfl, rfl, rfl, rfl⟩

/-- Witness of C9: every subsystem has status 0x11 pending, PFIFO is let
through (pmc.enable = 0x100) and the line is asserted; writing the mask 0x11
to each status register clears it and deasserts the line. -/
theorem C9_write_one_to_clear_witness :
    (0x11 : Nat) < 0x100000000
      ∧ (nv5_pbus_write st_all_pending NV5_PBUS_INTR 0x11).pbus.interrupt_status = 0
      ∧ (nv5_pbus_write st_all_pending NV5_PBUS_INTR 0x11).nvbase.pci_irq_state = false
      ∧ nv5_pfifo_repressed st_all_pending = false
      ∧ (nv5_pfifo_write st_all_pending NV5_PFIFO_INTR 0x11).pfifo.interrupt_status = 0
      ∧ (nv5_pfifo_write st_all_pending NV5_PFIFO_INTR 0x11).nvbase.pci_irq_state = false :=
  ⟨by decide,
   (C9_write_one_to_clear st_all_pending 0x11 (by decide)).1.2.1 rfl,
   (C9_write_one_to_clear st_all_pending 0x11 (by decide)).1.2.2.2.2.2.2.2.2.2,
   by decide,
   ((C9_write_one_to_clear st_all_pending 0x11 (by decide)).2.2.2.2 (by decide)).2.1 rfl,
   ((C9_write_one_to_clear st_all_pending 0x11 (by decide)).2.2.2.2 (by decide)).2.2.2.2.2.2.2.2.2⟩

/-- C10: for every device state in which pmc.interrupt_enable is zero and
either value of send_now, nv5_pmc_handle_interrupts leaves the shared line
deasserted; and writing any value v with (v & 3) = 0 to
NV5_PMC_INTERRUPT_ENABLE through nv5_pmc_write leaves the line deasserted
whatever is pending and whatever the line was. -/
theorem C10_global_enable_zero_deasserts (s : nv5_t) (send_now : Bool) (v : Nat) :
    (s.pmc.interrupt_enable = 0
        → (nv5_pmc_handle_interrupts s send_now).2.nvbase.pci_irq_state = false)
      ∧ (v &&& 3 = 0
        → (nv5_pmc_write s NV5_PMC_INTERRUPT_ENABLE v).nvbase.pci_irq_state = false
          ∧ (nv5_pmc_write s NV5_PMC_INTERRUPT_ENABLE v).pmc.interrupt_enable = 0) := by
  have key : ∀ (t : nv5_t) (b : Bool), t.pmc.interrupt_enable = 0
      → (nv5_pmc_handle_interrupts t b).2.nvbase.pci_irq_state = false := by
    intro t b h
    unfold nv5_pmc_handle_interrupts nv5_pmc_clear_interrupts pci_clear_irq
    simp only [h, if_true]
  constructor
  · exact key s send_now
  · intro hv
    rw [pmc_write_intr_en]
    constructor
    · exact key _ _ hv
    · rw [handle_interrupts_frame]
      exact hv

/-- Witness of C10: a PBUS interrupt is pending and the line is asserted;
with the global enable word 0 the recompute deasserts the line, and writing 4
(low two bits clear) to NV5_PMC_INTERRUPT_ENABLE deasserts it as well. -/
theorem C10_global_enable_zero_deasserts_witness :
    (st_pbus_pending 0 0 true).pmc.interrupt_enable = 0
      ∧ (nv5_pmc_handle_interrupts (st_pbus_pending 0 0 true) true).2.nvbase.pci_irq_state = false
      ∧ (4 : Nat) &&& 3 = 0
      ∧ (nv5_pmc_write (st_pbus_pending 3 0 true) NV5_PMC_INTERRUPT_ENABLE 4).nvbase.pci_irq_state
          = false :=
  ⟨rfl,
   (C10_global_enable_zero_deasserts (st_pbus_pending 0 0 true) true 4).1 rfl,
   by decide,
   ((C10_global_enable_zero_deasserts (st_pbus_pending 3 0 true) true 4).2 (by decide)).1⟩

/-- C11: for every 24-bit address whose aligned form (low two bits masked)
lies in none of the ranges tested by the arbiter, nv5_mmio_arbitrate_read
returns 0 and leaves the device as it was, and nv5_mmio_arbitrate_write leaves
the whole device state unchanged, whatever the value written and whatever the
environment.  The aligned addresses in none of the ranges are exactly those of
the nine stretches 0x5000-0x6FFF, 0x8000-0x8FFF, 0xA000-0xFFFFF,
0x102000-0x10FFFF, 0x130000-0x1FFFFF, 0x201000-0x3FFFFF, 0x5C2000-0x600FFF,
0x602000-0x67FFFF, 0x681000-0x7FFFFF. -/
theorem C11_unmapped_read_zero_write_discarded (e : nv5_env) (s : nv5_t) (a v : Nat)
    (ha : a < 0x1000000) :
    ((∀ r ∈ nv5_read_ranges ++ nv5_write_ranges,
        ¬ ((a &&& 0xFFFFFC) ≥ r.1 ∧ (a &&& 0xFFFFFC) ≤ r.2.1))
      ↔ ∃ g ∈ nv5_unmapped_gaps, g.1 ≤ a &&& 0xFFFFFC ∧ a &&& 0xFFFFFC ≤ g.2)
    ∧ ((∀ r ∈ nv5_read_ranges ++ nv5_write_ranges,
        ¬ ((a &&& 0xFFFFFC) ≥ r.1 ∧ (a &&& 0xFFFFFC) ≤ r.2.1))
      → nv5_mmio_arbitrate_read e s a = (0, s) ∧ nv5_mmio_arbitrate_write e s a v = s) := by
  refine ⟨unmapped_iff_in_gap _ (le_trans Nat.and_le_right (by decide)), fun h => ⟨?_, ?_⟩⟩
  · rw [arbitrate_read_eq_first_match,
      first_match_none nv5_read_ranges _ (fun r hr => h r (List.mem_append_left _ hr))]
    split <;> rfl
  · rw [arbitrate_write_eq_first_match, and_mask24_of_lt a ha,
      first_match_none nv5_write_ranges _ (fun r hr => h r (List.mem_append_right _ hr))]
    split <;> rfl

/-- Witness of C11: address 0x5003 (aligned 0x5000) lies in the first unmapped
stretch; with a PBUS interrupt pending and the line asserted the read gives 0
and the write of 0xFFFFFFFF changes nothing. -/
theorem C11_unmapped_read_zero_write_discarded_witness :
    (0x5003 : Nat) < 0x1000000
      ∧ (∃ g ∈ nv5_unmapped_gaps, g.1 ≤ (0x5003 : Nat) &&& 0xFFFFFC
          ∧ (0x5003 : Nat) &&& 0xFFFFFC ≤ g.2)
      ∧ nv5_mmio_arbitrate_read env_quiet (st_pbus_pending 3 0 true) 0x5003
          = (0, st_pbus_pending 3 0 true)
      ∧ nv5_mmio_arbitrate_write env_quiet (st_pbus_pending 3 0 true) 0x5003 0xFFFFFFFF
          = st_pbus_pending 3 0 true :=
  ⟨by decide, ⟨(0x5000, 0x6FFF), by decide, by decide, by decide⟩,
   (C11_unmapped_read_zero_write_discarded env_quiet (st_pbus_pending 3 0 true) 0x5003
      0xFFFFFFFF (by decide)).2
      ((C11_unmapped_read_zero_write_discarded env_quiet (st_pbus_pending 3 0 true) 0x5003
        0xFFFFFFFF (by decide)).1.2 ⟨(0x5000, 0x6FFF), by decide, by decide, by decide⟩)⟩

/-- C12, counterexample: the PMC entry (index 0) and the CIO entry (index 1)
of the read chain share address 0x3b0, and the PCI-mirror entry (index 2) and
the PBUS entry (index 3) share address 0x1800; neither pair is the PFB pair. -/
theorem C12_counterexample :
    nv5_read_ranges[0]? = some (NV5_PMC_START, NV5_PMC_END, nv5_subsystem.pmc)
      ∧ nv5_read_ranges[1]? = some (NV5_CIO_START, NV5_CIO_END, nv5_subsystem.cio)
      ∧ ranges_share (NV5_PMC_START, NV5_PMC_END, nv5_subsystem.pmc)
          (NV5_CIO_START, NV5_CIO_END, nv5_subsystem.cio)
      ∧ nv5_read_ranges[2]? = some (NV5_PBUS_PCI_START, NV5_PBUS_PCI_END, nv5_subsystem.pbus_pci)
      ∧ nv5_read_ranges[3]? = some (NV5_PBUS_START, NV5_PBUS_END, nv5_subsystem.pbus)
      ∧ ranges_share (NV5_PBUS_PCI_START, NV5_PBUS_PCI_END, nv5_subsystem.pbus_pci)
          (NV5_PBUS_START, NV5_PBUS_END, nv5_subsystem.pbus) :=
  ⟨rfl, rfl, ⟨0x3b0, by decide⟩, rfl, rfl, ⟨0x1800, by decide⟩⟩

/-- C12, as amended: in the ordered list of ranges tested by
nv5_mmio_arbitrate_read, the entries at indices i < j share an address exactly
for the pairs (0, 1) PMC and CIO, (2, 3) PCI mirror and PBUS, and (5, 9) the
two PFB entries; every other pair of entries is disjoint.  At the shared
addresses the first entry in source order is selected: PMC for
0x3b0-0x3df, the PCI mirror for 0x1800-0x18FF, PFB for the PFB range. -/
theorem C12_overlapping_pairs_amended (i j : Nat) (r1 r2 : Nat × Nat × nv5_subsystem)
    (hij : i < j) (h1 : nv5_read_ranges[i]? = some r1) (h2 : nv5_read_ranges[j]? = some r2) :
    (ranges_share r1 r2 ↔ (i, j) ∈ [(0, 1), (2, 3), (5, 9)])
      ∧ ∀ x : Nat,
          (NV5_CIO_START ≤ x ∧ x ≤ NV5_CIO_END
            → first_match nv5_read_ranges x = some nv5_subsystem.pmc)
          ∧ (NV5_PBUS_PCI_START ≤ x ∧ x ≤ NV5_PBUS_PCI_END
            → first_match nv5_read_ranges x = some nv5_subsystem.pbus_pci)
          ∧ (NV5_PFB_START ≤ x ∧ x ≤ NV5_PFB_END
            → first_match nv5_read_ranges x = some nv5_subsystem.pfb) := by
  refine ⟨?_, first_match_read_overlaps⟩
  have hj : j < nv5_read_ranges.length := by
    by_contra hc
    rw [List.getElem?_eq_none (by omega)] at h2
    cases h2
  have hi : i < nv5_read_ranges.length := by omega
  have hlen : nv5_read_ranges.length = 20 := rfl
  rw [List.getElem?_eq_getElem hi] at h1
  rw [List.getElem?_eq_getElem hj] at h2
  cases h1
  cases h2
  have key := read_ranges_share_fin ⟨i, by omega⟩ ⟨j, by omega⟩ (by simpa using hij)
  rw [ranges_share_iff]
  simp only [List.get_eq_getElem] at key
  constructor
  · intro h
    have := key.symm.trans (decide_eq_true h)
    exact of_decide_eq_true this
  · intro h
    have := key.trans (decide_eq_true h)
    exact of_decide_eq_true this

/-- Witness of the amended C12: entries 2 (PCI mirror) and 3 (PBUS) share an
address, entries 3 (PBUS) and 4 (PFIFO) do not. -/
theorem C12_overlapping_pairs_amended_witness :
    ((2 : Nat) < 3
        ∧ nv5_read_ranges[2]? = some (NV5_PBUS_PCI_START, NV5_PBUS_PCI_END, nv5_subsystem.pbus_pci)
        ∧ nv5_read_ranges[3]? = some (NV5_PBUS_START, NV5_PBUS_END, nv5_subsystem.pbus)
        ∧ ranges_share (NV5_PBUS_PCI_START, NV5_PBUS_PCI_END, nv5_subsystem.pbus_pci)
            (NV5_PBUS_START, NV5_PBUS_END, nv5_subsystem.pbus))
      ∧ ¬ ranges_share (NV5_PBUS_START, NV5_PBUS_END, nv5_subsystem.pbus)
            (NV5_PFIFO_START, NV5_PFIFO_END, nv5_subsystem.pfifo) :=
  ⟨⟨by decide, rfl, rfl,
    ((C12_overlapping_pairs_amended 2 3 _ _ (by decide) rfl rfl).1).2 (by decide)⟩,
   fun h => absurd (((C12_overlapping_pairs_amended 3 4
      (NV5_PBUS_START, NV5_PBUS_END, nv5_subsystem.pbus)
      (NV5_PFIFO_START, NV5_PFIFO_END, nv5_subsystem.pfifo) (by decide) rfl rfl).1).1 h)
      (by decide)⟩

/-- C13: for each of the engines PMC, PBUS, PFB, PEXTDEV, PME, PVIDEO, PTIMER
and PRAMDAC and every address that is not an entry of the engine's descriptor
table, the read function returns 0 and the write function leaves the whole
device state, the interrupt line included, unchanged; the read leaves it
unchanged as well. -/
theorem C13_unknown_register_read_zero_write_noop (s : nv5_t) (address value : Nat) :
    (not_in_table pmc_registers address
        → nv5_pmc_read s address = (0, s) ∧ nv5_pmc_write s address value = s)
      ∧ (not_in_table pbus_registers address
        → nv5_pbus_read s address = (0, s) ∧ nv5_pbus_write s address value = s)
      ∧ (not_in_table pfb_registers address
        → nv5_pfb_read s address = (0, s) ∧ nv5_pfb_write s address value = s)
      ∧ (not_in_table pextdev_registers address
        → nv5_pextdev_read s address = (0, s) ∧ nv5_pextdev_write s address value = s)
      ∧ (not_in_table pme_registers address
        → nv5_pme_read s address = (0, s) ∧ nv5_pme_write s address value = s)
      ∧ (not_in_table pvideo_registers address
        → nv5_pvideo_read s address = (0, s) ∧ nv5_pvideo_write s address value = s)
      ∧ (not_in_table ptimer_registers address
        → nv5_ptimer_read s address = (0, s) ∧ nv5_ptimer_write s address value = s)
      ∧ (not_in_table pramdac_registers address
        → nv5_pramdac_read s address = (0, s) ∧ nv5_pramdac_write s address value = s) := by
  refine ⟨?_, ?_, ?_, ?_, ?_, ?_, ?_, ?_⟩
  · intro h
    unfold nv5_pmc_read nv5_pmc_write
    rw [get_register_none_of_absent address pmc_registers _ h]
    exact ⟨rfl, rfl⟩
  · intro h
    unfold nv5_pbus_read nv5_pbus_write
    rw [get_register_none_of_absent address pbus_registers _ h]
    exact ⟨rfl, rfl⟩
  · intro h
    unfold nv5_pfb_read nv5_pfb_write
    rw [get_register_none_of_absent address pfb_registers _ h]
    exact ⟨rfl, rfl⟩
  · intro h
    unfold nv5_pextdev_read nv5_pextdev_write
    rw [get_register_none_of_absent address pextdev_registers _ h]
    refine ⟨rfl, ?_⟩
    split <;> rfl
  · intro h
    unfold nv5_pme_read nv5_pme_write
    rw [get_register_none_of_absent address pme_registers _ h]
    exact ⟨rfl, rfl⟩
  · intro h
    unfold nv5_pvideo_read nv5_pvideo_write
    rw [get_register_none_of_absent address pvideo_registers _ h]
    exact ⟨rfl, rfl⟩
  · intro h
    unfold nv5_ptimer_read nv5_ptimer_write
    rw [get_register_none_of_absent address ptimer_registers _ h]
    exact ⟨rfl, rfl⟩
  · intro h
    unfold nv5_pramdac_read nv5_pramdac_write
    rw [get_register_none_of_absent address pramdac_registers _ h]
    exact ⟨rfl, rfl⟩

/-- Witness of C13: 0x104 is not a PMC register and 0x9104 is not a PTIMER
register; with a PBUS interrupt pending and the line asserted, reading them
gives 0 and writing them changes nothing. -/
theorem C13_unknown_register_read_zero_write_noop_witness :
    not_in_table pmc_registers 0x104
      ∧ nv5_pmc_read (st_pbus_pending 3 0 true) 0x104 = (0, st_pbus_pending 3 0 true)
      ∧ nv5_pmc_write (st_pbus_pending 3 0 true) 0x104 0xFFFFFFFF = st_pbus_pending 3 0 true
      ∧ not_in_table ptimer_registers 0x9104
      ∧ nv5_ptimer_write (st_pbus_pending 3 0 true) 0x9104 0xFFFFFFFF
          = st_pbus_pending 3 0 true :=
  ⟨(not_in_table_iff _ _).2 (by decide),
   ((C13_unknown_register_read_zero_write_noop (st_pbus_pending 3 0 true) 0x104 0xFFFFFFFF).1
      ((not_in_table_iff _ _).2 (by decide))).1,
   ((C13_unknown_register_read_zero_write_noop (st_pbus_pending 3 0 true) 0x104 0xFFFFFFFF).1
      ((not_in_table_iff _ _).2 (by decide))).2,
   (not_in_table_iff _ _).2 (by decide),
   ((C13_unknown_register_read_zero_write_noop (st_pbus_pending 3 0 true) 0x9104
      0xFFFFFFFF).2.2.2.2.2.2.1 ((not_in_table_iff _ _).2 (by decide))).2⟩

/-- C14: for every address, descriptor table and bound n, nv_get_register is
the lookup of the description (scan at most n entries, stop at the sentinel,
first entry with the address): it returns entry r exactly when r stands at an
index i < n, has the address, is not the sentinel, and no entry before i is the
sentinel or has the address; otherwise it returns not-found.  Entries at or
after the first sentinel, or at an index >= n, are never returned; in
particular looking up the sentinel address itself finds nothing. -/
theorem C14_get_register_first_match_before_sentinel (address : Nat)
    (table : List nv_register_t) (n : Nat) :
    nv_get_register address table n = spec_lookup address table n
      ∧ (∀ r : nv_register_t, nv_get_register address table n = some r
          ↔ ∃ i, i < n ∧ table[i]? = some r ∧ r.address = address
              ∧ r.address ≠ NV_REG_LIST_END
              ∧ ∀ j, j < i → ∀ q, table[j]? = some q →
                  q.address ≠ NV_REG_LIST_END ∧ q.address ≠ address)
      ∧ (nv_get_register address table n = none
          ↔ ¬ ∃ r i, i < n ∧ table[i]? = some r ∧ r.address = address
              ∧ r.address ≠ NV_REG_LIST_END
              ∧ ∀ j, j < i → ∀ q, table[j]? = some q →
                  q.address ≠ NV_REG_LIST_END ∧ q.address ≠ address)
      ∧ nv_get_register NV_REG_LIST_END table n = none := by
  refine ⟨get_register_eq_spec_lookup address table n,
    fun r => get_register_some_iff address table n r, ?_, ?_⟩
  · constructor
    · intro hnone
      rintro ⟨r, hr⟩
      have := (get_register_some_iff address table n r).2 hr
      rw [hnone] at this
      cases this
    · intro hno
      cases hget : nv_get_register address table n with
      | none => rfl
      | some r => exact absurd ⟨r, (get_register_some_iff address table n r).1 hget⟩ hno
  · exact get_register_none_of_absent NV_REG_LIST_END table n (fun r _ h => h)

/-- C15 (defect in the code): with pmc.enable = 0x1000, bit 8
(NV5_PMC_ENABLE_PFIFO) is clear, yet nv5_pfifo_read of NV5_PFIFO_INTR returns
the status 0x11 and nv5_pfifo_write of NV5_PFIFO_CONFIG_RAMHT changes the
device: the enablement test negates the whole shifted word, so any set bit
above bit 8 lets the access through.  With pmc.enable = 0 the access is
refused. -/
theorem C15_pfifo_gate_ignores_bit8 :
    st_pfifo_bit_clear.pmc.enable.testBit NV5_PMC_ENABLE_PFIFO = false
      ∧ (nv5_pfifo_read st_pfifo_bit_clear NV5_PFIFO_INTR).1 = 0x11
      ∧ (nv5_pfifo_write st_pfifo_bit_clear NV5_PFIFO_CONFIG_RAMHT 0x30000).pfifo.ramht_config
          = 0x30000
      ∧ nv5_pfifo_write st_pfifo_bit_clear NV5_PFIFO_CONFIG_RAMHT 0x30000 ≠ st_pfifo_bit_clear
      ∧ (nv5_pfifo_read { st_pfifo_bit_clear with pmc := nv5_zero.pmc } NV5_PFIFO_INTR).1 = 0 := by
  decide

/-- C16: for each of the two clock generators and every value v whose bits 7:0
and bits 15:8 are both nonzero, writing v to the generator's clock register
through nv5_pramdac_write sets M = v[7:0], N = v[15:8], P = v[18:16], and a
subsequent read of the register through nv5_pramdac_read returns
v & 0x7FFFF. -/
theorem C16_clock_register_pack_unpack (s : nv5_t) (v : Nat)
    (hm : v &&& 0xFF ≠ 0) (hn : (v >>> 8) &&& 0xFF ≠ 0) :
    ((nv5_pramdac_write s NV5_PRAMDAC_CLOCK_MEMORY v).pramdac.memory_clock_m = v &&& 0xFF
        ∧ (nv5_pramdac_write s NV5_PRAMDAC_CLOCK_MEMORY v).pramdac.memory_clock_n
            = (v >>> 8) &&& 0xFF
        ∧ (nv5_pramdac_write s NV5_PRAMDAC_CLOCK_MEMORY v).pramdac.memory_clock_p
            = (v >>> 16) &&& 0x07
        ∧ (nv5_pramdac_read (nv5_pramdac_write s NV5_PRAMDAC_CLOCK_MEMORY v)
            NV5_PRAMDAC_CLOCK_MEMORY).1 = v &&& 0x7FFFF)
      ∧ ((nv5_pramdac_write s NV5_PRAMDAC_CLOCK_PIXEL v).pramdac.pixel_clock_m = v &&& 0xFF
        ∧ (nv5_pramdac_write s NV5_PRAMDAC_CLOCK_PIXEL v).pramdac.pixel_clock_n
            = (v >>> 8) &&& 0xFF
        ∧ (nv5_pramdac_write s NV5_PRAMDAC_CLOCK_PIXEL v).pramdac.pixel_clock_p
            = (v >>> 16) &&& 0x07
        ∧ (nv5_pramdac_read (nv5_pramdac_write s NV5_PRAMDAC_CLOCK_PIXEL v)
            NV5_PRAMDAC_CLOCK_PIXEL).1 = v &&& 0x7FFFF) := by
  have hmem : (nv5_pramdac_write s NV5_PRAMDAC_CLOCK_MEMORY v).pramdac.memory_clock_m = v &&& 0xFF
      ∧ (nv5_pramdac_write s NV5_PRAMDAC_CLOCK_MEMORY v).pramdac.memory_clock_n
          = (v >>> 8) &&& 0xFF
      ∧ (nv5_pramdac_write s NV5_PRAMDAC_CLOCK_MEMORY v).pramdac.memory_clock_p
          = (v >>> 16) &&& 0x07 := by
    rw [pramdac_write_clock_memory]
    unfold nv5_pramdac_set_vram_clock_register
    simp only [set_vram_clock_pramdac, if_neg hm, if_neg hn, and_self]
  have hpix : (nv5_pramdac_write s NV5_PRAMDAC_CLOCK_PIXEL v).pramdac.pixel_clock_m = v &&& 0xFF
      ∧ (nv5_pramdac_write s NV5_PRAMDAC_CLOCK_PIXEL v).pramdac.pixel_clock_n
          = (v >>> 8) &&& 0xFF
      ∧ (nv5_pramdac_write s NV5_PRAMDAC_CLOCK_PIXEL v).pramdac.pixel_clock_p
          = (v >>> 16) &&& 0x07 := by
    rw [pramdac_write_clock_pixel]
    unfold nv5_pramdac_set_pixel_clock_register
    simp only [set_pixel_clock_pramdac, if_neg hm, and_self]
  refine ⟨⟨hmem.1, hmem.2.1, hmem.2.2, ?_⟩, ⟨hpix.1, hpix.2.1, hpix.2.2, ?_⟩⟩
  · rw [pramdac_read_clock_memory]
    unfold nv5_pramdac_get_vram_clock_register
    rw [hmem.1, hmem.2.1, hmem.2.2]
    exact pack_clock_fields v
  · rw [pramdac_read_clock_pixel]
    unfold nv5_pramdac_get_pixel_clock_register
    rw [hpix.1, hpix.2.1, hpix.2.2]
    exact pack_clock_fields v

/-- Witness of C16: v = 0x0005C807 (M = 7, N = 200, P = 5) written to the
memory and to the pixel clock register of the zero-filled device. -/
theorem C16_clock_register_pack_unpack_witness :
    (0x0005C807 : Nat) &&& 0xFF ≠ 0 ∧ ((0x0005C807 : Nat) >>> 8) &&& 0xFF ≠ 0
      ∧ (nv5_pramdac_write nv5_zero NV5_PRAMDAC_CLOCK_MEMORY 0x0005C807).pramdac.memory_clock_p
          = (0x0005C807 >>> 16) &&& 0x07
      ∧ (nv5_pramdac_read (nv5_pramdac_write nv5_zero NV5_PRAMDAC_CLOCK_PIXEL 0x0005C807)
            NV5_PRAMDAC_CLOCK_PIXEL).1 = 0x0005C807 &&& 0x7FFFF :=
  ⟨by decide, by decide,
   (C16_clock_register_pack_unpack nv5_zero 0x0005C807 (by decide) (by decide)).1.2.2.1,
   (C16_clock_register_pack_unpack nv5_zero 0x0005C807 (by decide) (by decide)).2.2.2.2⟩

/-- C17 (defect in the code): writing 0x00000001 (N byte zero) to the pixel
clock register leaves pixel_clock_n = 0, so the pixel frequency
crystal * N / (M << P) has the factor N = 0 and comes out as 0: the guard in
nv5_pramdac_set_pixel_clock tests and repairs memory_clock_n instead of
pixel_clock_n.  The same write to the memory clock register stores N = 1. -/
theorem C17_pixel_clock_n_not_guarded :
    (nv5_pramdac_write nv5_zero NV5_PRAMDAC_CLOCK_PIXEL 0x00000001).pramdac.pixel_clock_n = 0
      ∧ (nv5_pramdac_write nv5_zero NV5_PRAMDAC_CLOCK_PIXEL 0x00000001).pramdac.pixel_clock_m = 1
      ∧ (nv5_pramdac_write nv5_zero NV5_PRAMDAC_CLOCK_PIXEL 0x00000001).pramdac.memory_clock_n = 1
      ∧ (nv5_pramdac_write nv5_zero NV5_PRAMDAC_CLOCK_PIXEL
          0x00000001).nvbase.pixel_clock_frequency = 0
      ∧ (nv5_pramdac_write nv5_zero NV5_PRAMDAC_CLOCK_MEMORY 0x00000001).pramdac.memory_clock_n
          = 1 := by
  refine ⟨by decide, by decide, by decide, ?_, by decide⟩
  rw [pramdac_write_clock_pixel]
  unfold nv5_pramdac_set_pixel_clock_register
  rw [set_pixel_clock_frequency]
  simp [float32_zero]

/-- C18, counterexample: after nv5_pramdac_init on the zero-filled device the
memory clock frequency stored is the single-precision value of
13,500,000*200/(7<<12); neither it nor the expression taken as an exact
rational is within 1 Hz of 470,315 Hz.  The period of the memory clock timer
is not the exact quotient 10,000,000/frequency either: the source divides in
double precision. -/
theorem C18_counterexample :
    (nv5_pramdac_init nv5_zero).nvbase.memory_clock_frequency
        = float32 ((13500000 * 200 : ℚ) / ((7 <<< 12 : Nat) : ℚ))
      ∧ ¬ (|(nv5_pramdac_init nv5_zero).nvbase.memory_clock_frequency - 470315| ≤ 1)
      ∧ ¬ (|(13500000 * 200 : ℚ) / ((7 <<< 12 : Nat) : ℚ) - 470315| ≤ 1)
      ∧ (nv5_pramdac_init nv5_zero).nvbase.memory_clock_timer.map (fun t => t.period)
          ≠ some ((1000000 * (NV5_86BOX_TIMER_SYSTEM_FIX_QUOTIENT : ℚ))
              / (nv5_pramdac_init nv5_zero).nvbase.memory_clock_frequency) := by
  have h := pramdac_init_memory_frequency nv5_zero
  refine ⟨h.1, ?_, ?_, ?_⟩
  · rw [h.1, float32_power_on_quotient]
    norm_num [abs_le]
  · norm_num [abs_le, Nat.shiftLeft_eq]
  · rw [h.2, h.1, float32_power_on_quotient]
    have h10 : (1000000 * (NV5_86BOX_TIMER_SYSTEM_FIX_QUOTIENT : ℚ)) = 10000000 := by
      norm_num [NV5_86BOX_TIMER_SYSTEM_FIX_QUOTIENT]
    rw [h10, float64_power_on_period]
    norm_num

/-- C18, as amended: nv5_pramdac_init installs M = 7, N = 200, P = 12 for the
memory clock; the frequency stored by nv5_pramdac_set_vram_clock is the
single-precision value of 13,500,000*200/(7<<12); that expression taken as an
exact rational is within 1 Hz of 94,168.5 Hz, and so is the frequency stored;
and the period of the memory clock timer is 1,000,000*FIX_QUOTIENT/frequency
with FIX_QUOTIENT = 10, divided in double precision, which is within 2^-47 of
the exact quotient. -/
theorem C18_memory_clock_after_init_amended (s : nv5_t) :
    (nv5_pramdac_init s).pramdac.memory_clock_m = 7
      ∧ (nv5_pramdac_init s).pramdac.memory_clock_n = 200
      ∧ (nv5_pramdac_init s).pramdac.memory_clock_p = 12
      ∧ (nv5_pramdac_init s).nvbase.memory_clock_frequency
          = float32 ((13500000 * 200 : ℚ) / ((7 <<< 12 : Nat) : ℚ))
      ∧ |(13500000 * 200 : ℚ) / ((7 <<< 12 : Nat) : ℚ) - 94168.5| ≤ 1
      ∧ |(nv5_pramdac_init s).nvbase.memory_clock_frequency - 94168.5| ≤ 1
      ∧ NV5_86BOX_TIMER_SYSTEM_FIX_QUOTIENT = 10
      ∧ (nv5_pramdac_init s).nvbase.memory_clock_timer.map (fun t => t.period)
          = some (float64 ((1000000 * (NV5_86BOX_TIMER_SYSTEM_FIX_QUOTIENT : ℚ))
              / (nv5_pramdac_init s).nvbase.memory_clock_frequency))
      ∧ |float64 ((1000000 * (NV5_86BOX_TIMER_SYSTEM_FIX_QUOTIENT : ℚ))
              / (nv5_pramdac_init s).nvbase.memory_clock_frequency)
            - (1000000 * (NV5_86BOX_TIMER_SYSTEM_FIX_QUOTIENT : ℚ))
              / (nv5_pramdac_init s).nvbase.memory_clock_frequency| ≤ 1 / 2 ^ 47 := by
  have hf := pramdac_init_memory_frequency s
  have hp := pramdac_init_pramdac s
  have h10 : (1000000 * (NV5_86BOX_TIMER_SYSTEM_FIX_QUOTIENT : ℚ)) = 10000000 := by
    norm_num [NV5_86BOX_TIMER_SYSTEM_FIX_QUOTIENT]
  refine ⟨by rw [hp], by rw [hp], by rw [hp], hf.1, ?_, ?_, rfl, hf.2, ?_⟩
  · norm_num [abs_le, Nat.shiftLeft_eq]
  · rw [hf.1, float32_power_on_quotient]
    norm_num [abs_le]
  · rw [hf.1, float32_power_on_quotient, h10, float64_power_on_period]
    norm_num [abs_le]

/-- C19, counterexample: in the state right after nv5_pramdac_init (no write
yet) both dividers have P = 12, outside 0..7; reading the memory clock
register there gives 0x000CC807 and writing that value back changes P from 12
to 4. -/
theorem C19_counterexample :
    (run_clock_writes nv5_zero []).pramdac.memory_clock_p = 12
      ∧ (run_clock_writes nv5_zero []).pramdac.pixel_clock_p = 12
      ∧ (nv5_pramdac_read (run_clock_writes nv5_zero []) NV5_PRAMDAC_CLOCK_MEMORY).1 = 0x000CC807
      ∧ (nv5_pramdac_write (run_clock_writes nv5_zero []) NV5_PRAMDAC_CLOCK_MEMORY
          (nv5_pramdac_read (run_clock_writes nv5_zero []) NV5_PRAMDAC_CLOCK_MEMORY).1
        ).pramdac.memory_clock_p = 4 := by
  decide

/-- C19, as amended: in every state reached from nv5_pramdac_init by any
sequence of writes to the two clock registers, both dividers have M in 1..255,
the memory divider has N in 1..255 and the pixel divider N in 0..255; the P of
a divider is in 0..7 once its clock register has been written and is the 12
installed by nv5_pramdac_init until then; and for a divider whose P is in
0..7, writing back the value just read from its clock register changes no
divider field. -/
theorem C19_divider_ranges_amended (s0 : nv5_t) (ws : List clock_write) :
    (1 ≤ (run_clock_writes s0 ws).pramdac.memory_clock_m
        ∧ (run_clock_writes s0 ws).pramdac.memory_clock_m ≤ 255)
      ∧ (1 ≤ (run_clock_writes s0 ws).pramdac.memory_clock_n
        ∧ (run_clock_writes s0 ws).pramdac.memory_clock_n ≤ 255)
      ∧ (1 ≤ (run_clock_writes s0 ws).pramdac.pixel_clock_m
        ∧ (run_clock_writes s0 ws).pramdac.pixel_clock_m ≤ 255)
      ∧ (run_clock_writes s0 ws).pramdac.pixel_clock_n ≤ 255
      ∧ (if ws.any clock_write.is_memory then (run_clock_writes s0 ws).pramdac.memory_clock_p ≤ 7
          else (run_clock_writes s0 ws).pramdac.memory_clock_p = 12)
      ∧ (if ws.any clock_write.is_pixel then (run_clock_writes s0 ws).pramdac.pixel_clock_p ≤ 7
          else (run_clock_writes s0 ws).pramdac.pixel_clock_p = 12)
      ∧ ((run_clock_writes s0 ws).pramdac.memory_clock_p ≤ 7
          → (nv5_pramdac_write (run_clock_writes s0 ws) NV5_PRAMDAC_CLOCK_MEMORY
              (nv5_pramdac_read (run_clock_writes s0 ws) NV5_PRAMDAC_CLOCK_MEMORY).1).pramdac
            = (run_clock_writes s0 ws).pramdac)
      ∧ ((run_clock_writes s0 ws).pramdac.pixel_clock_p ≤ 7
          → (nv5_pramdac_write (run_clock_writes s0 ws) NV5_PRAMDAC_CLOCK_PIXEL
              (nv5_pramdac_read (run_clock_writes s0 ws) NV5_PRAMDAC_CLOCK_PIXEL).1).pramdac
            = (run_clock_writes s0 ws).pramdac) := by
  obtain ⟨⟨h1, h2⟩, ⟨h3, h4⟩, ⟨h5, h6⟩, h7, h8, h9⟩ := run_clock_writes_bounds s0 ws
  exact ⟨⟨h1, h2⟩, ⟨h3, h4⟩, ⟨h5, h6⟩, h7, h8, h9,
    fun hp => memory_write_back _ h1 h2 h3 h4 hp,
    fun hp => pixel_write_back _ h5 h6 h7 hp h3⟩

/-- Witness of the amended C19: after nv5_pramdac_init and one write of
0x0003C807 to the memory clock register, the memory divider has P = 3 and
writing back the value read from the register leaves the RAMDAC record as it
was. -/
theorem C19_divider_ranges_amended_witness :
    (run_clock_writes nv5_zero [clock_write.memory 0x0003C807]).pramdac.memory_clock_p ≤ 7
      ∧ (nv5_pramdac_write (run_clock_writes nv5_zero [clock_write.memory 0x0003C807])
            NV5_PRAMDAC_CLOCK_MEMORY
            (nv5_pramdac_read (run_clock_writes nv5_zero [clock_write.memory 0x0003C807])
              NV5_PRAMDAC_CLOCK_MEMORY).1).pramdac
          = (run_clock_writes nv5_zero [clock_write.memory 0x0003C807]).pramdac :=
  ⟨by decide,
   (C19_divider_ranges_amended nv5_zero [clock_write.memory 0x0003C807]).2.2.2.2.2.2.1
     (by decide)⟩

/-- C20 (defect in the code): writing 0x00010000 to NV5_PTIMER_DENOMINATOR
stores clock_denominator = 0: the zero test is made on the 32-bit value and
the mask 0xFFFF is applied afterwards.  A written 0 is stored as 1. -/
theorem C20_denominator_zero_after_mask :
    (nv5_ptimer_write nv5_zero NV5_PTIMER_DENOMINATOR 0x00010000).ptimer.clock_denominator = 0
      ∧ (nv5_ptimer_write nv5_zero NV5_PTIMER_DENOMINATOR 0).ptimer.clock_denominator = 1 := by
  decide

/-- C21: for every state with nonzero numerator and denominator and every
tick whose truncated increment, added to ptimer.time (64-bit), brings the
counter to a value greater than or equal to ptimer.alarm: after
nv5_ptimer_tick the counter holds the advanced value, bit 0 of
ptimer.interrupt_status is set (the other status bits are as before), and the
device is the one left by nv5_pmc_handle_interrupts(true) run on that state.
The alarm is level-triggered: when software then clears bit 0 by writing a
value with bit 0 set to NV5_PTIMER_INTR, a following tick that leaves the
counter greater than or equal to the alarm sets bit 0 again. -/
theorem C21_alarm_level_triggered (s : nv5_t) (real_time : ℚ)
    (hn : s.ptimer.clock_numerator ≠ 0) (hd : s.ptimer.clock_denominator ≠ 0)
    (halarm : s.ptimer.alarm
      ≤ (s.ptimer.time + ptimer_tick_increment s real_time) % 0x10000000000000000) :
    (nv5_ptimer_tick s real_time).ptimer.time
        = (s.ptimer.time + ptimer_tick_increment s real_time) % 0x10000000000000000
      ∧ (nv5_ptimer_tick s real_time).ptimer.interrupt_status.testBit 0 = true
      ∧ (nv5_ptimer_tick s real_time).ptimer.interrupt_status = s.ptimer.interrupt_status ||| 1
      ∧ nv5_ptimer_tick s real_time
        = (nv5_pmc_handle_interrupts
            { s with ptimer := { s.ptimer with
                time := (s.ptimer.time + ptimer_tick_increment s real_time)
                  % 0x10000000000000000,
                interrupt_status := s.ptimer.interrupt_status ||| 1 } } true).2
      ∧ ∀ (v : Nat) (next_time : ℚ), v.testBit 0 = true →
          (nv5_ptimer_write (nv5_ptimer_tick s real_time) NV5_PTIMER_INTR v
            ).ptimer.interrupt_status.testBit 0 = false
          ∧ ((nv5_ptimer_write (nv5_ptimer_tick s real_time) NV5_PTIMER_INTR v).ptimer.alarm
                ≤ ((nv5_ptimer_write (nv5_ptimer_tick s real_time) NV5_PTIMER_INTR v).ptimer.time
                    + ptimer_tick_increment
                        (nv5_ptimer_write (nv5_ptimer_tick s real_time) NV5_PTIMER_INTR v)
                        next_time) % 0x10000000000000000
              → (nv5_ptimer_tick
                    (nv5_ptimer_write (nv5_ptimer_tick s real_time) NV5_PTIMER_INTR v)
                    next_time).ptimer.interrupt_status.testBit 0 = true) := by
  have hp := ptimer_tick_alarm_ptimer s real_time hn hd halarm
  refine ⟨by rw [hp], ?_, by rw [hp], ptimer_tick_alarm s real_time hn hd halarm, ?_⟩
  · rw [hp]
    exact testBit_zero_or_one _
  · intro v next_time hv
    have hw : (nv5_ptimer_write (nv5_ptimer_tick s real_time) NV5_PTIMER_INTR v).ptimer
        = { (nv5_ptimer_tick s real_time).ptimer with
            interrupt_status :=
              (nv5_ptimer_tick s real_time).ptimer.interrupt_status &&& (v ^^^ 0xFFFFFFFF) } := by
      rw [ptimer_write_intr]
      rfl
    constructor
    · rw [hw]
      exact testBit_zero_and_not32 _ v hv
    · intro h2
      have hn2 : (nv5_ptimer_write (nv5_ptimer_tick s real_time) NV5_PTIMER_INTR v
          ).ptimer.clock_numerator ≠ 0 := by
        rw [hw, hp]
        exact hn
      have hd2 : (nv5_ptimer_write (nv5_ptimer_tick s real_time) NV5_PTIMER_INTR v
          ).ptimer.clock_denominator ≠ 0 := by
        rw [hw, hp]
        exact hd
      rw [ptimer_tick_alarm_ptimer _ next_time hn2 hd2 h2]
      exact testBit_zero_or_one _

/-- Witness of C21: the counter at 0, the alarm at 0x20, numerator and
denominator 1, a 1 MHz memory clock; a tick of 5 microseconds advances the
counter to 50, past the alarm, and sets bit 0 of the PTIMER status. -/
theorem C21_alarm_level_triggered_witness :
    (st_ticking 0).ptimer.clock_numerator ≠ 0
      ∧ (st_ticking 0).ptimer.clock_denominator ≠ 0
      ∧ (st_ticking 0).ptimer.alarm
          ≤ ((st_ticking 0).ptimer.time + ptimer_tick_increment (st_ticking 0) 5)
              % 0x10000000000000000
      ∧ (st_ticking 0).ptimer.interrupt_status.testBit 0 = false
      ∧ (nv5_ptimer_tick (st_ticking 0) 5).ptimer.interrupt_status.testBit 0 = true
      ∧ (nv5_ptimer_tick (st_ticking 0) 5).ptimer.time = 50 :=
  ⟨by decide, by decide, by rw [tick_increment_st_ticking]; decide, by decide,
   (C21_alarm_level_triggered (st_ticking 0) 5 (by decide) (by decide)
      (by rw [tick_increment_st_ticking]; decide)).2.1,
   by
    rw [(C21_alarm_level_triggered (st_ticking 0) 5 (by decide) (by decide)
      (by rw [tick_increment_st_ticking]; decide)).1, tick_increment_st_ticking]
    decide⟩

/-- C23, counterexample: with 32 MB of VRAM (vram_max = 0x2000000) and
rma.addr = 0x03000010, the write to port 0xB that completes the data
0x12345678 calls the VRAM collaborator with the linear offset 0x10, not with
rma.addr - 0x1000000 = 0x02000010: the journal of the collaborator holds the
offset 0x10 and the value. -/
theorem C23_counterexample :
    (nv5_pbus_rma_write env_journal (rma_loaded st_vram_32mb 0x03000010 0x00345678) 0xB 0x12
      ).nvbase.svga.crtc = [0x10, 0x12345678]
      ∧ (0x03000010 : Nat) - NV5_MMIO_SIZE = 0x02000010 := by
  decide

/-- C23, as amended: for every state whose address accumulator is a 32-bit
value and whose vram_max is a power of two (at most 2^32), the write to port
0xB completes the data accumulator and then, if rma.addr < NV5_MMIO_SIZE,
performs nv5_mmio_write32(rma.addr, rma.data); otherwise it calls the VRAM
collaborator svga_writel_linear once, with the data and the linear offset
(rma.addr - 0x1000000) mod vram_max, on the host SVGA record with chain4 and
packed_chain4 set, clears both flags afterwards, and changes nothing else of
the device (the register arbiter is not invoked).  The offset is
rma.addr - 0x1000000 exactly when that is below vram_max. -/
theorem C23_rma_transaction_route_amended (e : nv5_env) (s : nv5_t) (v k : Nat)
    (hk : s.nvbase.svga.vram_max = 2 ^ k) (hk32 : k ≤ 32)
    (ha : s.pbus.rma.addr < 0x100000000) :
    (s.pbus.rma.addr < NV5_MMIO_SIZE →
        nv5_pbus_rma_write e s 0xB v
          = nv5_mmio_write32 e
              (rma_loaded s s.pbus.rma.addr
                ((s.pbus.rma.data &&& 0x00FFFFFF) ||| ((v % 0x100) <<< 24)))
              s.pbus.rma.addr ((s.pbus.rma.data &&& 0x00FFFFFF) ||| ((v % 0x100) <<< 24)))
      ∧ (NV5_MMIO_SIZE ≤ s.pbus.rma.addr →
        nv5_pbus_rma_write e s 0xB v
          = { rma_loaded s s.pbus.rma.addr
                ((s.pbus.rma.data &&& 0x00FFFFFF) ||| ((v % 0x100) <<< 24)) with
              nvbase := { s.nvbase with
                svga := { e.svga_writel_linear
                    { s.nvbase.svga with chain4 := true, packed_chain4 := true }
                    ((s.pbus.rma.addr - NV5_MMIO_SIZE) % s.nvbase.svga.vram_max)
                    ((s.pbus.rma.data &&& 0x00FFFFFF) ||| ((v % 0x100) <<< 24)) with
                  chain4 := false, packed_chain4 := false } } })
      ∧ ((s.pbus.rma.addr - NV5_MMIO_SIZE) % s.nvbase.svga.vram_max
            = s.pbus.rma.addr - NV5_MMIO_SIZE
          ↔ s.pbus.rma.addr - NV5_MMIO_SIZE < s.nvbase.svga.vram_max) := by
  refine ⟨?_, ?_, ?_⟩
  · intro h
    rw [rma_write_data3, if_pos h]
  · intro h
    have hoff : ((s.pbus.rma.addr + 0x100000000 - NV5_MMIO_SIZE) % 0x100000000)
          &&& ((s.nvbase.svga.vram_max + 0x100000000 - 1) % 0x100000000)
        = (s.pbus.rma.addr - NV5_MMIO_SIZE) % s.nvbase.svga.vram_max := by
      have h1 : (s.pbus.rma.addr + 0x100000000 - NV5_MMIO_SIZE) % 0x100000000
          = s.pbus.rma.addr - NV5_MMIO_SIZE := by
        unfold NV5_MMIO_SIZE at h ⊢
        omega
      have hpos : 0 < 2 ^ k := Nat.two_pow_pos k
      have hle : 2 ^ k ≤ 2 ^ 32 := Nat.pow_le_pow_right (by norm_num) hk32
      have h2 : (s.nvbase.svga.vram_max + 0x100000000 - 1) % 0x100000000 = 2 ^ k - 1 := by
        rw [hk]
        have e32 : (2 : Nat) ^ 32 = 0x100000000 := by norm_num
        omega
      rw [h1, h2, Nat.and_pow_two_sub_one_eq_mod, hk]
    rw [rma_write_data3, if_neg (Nat.not_lt.2 h)]
    unfold rma_vram_write
    simp only [rma_loaded] at hoff ⊢
    rw [hoff]
  · have hpos : 0 < s.nvbase.svga.vram_max := by
      rw [hk]
      exact Nat.two_pow_pos k
    constructor
    · intro h
      rw [← h]
      exact Nat.mod_lt _ hpos
    · intro h
      exact Nat.mod_eq_of_lt h

/-- Witness of the amended C23: with 32 MB of VRAM and rma.addr = 0x03000010
the write to port 0xB goes to the VRAM collaborator at offset 0x10; with
rma.addr = 0x200 it is nv5_mmio_write32 (0x200, 0x12345678), which stores the
data in the PMC enable word. -/
theorem C23_rma_transaction_route_amended_witness :
    (rma_loaded st_vram_32mb 0x03000010 0x00345678).nvbase.svga.vram_max = 2 ^ 25
      ∧ (25 : Nat) ≤ 32
      ∧ (rma_loaded st_vram_32mb 0x03000010 0x00345678).pbus.rma.addr < 0x100000000
      ∧ NV5_MMIO_SIZE ≤ (rma_loaded st_vram_32mb 0x03000010 0x00345678).pbus.rma.addr
      ∧ (nv5_pbus_rma_write env_journal (rma_loaded st_vram_32mb 0x03000010 0x00345678) 0xB 0x12
          ).nvbase.svga.crtc = [0x10, 0x12345678]
      ∧ (nv5_pbus_rma_write env_quiet (rma_loaded st_vram_32mb 0x200 0x00345678) 0xB 0x12
          ).pmc.enable = 0x12345678 :=
  ⟨by decide, by decide, by decide, by decide,
   by
    rw [(C23_rma_transaction_route_amended env_journal
      (rma_loaded st_vram_32mb 0x03000010 0x00345678) 0x12 25 (by decide) (by decide)
      (by decide)).2.1 (by decide)]
    decide,
   by
    rw [(C23_rma_transaction_route_amended env_quiet
      (rma_loaded st_vram_32mb 0x200 0x00345678) 0x12 25 (by decide) (by decide)
      (by decide)).1 (by decide)]
    decide⟩

/-- C24 (defect in the code): with rma.addr = 0x680700 (the PRAMDAC register
VSERR_WIDTH) the data bytes 0x78, 0x56, 0x34, 0x12 written to the
auto-increment ports 0x10-0x13 advance rma.addr by 4 after every byte
(0x680704 after the first, 0x68070C when the fourth arrives), so the single
transaction writes 0x12345678 at 0x68070C (VBLANK_END), not at 0x680700, and
rma.addr ends at 0x680710, not at 0x680704.  The same bytes through the plain
data ports 8-0xB write VSERR_WIDTH and leave rma.addr at 0x680700. -/
theorem C24_autoincrement_after_every_byte :
    (rma_write_seq env_quiet (st_rma 0 0x680700) [(0x10, 0x78)]).pbus.rma.addr = 0x680704
      ∧ (rma_write_seq env_quiet (st_rma 0 0x680700)
          [(0x10, 0x78), (0x11, 0x56), (0x12, 0x34)]).pbus.rma.addr = 0x68070C
      ∧ (rma_write_seq env_quiet (st_rma 0 0x680700)
          [(0x10, 0x78), (0x11, 0x56), (0x12, 0x34), (0x13, 0x12)]).pramdac.vserr_width = 0
      ∧ (rma_write_seq env_quiet (st_rma 0 0x680700)
          [(0x10, 0x78), (0x11, 0x56), (0x12, 0x34), (0x13, 0x12)]).pramdac.vblank_end
          = 0x12345678
      ∧ (rma_write_seq env_quiet (st_rma 0 0x680700)
          [(0x10, 0x78), (0x11, 0x56), (0x12, 0x34), (0x13, 0x12)]).pbus.rma.addr = 0x680710
      ∧ (rma_write_seq env_quiet (st_rma 0 0x680700)
          [(8, 0x78), (9, 0x56), (0xA, 0x34), (0xB, 0x12)]).pramdac.vserr_width = 0x12345678
      ∧ (rma_write_seq env_quiet (st_rma 0 0x680700)
          [(8, 0x78), (9, 0x56), (0xA, 0x34), (0xB, 0x12)]).pbus.rma.addr = 0x680700 := by
  decide

/-- C25: for every device state (whatever the RMA address, data and mode) and
every environment, nv5_pbus_rma_read of ports 0, 1, 2, 3 returns the bytes
0x65, 0xD0, 0x16, 0x2B respectively and returns the device unchanged. -/
theorem C25_rma_read_signature (e : nv5_env) (s : nv5_t) :
    nv5_pbus_rma_read e s 0 = (0x65, s)
      ∧ nv5_pbus_rma_read e s 1 = (0xD0, s)
      ∧ nv5_pbus_rma_read e s 2 = (0x16, s)
      ∧ nv5_pbus_rma_read e s 3 = (0x2B, s) :=
  ⟨rfl, rfl, rfl, rfl⟩

/-- C26: for every address a satisfying nv5_is_svga_redirect_address, every
value v, state and environment: nv5_mmio_write32(a, v) is exactly the four
collaborator writes nv5_svga_out((a & 0x3FF) + i, (v >> 8*i) & 0xFF) for
i = 0, 1, 2, 3 in that order, each on the device left by the one before (the
arbiter has no part in it); nv5_mmio_write16 is the first two,
nv5_mmio_write8 the first one; and nv5_mmio_read32(a) returns the OR over
i = 0..3 of nv5_svga_in((a & 0x3FF) + i) << 8*i as a 32-bit value (the OR
itself when the collaborator returns bytes), and the device left by the last
read (the embedding makes the four reads in the order of i, which C leaves
open). -/
theorem C26_redirect_fan_out (e : nv5_env) (s : nv5_t) (a v : Nat)
    (h : nv5_is_svga_redirect_address a = true) :
    nv5_mmio_write32 e s a v
        = e.nv5_svga_out
            (e.nv5_svga_out
              (e.nv5_svga_out
                (e.nv5_svga_out s (a &&& 0x3FF) (v &&& 0xFF))
                ((a &&& 0x3FF) + 1) ((v >>> 8) &&& 0xFF))
              ((a &&& 0x3FF) + 2) ((v >>> 16) &&& 0xFF))
            ((a &&& 0x3FF) + 3) ((v >>> 24) &&& 0xFF)
      ∧ nv5_mmio_write16 e s a v
        = e.nv5_svga_out
            (e.nv5_svga_out s (a &&& 0x3FF) (v &&& 0xFF))
            ((a &&& 0x3FF) + 1) ((v >>> 8) &&& 0xFF)
      ∧ nv5_mmio_write8 e s a v = e.nv5_svga_out s (a &&& 0x3FF) (v &&& 0xFF)
      ∧ (nv5_mmio_read32 e s a).1
        = ((e.nv5_svga_in s (a &&& 0x3FF)).1
            ||| ((e.nv5_svga_in (e.nv5_svga_in s (a &&& 0x3FF)).2 ((a &&& 0x3FF) + 1)).1 <<< 8)
            ||| ((e.nv5_svga_in
                  (e.nv5_svga_in (e.nv5_svga_in s (a &&& 0x3FF)).2 ((a &&& 0x3FF) + 1)).2
                  ((a &&& 0x3FF) + 2)).1 <<< 16)
            ||| ((e.nv5_svga_in
                  (e.nv5_svga_in
                    (e.nv5_svga_in (e.nv5_svga_in s (a &&& 0x3FF)).2 ((a &&& 0x3FF) + 1)).2
                    ((a &&& 0x3FF) + 2)).2
                  ((a &&& 0x3FF) + 3)).1 <<< 24)) % 0x100000000
      ∧ (nv5_mmio_read32 e s a).2
        = (e.nv5_svga_in
            (e.nv5_svga_in
              (e.nv5_svga_in (e.nv5_svga_in s (a &&& 0x3FF)).2 ((a &&& 0x3FF) + 1)).2
              ((a &&& 0x3FF) + 2)).2
            ((a &&& 0x3FF) + 3)).2
      ∧ ((∀ (t : nv5_t) (p : Nat), (e.nv5_svga_in t p).1 < 0x100) →
          (nv5_mmio_read32 e s a).1
            = (e.nv5_svga_in s (a &&& 0x3FF)).1
              ||| ((e.nv5_svga_in (e.nv5_svga_in s (a &&& 0x3FF)).2 ((a &&& 0x3FF) + 1)).1 <<< 8)
              ||| ((e.nv5_svga_in
                    (e.nv5_svga_in (e.nv5_svga_in s (a &&& 0x3FF)).2 ((a &&& 0x3FF) + 1)).2
                    ((a &&& 0x3FF) + 2)).1 <<< 16)
              ||| ((e.nv5_svga_in
                    (e.nv5_svga_in
                      (e.nv5_svga_in (e.nv5_svga_in s (a &&& 0x3FF)).2 ((a &&& 0x3FF) + 1)).2
                      ((a &&& 0x3FF) + 2)).2
                    ((a &&& 0x3FF) + 3)).1 <<< 24)) := by
  have hm : a &&& 0xFFFFFF = a := and_mask24_of_lt a (redirect_lt a h)
  unfold nv5_mmio_write32 nv5_mmio_write16 nv5_mmio_write8 nv5_mmio_read32
  simp only [hm, h, if_true, true_and]
  intro hb
  exact Nat.mod_eq_of_lt (or_bytes_lt _ _ _ _ (hb _ _) (hb _ _) (hb _ _) (hb _ _))

/-- Witness of C26: the redirected address 0x6013D4 (CRTC index, colour) in
the journalling environment: the 32-bit write of 0x44332211 calls the
collaborator for ports 0x3D4, 0x3D5, 0x3D6, 0x3D7 in that order. -/
theorem C26_redirect_fan_out_witness :
    nv5_is_svga_redirect_address 0x6013D4 = true
      ∧ (nv5_mmio_write32 env_journal nv5_zero 0x6013D4 0x44332211).nvbase.svga.crtc
          = [0x3D4, 0x3D5, 0x3D6, 0x3D7] :=
  ⟨by decide, by
    rw [(C26_redirect_fan_out env_journal nv5_zero 0x6013D4 0x44332211 (by decide)).1]
    decide⟩

/-- C27 (defect in the code): with PFIFO enabled, nv5_pfifo_write of 0x1111
to NV5_PFIFO_INTR_EN stores 0x1111 in pbus.interrupt_enable, the interrupt
enable word of PBUS, and leaves the PFIFO record (its own interrupt_enable
included) as it was.  Every other write of the seven engines stays inside the
engine's own record and the shared line: for every state, address and value
the writes of PBUS, PFB, PEXTDEV, PME, PVIDEO and PTIMER do, and so does the
PFIFO write to any address other than NV5_PFIFO_INTR_EN. -/
theorem C27_pfifo_intr_en_writes_pbus :
    (nv5_pfifo_repressed st_pfifo_enabled = false
      ∧ st_pfifo_enabled.pbus.interrupt_enable = 0
      ∧ (nv5_pfifo_write st_pfifo_enabled NV5_PFIFO_INTR_EN 0x1111).pbus.interrupt_enable
          = 0x1111
      ∧ (nv5_pfifo_write st_pfifo_enabled NV5_PFIFO_INTR_EN 0x1111).pfifo
          = st_pfifo_enabled.pfifo
      ∧ nv5_pfifo_write st_pfifo_enabled NV5_PFIFO_INTR_EN 0x1111
          ≠ with_own_record .pfifo st_pfifo_enabled
              (nv5_pfifo_write st_pfifo_enabled NV5_PFIFO_INTR_EN 0x1111))
      ∧ ∀ (s : nv5_t) (address value : Nat),
          nv5_pbus_write s address value
              = with_own_record .pbus s (nv5_pbus_write s address value)
            ∧ nv5_pfb_write s address value
              = with_own_record .pfb s (nv5_pfb_write s address value)
            ∧ nv5_pextdev_write s address value
              = with_own_record .pextdev s (nv5_pextdev_write s address value)
            ∧ nv5_pme_write s address value
              = with_own_record .pme s (nv5_pme_write s address value)
            ∧ nv5_pvideo_write s address value
              = with_own_record .pvideo s (nv5_pvideo_write s address value)
            ∧ nv5_ptimer_write s address value
              = with_own_record .ptimer s (nv5_ptimer_write s address value)
            ∧ (address ≠ NV5_PFIFO_INTR_EN →
                nv5_pfifo_write s address value
                  = with_own_record .pfifo s (nv5_pfifo_write s address value)) :=
  ⟨by decide, fun s address value =>
    ⟨pbus_write_frame s address value, pfb_write_frame s address value,
     pextdev_write_frame s address value, pme_write_frame s address value,
     pvideo_write_frame s address value, ptimer_write_frame s address value,
     fun h => pfifo_write_frame s address value (Or.inl h)⟩⟩

/-- C28, counterexample: 0xC03FE and 0xC03FF satisfy
nv5_is_svga_redirect_address; the 32-bit write to 0xC03FE calls nv5_svga_out
for ports 0x3FE, 0x3FF, 0x400, 0x401, the 32-bit read of 0xC03FD calls
nv5_svga_in for ports 0x3FD to 0x400, and the 16-bit write to 0xC03FF calls
nv5_svga_out for ports 0x3FF and 0x400: port numbers of 0x400 and above are
passed to the collaborator. -/
theorem C28_counterexample :
    nv5_is_svga_redirect_address 0xC03FE = true
      ∧ (nv5_mmio_write32 env_journal nv5_zero 0xC03FE 0x44332211).nvbase.svga.crtc
          = [0x3FE, 0x3FF, 0x400, 0x401]
      ∧ nv5_is_svga_redirect_address 0xC03FD = true
      ∧ (nv5_mmio_read32 env_journal nv5_zero 0xC03FD).2.nvbase.svga.crtc
          = [0x3FD, 0x3FE, 0x3FF, 0x400]
      ∧ nv5_is_svga_redirect_address 0xC03FF = true
      ∧ (nv5_mmio_write16 env_journal nv5_zero 0xC03FF 0x2211).nvbase.svga.crtc
          = [0x3FF, 0x400] := by
  decide

/-- C28, as amended: for every address a satisfying
nv5_is_svga_redirect_address, the port numbers passed to the SVGA
collaborator are (a & 0x3FF) + i for i below the number of bytes of the
access, in that order (seen in the journal of the collaborator): one port for
an 8-bit access, two for a 16-bit access, four for a 32-bit access.  The first
port, a & 0x3FF, is below 0x400, so every port of an 8-bit access is; a port
of a 16-bit access reaches 0x400 exactly when a = 0xC03FF, and a port of a
32-bit access reaches 0x400 or more exactly when a is 0xC03FD, 0xC03FE or
0xC03FF; no port exceeds 0x402. -/
theorem C28_redirect_ports_amended (s : nv5_t) (a v : Nat)
    (h : nv5_is_svga_redirect_address a = true) :
    ((nv5_mmio_write8 env_journal s a v).nvbase.svga.crtc
        = s.nvbase.svga.crtc ++ [a &&& 0x3FF]
      ∧ (nv5_mmio_read8 env_journal s a).2.nvbase.svga.crtc
        = s.nvbase.svga.crtc ++ [a &&& 0x3FF]
      ∧ (nv5_mmio_write16 env_journal s a v).nvbase.svga.crtc
        = s.nvbase.svga.crtc ++ [a &&& 0x3FF, (a &&& 0x3FF) + 1]
      ∧ (nv5_mmio_read16 env_journal s a).2.nvbase.svga.crtc
        = s.nvbase.svga.crtc ++ [a &&& 0x3FF, (a &&& 0x3FF) + 1]
      ∧ (nv5_mmio_write32 env_journal s a v).nvbase.svga.crtc
        = s.nvbase.svga.crtc
            ++ [a &&& 0x3FF, (a &&& 0x3FF) + 1, (a &&& 0x3FF) + 2, (a &&& 0x3FF) + 3]
      ∧ (nv5_mmio_read32 env_journal s a).2.nvbase.svga.crtc
        = s.nvbase.svga.crtc
            ++ [a &&& 0x3FF, (a &&& 0x3FF) + 1, (a &&& 0x3FF) + 2, (a &&& 0x3FF) + 3])
      ∧ a &&& 0x3FF < 0x400
      ∧ (0x400 ≤ (a &&& 0x3FF) + 1 ↔ a = 0xC03FF)
      ∧ (0x400 ≤ (a &&& 0x3FF) + 3 ↔ (0xC03FD ≤ a ∧ a ≤ 0xC03FF))
      ∧ (a &&& 0x3FF) + 3 ≤ 0x402 := by
  have hm : a &&& 0xFFFFFF = a := and_mask24_of_lt a (redirect_lt a h)
  have hp : a &&& 0x3FF = a % 0x400 := Nat.and_pow_two_sub_one_eq_mod a 10
  refine ⟨?_, ?_, ?_, ?_, ?_⟩
  · unfold nv5_mmio_write8 nv5_mmio_read8 nv5_mmio_write16 nv5_mmio_read16 nv5_mmio_write32
      nv5_mmio_read32
    simp only [hm, h, if_true, env_journal, journal, List.append_assoc, List.singleton_append,
      List.cons_append, List.nil_append, and_self]
  · rw [hp]
    omega
  · rw [hp]
    unfold nv5_is_svga_redirect_address at h
    simp only [decide_eq_true_eq, NV5_PRMVIO_START, NV5_VGA_START, NV5_PRMVIO_END,
      NV5_PRMCIO_CRTC_REGISTER_CUR_COLOR, NV5_PRMCIO_CRTC_REGISTER_CUR_INDEX_COLOR,
      NV5_PRMCIO_CRTC_REGISTER_CUR_MONO, NV5_PRMCIO_CRTC_REGISTER_CUR_INDEX_MONO] at h
    omega
  · rw [hp]
    unfold nv5_is_svga_redirect_address at h
    simp only [decide_eq_true_eq, NV5_PRMVIO_START, NV5_VGA_START, NV5_PRMVIO_END,
      NV5_PRMCIO_CRTC_REGISTER_CUR_COLOR, NV5_PRMCIO_CRTC_REGISTER_CUR_INDEX_COLOR,
      NV5_PRMCIO_CRTC_REGISTER_CUR_MONO, NV5_PRMCIO_CRTC_REGISTER_CUR_INDEX_MONO] at h
    omega
  · rw [hp]
    omega

/-- Witness of the amended C28: the redirected address 0x6013D4; the ports of
a 32-bit write are 0x3D4 to 0x3D7. -/
theorem C28_redirect_ports_amended_witness :
    nv5_is_svga_redirect_address 0x6013D4 = true
      ∧ (nv5_mmio_write32 env_journal nv5_zero 0x6013D4 0x44332211).nvbase.svga.crtc
          = nv5_zero.nvbase.svga.crtc
            ++ [0x6013D4 &&& 0x3FF, (0x6013D4 &&& 0x3FF) + 1, (0x6013D4 &&& 0x3FF) + 2,
              (0x6013D4 &&& 0x3FF) + 3]
      ∧ (0x6013D4 &&& 0x3FF) + 3 ≤ 0x402 :=
  ⟨by decide,
   (C28_redirect_ports_amended nv5_zero 0x6013D4 0x44332211 (by decide)).1.2.2.2.2.1,
   (C28_redirect_ports_amended nv5_zero 0x6013D4 0x44332211 (by decide)).2.2.2.2⟩

/-- C29: for every device state, prior line state and value of send_now,
after nv5_pmc_handle_interrupts the shared line is asserted only if it was
asserted before or send_now is true, some hardware bit of the recomputed
aggregate is set ((aggregate & 0x7FFFFFFF) != 0) and the hardware enable bit
(0x1) of pmc.interrupt_enable is set: the call itself asserts the line under
no other condition.  When the aggregate is exactly 0x80000000 (software
interrupt only) the call never asserts the line, whatever the software
enable bit is: with send_now true it deasserts the line, and the line can
only be found asserted afterwards when send_now is false, the global enable
word is nonzero and the line was asserted before (the call then leaves it
untouched). -/
theorem C29_line_asserted_only_by_hardware_gate (s : nv5_t) (send_now : Bool) :
    ((nv5_pmc_handle_interrupts s send_now).2.nvbase.pci_irq_state = true →
        s.nvbase.pci_irq_state = true
          ∨ (send_now = true
              ∧ (nv5_pmc_handle_interrupts s send_now).1 &&& 0x7FFFFFFF ≠ 0
              ∧ s.pmc.interrupt_enable &&& NV5_PMC_INTERRUPT_ENABLE_HARDWARE ≠ 0))
      ∧ ((s.nvbase.pci_irq_state = false
            ∧ (nv5_pmc_handle_interrupts s send_now).2.nvbase.pci_irq_state = true) →
          send_now = true
            ∧ (nv5_pmc_handle_interrupts s send_now).1 &&& 0x7FFFFFFF ≠ 0
            ∧ s.pmc.interrupt_enable &&& NV5_PMC_INTERRUPT_ENABLE_HARDWARE ≠ 0)
      ∧ ((nv5_pmc_handle_interrupts s send_now).1 = 0x80000000 →
          (send_now = true →
            (nv5_pmc_handle_interrupts s send_now).2.nvbase.pci_irq_state = false)
          ∧ ((nv5_pmc_handle_interrupts s send_now).2.nvbase.pci_irq_state = true →
              s.nvbase.pci_irq_state = true ∧ send_now = false
                ∧ s.pmc.interrupt_enable ≠ 0)) := by
  have hagg := (handle_interrupts_aggregate s send_now).2
  have hmain : (nv5_pmc_handle_interrupts s send_now).2.nvbase.pci_irq_state = true →
      s.nvbase.pci_irq_state = true
        ∨ (send_now = true
            ∧ (nv5_pmc_handle_interrupts s send_now).1 &&& 0x7FFFFFFF ≠ 0
            ∧ s.pmc.interrupt_enable &&& NV5_PMC_INTERRUPT_ENABLE_HARDWARE ≠ 0) := by
    intro h
    rw [hagg]
    cases send_now with
    | false =>
      exact Or.inl ((handle_interrupts_line_nosend s).1 h).2
    | true =>
      obtain ⟨_, h2, h3⟩ := (handle_interrupts_line_send s).1 h
      rcases h3 with h3 | h3
      · exact Or.inr ⟨rfl, h2, h3⟩
      · exact Or.inl h3
  refine ⟨hmain, ?_, ?_⟩
  · rintro ⟨hprior, hafter⟩
    rcases hmain hafter with h | h
    · rw [hprior] at h
      exact absurd h (by decide)
    · exact h
  · intro hsw
    rw [hagg] at hsw
    constructor
    · intro hs
      subst hs
      cases hline : (nv5_pmc_handle_interrupts s true).2.nvbase.pci_irq_state with
      | false => rfl
      | true =>
        obtain ⟨_, h2, _⟩ := (handle_interrupts_line_send s).1 hline
        rw [hsw] at h2
        exact absurd and_low31_software_only h2
    · intro hafter
      cases send_now with
      | false =>
        obtain ⟨h1, h2⟩ := (handle_interrupts_line_nosend s).1 hafter
        exact ⟨h2, rfl, h1⟩
      | true =>
        obtain ⟨_, h2, _⟩ := (handle_interrupts_line_send s).1 hafter
        rw [hsw] at h2
        exact absurd and_low31_software_only h2

/-- Witness of C29: with only the software bit stored, the software gate open
(global enable word 2) and the line asserted before, a call with send_now
true deasserts the line; with a PBUS interrupt pending, both gates open and
the line deasserted before, the call asserts it. -/
theorem C29_line_asserted_only_by_hardware_gate_witness :
    (nv5_pmc_handle_interrupts (st_software_only 2 true) true).1 = 0x80000000
      ∧ (nv5_pmc_handle_interrupts (st_software_only 2 true) true).2.nvbase.pci_irq_state
          = false
      ∧ (st_pbus_pending 3 0 false).nvbase.pci_irq_state = false
      ∧ (nv5_pmc_handle_interrupts (st_pbus_pending 3 0 false) true).2.nvbase.pci_irq_state
          = true
      ∧ (nv5_pmc_handle_interrupts (st_pbus_pending 3 0 false) true).1 &&& 0x7FFFFFFF ≠ 0 :=
  ⟨by decide,
   ((C29_line_asserted_only_by_hardware_gate (st_software_only 2 true) true).2.2
      (by decide)).1 rfl,
   by decide, by decide,
   ((C29_line_asserted_only_by_hardware_gate (st_pbus_pending 3 0 false) true).2.1
      ⟨by decide, by decide⟩).2.1⟩

/-- C30: for every device state, a read of NV5_PMC_INTERRUPT_STATUS through
nv5_pmc_read returns the aggregate recomputed from the current state
(each subsystem bit from that subsystem's current status and enable words,
bit 31 copied from the previously stored aggregate, every other bit clear),
stores that aggregate in pmc.interrupt_status, leaves the shared interrupt
line deasserted, and changes nothing else. -/
theorem C30_intr_status_read_recomputes (s : nv5_t) :
    (nv5_pmc_read s NV5_PMC_INTERRUPT_STATUS).1 = new_intr_value s
      ∧ (nv5_pmc_read s NV5_PMC_INTERRUPT_STATUS).2.pmc.interrupt_status = new_intr_value s
      ∧ (nv5_pmc_read s NV5_PMC_INTERRUPT_STATUS).2.nvbase.pci_irq_state = false
      ∧ (nv5_pmc_read s NV5_PMC_INTERRUPT_STATUS).2
        = { s with
            pmc := { s.pmc with interrupt_status := new_intr_value s },
            nvbase := { s.nvbase with pci_irq_state := false } }
      ∧ ∀ j : Nat, ((nv5_pmc_read s NV5_PMC_INTERRUPT_STATUS).1).testBit j =
          ((decide (s.pme.interrupt_status &&& s.pme.interrupt_enable ≠ 0) && decide (4 = j))
          || (decide (s.pfifo.interrupt_status &&& s.pfifo.interrupt_enable ≠ 0)
              && decide (8 = j))
          || (decide (s.pgraph.interrupt_status_0 &&& (1 <<< 8) ≠ 0
                ∧ s.pgraph.interrupt_enable_0 &&& (1 <<< 8) ≠ 0) && decide (24 = j))
          || (decide (s.pgraph.interrupt_status_0 &&& 0xFFFFFEFF ≠ 0
                ∧ s.pgraph.interrupt_enable_0 &&& 0xFFFFFEFF ≠ 0) && decide (12 = j))
          || (decide (s.pgraph.interrupt_status_1 &&& s.pgraph.interrupt_enable_1 ≠ 0)
              && decide (13 = j))
          || (decide (s.pvideo.interrupt_status &&& s.pvideo.interrupt_enable ≠ 0)
              && decide (16 = j))
          || (decide (s.ptimer.interrupt_status &&& s.ptimer.interrupt_enable ≠ 0)
              && decide (20 = j))
          || (decide (s.pbus.interrupt_status &&& s.pbus.interrupt_enable ≠ 0)
              && decide (28 = j))
          || (decide (s.pmc.interrupt_status &&& (1 <<< 31) ≠ 0) && decide (31 = j))) := by
  have hagg := handle_interrupts_aggregate (nv5_pmc_clear_interrupts s) false
  rw [new_intr_value_clear] at hagg
  have hline : (nv5_pmc_read s NV5_PMC_INTERRUPT_STATUS).2.nvbase.pci_irq_state = false := by
    rw [pmc_read_intr]
    cases h : (nv5_pmc_handle_interrupts (nv5_pmc_clear_interrupts s) false
        ).2.nvbase.pci_irq_state with
    | false => rfl
    | true =>
      have h2 := ((handle_interrupts_line_nosend (nv5_pmc_clear_interrupts s)).1 h).2
      exact absurd h2 (by
        show ¬ ((nv5_pmc_clear_interrupts s).nvbase.pci_irq_state = true)
        unfold nv5_pmc_clear_interrupts pci_clear_irq
        simp)
  refine ⟨?_, ?_, hline, ?_, ?_⟩
  · rw [pmc_read_intr]
    exact hagg.2
  · rw [pmc_read_intr]
    exact hagg.1
  · have hl := hline
    rw [pmc_read_intr] at hl ⊢
    rw [handle_interrupts_frame, hl, new_intr_value_clear]
    rfl
  · intro j
    rw [pmc_read_intr, hagg.2]
    exact new_intr_value_testBit s j

/-- C31: for every device state, nv5_pmc_handle_interrupts(false) run on the
state it has just left returns the same value and leaves the same state as the
first run.  Bit j of the aggregate it stores is, for j = 31, bit 31 of the
aggregate stored before the call, and for every other j a function of the
subsystem status/enable pairs alone (PME bit 4, PFIFO bit 8, PGRAPH bits 12, 13
and 24, PVIDEO bit 16, PTIMER bit 20, PBUS bit 28; all other bits are 0). -/
theorem C31_handle_interrupts_nosend_idempotent (s : nv5_t) :
    nv5_pmc_handle_interrupts (nv5_pmc_handle_interrupts s false).2 false
        = nv5_pmc_handle_interrupts s false
      ∧ (nv5_pmc_handle_interrupts s false).1
          = (nv5_pmc_handle_interrupts s false).2.pmc.interrupt_status
      ∧ ∀ j : Nat, (nv5_pmc_handle_interrupts s false).2.pmc.interrupt_status.testBit j =
          ((decide (s.pme.interrupt_status &&& s.pme.interrupt_enable ≠ 0) && decide (4 = j))
          || (decide (s.pfifo.interrupt_status &&& s.pfifo.interrupt_enable ≠ 0)
                && decide (8 = j))
          || (decide (s.pgraph.interrupt_status_0 &&& (1 <<< 8) ≠ 0
                ∧ s.pgraph.interrupt_enable_0 &&& (1 <<< 8) ≠ 0) && decide (24 = j))
          || (decide (s.pgraph.interrupt_status_0 &&& 0xFFFFFEFF ≠ 0
                ∧ s.pgraph.interrupt_enable_0 &&& 0xFFFFFEFF ≠ 0) && decide (12 = j))
          || (decide (s.pgraph.interrupt_status_1 &&& s.pgraph.interrupt_enable_1 ≠ 0)
                && decide (13 = j))
          || (decide (s.pvideo.interrupt_status &&& s.pvideo.interrupt_enable ≠ 0)
                && decide (16 = j))
          || (decide (s.ptimer.interrupt_status &&& s.ptimer.interrupt_enable ≠ 0)
                && decide (20 = j))
          || (decide (s.pbus.interrupt_status &&& s.pbus.interrupt_enable ≠ 0)
                && decide (28 = j))
          || (s.pmc.interrupt_status.testBit 31 && decide (31 = j))) := by
  refine ⟨handle_interrupts_nosend_twice s, ?_, ?_⟩
  · rw [(handle_interrupts_aggregate s false).1, (handle_interrupts_aggregate s false).2]
  · intro j
    rw [(handle_interrupts_aggregate s false).1, new_intr_value_testBit, bit31_decide]

/-- C32: for every device state and value v, when no hardware bit is pending
in the stored aggregate ((pmc.interrupt_status & 0x7FFFFFFF) == 0),
nv5_pmc_write(NV5_PMC_INTERRUPT_STATUS, v) returns the device unchanged, so bit
31 (software) of the aggregate cannot be raised through this register; when a
hardware bit is pending, the write leaves pmc.interrupt_status equal to v. -/
theorem C32_pmc_intr_status_write_guard (s : nv5_t) (v : Nat) :
    (s.pmc.interrupt_status &&& 0x7FFFFFFF = 0
        → nv5_pmc_write s NV5_PMC_INTERRUPT_STATUS v = s)
      ∧ (s.pmc.interrupt_status &&& 0x7FFFFFFF ≠ 0
        → (nv5_pmc_write s NV5_PMC_INTERRUPT_STATUS v).pmc.interrupt_status = v) := by
  have hw : nv5_pmc_write s NV5_PMC_INTERRUPT_STATUS v
      = if s.pmc.interrupt_status &&& 0x7FFFFFFF = 0 then s
        else { (nv5_pmc_handle_interrupts s true).2 with
          pmc := { (nv5_pmc_handle_interrupts s true).2.pmc with interrupt_status := v } } := rfl
  constructor
  · intro h
    rw [hw, if_pos h]
  · intro h
    rw [hw, if_neg h]

theorem C32_pmc_intr_status_write_guard_witness :
    ((st_software_only 3 true).pmc.interrupt_status &&& 0x7FFFFFFF = 0
        ∧ nv5_pmc_write (st_software_only 3 true) NV5_PMC_INTERRUPT_STATUS 0xFFFFFFFF
            = st_software_only 3 true)
      ∧ ((st_pbus_pending 3 0x10000000 true).pmc.interrupt_status &&& 0x7FFFFFFF ≠ 0
        ∧ (nv5_pmc_write (st_pbus_pending 3 0x10000000 true) NV5_PMC_INTERRUPT_STATUS
            0x80000000).pmc.interrupt_status = 0x80000000) :=
  ⟨⟨by decide,
    (C32_pmc_intr_status_write_guard (st_software_only 3 true) 0xFFFFFFFF).1 (by decide)⟩,
   ⟨by decide,
    (C32_pmc_intr_status_write_guard (st_pbus_pending 3 0x10000000 true) 0x80000000).2
      (by decide)⟩⟩

/-- C33: for every address a (the arbiters keep only bits 2 to 23 of it),
nv5_mmio_arbitrate_read and nv5_mmio_arbitrate_write dispatch on one and the
same selection sel: the first match of the read chain and the first match of
the write chain at the masked address are equal (a subsystem, or none in both),
although the two chains are different lists (PFB stands before PRM and a
second time after PTIMER on the read side, once after PTIMER on the write
side, and only the write side ends with PRAMIN).  The selection is never the
VRAM or the PRAMIN branch, whose ranges start above the 24-bit mask. -/
theorem C33_read_write_chains_select_same_subsystem (e : nv5_env) (s : nv5_t) (a v : Nat) :
    ∃ sel : Option nv5_subsystem,
      first_match nv5_read_ranges (a &&& 0xFFFFFC) = sel
        ∧ first_match nv5_write_ranges ((a &&& 0xFFFFFF) &&& 0xFFFFFC) = sel
        ∧ sel ≠ some nv5_subsystem.vram
        ∧ sel ≠ some nv5_subsystem.pramin
        ∧ nv5_mmio_arbitrate_read e s a
            = (if !e.nv3 then (0x00, s) else read_dispatch e s (a &&& 0xFFFFFC) sel)
        ∧ nv5_mmio_arbitrate_write e s a v
            = (if !e.nv3 then s else write_dispatch e s (a &&& 0xFFFFFC) v sel)
        ∧ nv5_read_ranges ≠ nv5_write_ranges := by
  have hm : (a &&& 0xFFFFFF) &&& 0xFFFFFC = a &&& 0xFFFFFC := by
    rw [Nat.and_assoc]
    rfl
  have hx : a &&& 0xFFFFFC ≤ 0xFFFFFF :=
    Nat.le_trans Nat.and_le_right (by decide)
  have heq := first_match_read_eq_write (a &&& 0xFFFFFC) hx
  have hnot := first_match_not_vram_pramin (a &&& 0xFFFFFC) hx
  refine ⟨first_match nv5_write_ranges (a &&& 0xFFFFFC), heq, ?_, hnot.1, hnot.2, ?_, ?_, ?_⟩
  · rw [hm]
  · rw [arbitrate_read_eq_first_match, heq]
  · rw [arbitrate_write_eq_first_match, hm]
  · decide

/-- C34 (defect in the code): with the status word 0x00010101 in PBUS, PME,
PVIDEO or PTIMER, nv5_mmio_write8 of 0x01 to byte lane 0 of the interrupt
status register leaves the status 0x00000100, not 0x00010100 = S & ~v: bit 16,
which lies outside the written lane, is cleared.  For every state and byte v
the status left is (S & 0x7FF) & ~v: the 8-bit path reads the status, keeps its
bits 11 to 31 in the word it writes back, and the write-1-to-clear register
clears every one of them that was set. -/
theorem C34_write8_w1c_clears_outside_lane :
    (nv5_mmio_write8 env_quiet (st_status_words 0x00010101) NV5_PBUS_INTR
        0x01).pbus.interrupt_status = 0x100
      ∧ (nv5_mmio_write8 env_quiet (st_status_words 0x00010101) NV5_PME_INTR
          0x01).pme.interrupt_status = 0x100
      ∧ (nv5_mmio_write8 env_quiet (st_status_words 0x00010101) NV5_PVIDEO_INTR
          0x01).pvideo.interrupt_status = 0x100
      ∧ (nv5_mmio_write8 env_quiet (st_status_words 0x00010101) NV5_PTIMER_INTR
          0x01).ptimer.interrupt_status = 0x100
      ∧ (nv5_mmio_write32 env_quiet (st_status_words 0x00010101) NV5_PBUS_INTR
          0x01).pbus.interrupt_status = 0x00010100
      ∧ (∀ (s : nv5_t) (v : Nat),
          (nv5_mmio_write8 env_quiet s NV5_PBUS_INTR (v % 0x100)).pbus.interrupt_status
              = (s.pbus.interrupt_status &&& 0x7FF) &&& ((v % 0x100) ^^^ 0xFFFFFFFF)
            ∧ (nv5_mmio_write8 env_quiet s NV5_PME_INTR (v % 0x100)).pme.interrupt_status
              = (s.pme.interrupt_status &&& 0x7FF) &&& ((v % 0x100) ^^^ 0xFFFFFFFF)
            ∧ (nv5_mmio_write8 env_quiet s NV5_PVIDEO_INTR (v % 0x100)).pvideo.interrupt_status
              = (s.pvideo.interrupt_status &&& 0x7FF) &&& ((v % 0x100) ^^^ 0xFFFFFFFF)
            ∧ (nv5_mmio_write8 env_quiet s NV5_PTIMER_INTR (v % 0x100)).ptimer.interrupt_status
              = (s.ptimer.interrupt_status &&& 0x7FF) &&& ((v % 0x100) ^^^ 0xFFFFFFFF)) := by
  refine ⟨by decide, by decide, by decide, by decide, by decide, ?_⟩
  intro s v
  refine ⟨?_, ?_, ?_, ?_⟩
  · exact Eq.trans (by rfl) (w1c_after_rmw_lane0 s.pbus.interrupt_status (v % 0x100))
  · exact Eq.trans (by rfl) (w1c_after_rmw_lane0 s.pme.interrupt_status (v % 0x100))
  · exact Eq.trans (by rfl) (w1c_after_rmw_lane0 s.pvideo.interrupt_status (v % 0x100))
  · exact Eq.trans (by rfl) (w1c_after_rmw_lane0 s.ptimer.interrupt_status (v % 0x100))

/-- C35 (defect in the code): with the counter at 0x100, nv5_ptimer_write of
0x20 to NV5_PTIMER_TIME_0_NSEC leaves the counter at 0x120 and the read of
TIME_0 returns 0x120, not 0x20; with the counter at 0x100 << 32 the write of
0x20 to NV5_PTIMER_TIME_1_NSEC makes the read of TIME_1 return 0x120.  For
every state and value the two writes OR the masked value into the half of the
counter, where the alarm register next to them is assigned; the half that is
not written keeps its content. -/
theorem C35_ptimer_time_write_ors_into_counter :
    (nv5_ptimer_read (nv5_ptimer_write (st_ptimer_time 0x100) NV5_PTIMER_TIME_0_NSEC 0x20)
        NV5_PTIMER_TIME_0_NSEC).1 = 0x120
      ∧ (nv5_ptimer_read
          (nv5_ptimer_write (st_ptimer_time 0x10000000000) NV5_PTIMER_TIME_1_NSEC 0x20)
          NV5_PTIMER_TIME_1_NSEC).1 = 0x120
      ∧ (∀ (s : nv5_t) (v : Nat),
          (nv5_ptimer_write s NV5_PTIMER_TIME_0_NSEC v).ptimer.time
              = s.ptimer.time ||| (v &&& 0xFFFFFFE0)
            ∧ (nv5_ptimer_write s NV5_PTIMER_TIME_1_NSEC v).ptimer.time
              = s.ptimer.time ||| (((v &&& 0xFFFFFFE0) <<< 32) % 0x10000000000000000)
            ∧ (nv5_ptimer_write s NV5_PTIMER_ALARM_NSEC v).ptimer.alarm = v &&& 0xFFFFFFE0
            ∧ (nv5_ptimer_write s NV5_PTIMER_TIME_0_NSEC v).ptimer.time >>> 32
              = s.ptimer.time >>> 32
            ∧ (nv5_ptimer_write s NV5_PTIMER_TIME_1_NSEC v).ptimer.time % 0x100000000
              = s.ptimer.time % 0x100000000) := by
  refine ⟨by decide, by decide, ?_⟩
  intro s v
  refine ⟨rfl, rfl, rfl, ?_, ?_⟩
  · show (s.ptimer.time ||| (v &&& 0xFFFFFFE0)) >>> 32 = s.ptimer.time >>> 32
    have hlt : v &&& 0xFFFFFFE0 < 2 ^ 32 :=
      Nat.lt_of_le_of_lt Nat.and_le_right (by decide)
    apply Nat.eq_of_testBit_eq
    intro i
    rw [Nat.testBit_shiftRight, Nat.testBit_shiftRight, Nat.testBit_or,
      Nat.testBit_lt_two_pow (Nat.lt_of_lt_of_le hlt (Nat.pow_le_pow_right (by decide)
        (Nat.le_add_right 32 i))), Bool.or_false]
  · show (s.ptimer.time ||| (((v &&& 0xFFFFFFE0) <<< 32) % 0x10000000000000000)) % 0x100000000
      = s.ptimer.time % 0x100000000
    have h32 : (0x100000000 : Nat) = 2 ^ 32 := by decide
    have h64 : (0x10000000000000000 : Nat) = 2 ^ 64 := by decide
    apply Nat.eq_of_testBit_eq
    intro i
    rw [h32, h64, Nat.testBit_mod_two_pow, Nat.testBit_mod_two_pow, Nat.testBit_or,
      Nat.testBit_mod_two_pow, Nat.testBit_shiftLeft]
    by_cases hi : i < 32
    · have h : ¬ (i ≥ 32) := by omega
      simp [hi, h]
    · simp [hi]

/-- C36: for every device state in which ptimer.clock_numerator or
ptimer.clock_denominator is zero, and every elapsed time, nv5_ptimer_tick
returns the device unchanged: the counter does not advance and the alarm
interrupt is not raised, whatever ptimer.time and ptimer.alarm are.  The state
left by nv5_ptimer_init on the zero-filled device is such a state, with
ptimer.time >= ptimer.alarm. -/
theorem C36_tick_without_clock_ratio_is_noop (s : nv5_t) (real_time : ℚ)
    (h : s.ptimer.clock_numerator = 0 ∨ s.ptimer.clock_denominator = 0) :
    nv5_ptimer_tick s real_time = s := by
  unfold nv5_ptimer_tick
  rw [if_pos h]

theorem C36_tick_without_clock_ratio_is_noop_witness :
    ((nv5_ptimer_init nv5_zero).ptimer.clock_numerator = 0
        ∨ (nv5_ptimer_init nv5_zero).ptimer.clock_denominator = 0)
      ∧ (nv5_ptimer_init nv5_zero).ptimer.time ≥ (nv5_ptimer_init nv5_zero).ptimer.alarm
      ∧ nv5_ptimer_tick (nv5_ptimer_init nv5_zero) 1000 = nv5_ptimer_init nv5_zero
      ∧ nv5_ptimer_tick (st_pbus_pending 3 0 false) 1000 = st_pbus_pending 3 0 false :=
  ⟨Or.inl rfl, by decide,
   C36_tick_without_clock_ratio_is_noop (nv5_ptimer_init nv5_zero) 1000 (Or.inl rfl),
   C36_tick_without_clock_ratio_is_noop (st_pbus_pending 3 0 false) 1000 (Or.inr rfl)⟩

/-- C37 (defect in the code): nv5_pramdac_write of 0x12345678 to
NV5_PRAMDAC_HBLANK_START (0x68072C) or NV5_PRAMDAC_HBLANK_END (0x680730)
followed by nv5_pramdac_read of the same register returns 0, not 0x12345678.
The two registers have cases in both fallback switches but no entry in
pramdac_registers, so for every state and value the write returns the device
unchanged and the read returns 0.  The twelve other timing registers with a
case in the switch read back the value written, for every state and value. -/
theorem C37_hblank_registers_not_in_table :
    (nv5_pramdac_read (nv5_pramdac_write nv5_zero NV5_PRAMDAC_HBLANK_START 0x12345678)
        NV5_PRAMDAC_HBLANK_START).1 = 0
      ∧ (nv5_pramdac_read (nv5_pramdac_write nv5_zero NV5_PRAMDAC_HBLANK_END 0x12345678)
          NV5_PRAMDAC_HBLANK_END).1 = 0
      ∧ (∀ r ∈ pramdac_registers,
          r.address ≠ NV5_PRAMDAC_HBLANK_START ∧ r.address ≠ NV5_PRAMDAC_HBLANK_END)
      ∧ (∀ (s : nv5_t) (v : Nat),
          nv5_pramdac_write s NV5_PRAMDAC_HBLANK_START v = s
            ∧ nv5_pramdac_write s NV5_PRAMDAC_HBLANK_END v = s
            ∧ nv5_pramdac_read s NV5_PRAMDAC_HBLANK_START = (0, s)
            ∧ nv5_pramdac_read s NV5_PRAMDAC_HBLANK_END = (0, s))
      ∧ (∀ (s : nv5_t) (v : Nat),
          ∀ a ∈ [NV5_PRAMDAC_VSERR_WIDTH, NV5_PRAMDAC_VBBLANK_END, NV5_PRAMDAC_VBLANK_END,
              NV5_PRAMDAC_VBLANK_START, NV5_PRAMDAC_VEQU_START, NV5_PRAMDAC_VTOTAL,
              NV5_PRAMDAC_HSYNC_WIDTH, NV5_PRAMDAC_HBURST_START, NV5_PRAMDAC_HBURST_END,
              NV5_PRAMDAC_HTOTAL, NV5_PRAMDAC_HEQU_WIDTH, NV5_PRAMDAC_HSERR_WIDTH],
            (nv5_pramdac_read (nv5_pramdac_write s a v) a).1 = v) := by
  refine ⟨by decide, by decide, by decide, fun s v => ⟨rfl, rfl, rfl, rfl⟩, ?_⟩
  intro s v a ha
  simp only [List.mem_cons, List.mem_singleton, List.not_mem_nil, or_false] at ha
  rcases ha with rfl | rfl | rfl | rfl | rfl | rfl | rfl | rfl | rfl | rfl | rfl | rfl <;> rfl

/-- C38, counterexample: 0x6013B6 does not satisfy
nv5_is_svga_redirect_address while its aligned word 0x6013B4 does (likewise
0xC0401 and 0xC0400).  The 8-bit read of 0x6013B6 makes no call to the SVGA
collaborator (the journal stays empty: the access goes to the arbiter), the
32-bit read of the aligned word 0x6013B4 calls it for ports 0x3B4 to 0x3B7. -/
theorem C38_counterexample :
    nv5_is_svga_redirect_address 0x6013B6 = false
      ∧ (0x6013B6 : Nat) &&& 0xFFFFFC = 0x6013B4
      ∧ nv5_is_svga_redirect_address 0x6013B4 = true
      ∧ (nv5_mmio_read8 env_journal nv5_zero 0x6013B6).2.nvbase.svga.crtc = []
      ∧ (nv5_mmio_read32 env_journal nv5_zero 0x6013B4).2.nvbase.svga.crtc
          = [0x3B4, 0x3B5, 0x3B6, 0x3B7]
      ∧ nv5_is_svga_redirect_address 0xC0401 = false
      ∧ nv5_is_svga_redirect_address (0xC0401 &&& 0xFFFFFC) = true
      ∧ (nv5_mmio_write8 env_journal nv5_zero 0xC0401 0x55).nvbase.svga.crtc = []
      ∧ (nv5_mmio_write32 env_journal nv5_zero (0xC0401 &&& 0xFFFFFC) 0x55).nvbase.svga.crtc
          = [0x0, 0x1, 0x2, 0x3] := by
  decide

/-- C38, as amended: for every 24-bit address a, if a satisfies
nv5_is_svga_redirect_address then so does the aligned address a & 0xFFFFFC;
the converse fails at exactly seven addresses (0xC0401 to 0xC0403, 0x6013B6,
0x6013B7, 0x6013D6, 0x6013D7), whose aligned word is redirected while they are
not, and away from these seven the predicate has the same value at a and at
a & 0xFFFFFC.  The 8-bit read of a redirected address is the collaborator read
of port a & 0x3FF; the 8-bit read of an address that is not redirected leaves
the device as the arbiter read of its aligned word does; and the 32-bit read of
the aligned word is that arbiter read whenever the aligned word is not
redirected. -/
theorem C38_redirect_alignment_amended (e : nv5_env) (s : nv5_t) (a : Nat)
    (ha : a < 0x1000000) :
    (nv5_is_svga_redirect_address a = true
        → nv5_is_svga_redirect_address (a &&& 0xFFFFFC) = true)
      ∧ ((nv5_is_svga_redirect_address (a &&& 0xFFFFFC) = true
            ∧ nv5_is_svga_redirect_address a = false)
          ↔ a ∈ [0xC0401, 0xC0402, 0xC0403, 0x6013B6, 0x6013B7, 0x6013D6, 0x6013D7])
      ∧ (a ∉ [0xC0401, 0xC0402, 0xC0403, 0x6013B6, 0x6013B7, 0x6013D6, 0x6013D7]
          → nv5_is_svga_redirect_address a = nv5_is_svga_redirect_address (a &&& 0xFFFFFC))
      ∧ (nv5_is_svga_redirect_address a = true
          → nv5_mmio_read8 e s a
              = ((e.nv5_svga_in s (a &&& 0x3FF)).1 % 0x100, (e.nv5_svga_in s (a &&& 0x3FF)).2))
      ∧ (nv5_is_svga_redirect_address a = false
          → (nv5_mmio_read8 e s a).2 = (nv5_mmio_arbitrate_read e s (a &&& 0xFFFFFC)).2)
      ∧ (nv5_is_svga_redirect_address (a &&& 0xFFFFFC) = false
          → nv5_mmio_read32 e s (a &&& 0xFFFFFC)
              = nv5_mmio_arbitrate_read e s (a &&& 0xFFFFFC)) := by
  have hal := and_aligned24_eq a
  have hlt : a &&& 0xFFFFFC < 0x1000000 :=
    Nat.lt_of_le_of_lt Nat.and_le_right (by decide)
  have h1 : nv5_is_svga_redirect_address a = true
      → nv5_is_svga_redirect_address (a &&& 0xFFFFFC) = true := by
    unfold nv5_is_svga_redirect_address
    simp only [decide_eq_true_eq, NV5_PRMVIO_START, NV5_VGA_START, NV5_PRMVIO_END,
      NV5_PRMCIO_CRTC_REGISTER_CUR_COLOR, NV5_PRMCIO_CRTC_REGISTER_CUR_INDEX_COLOR,
      NV5_PRMCIO_CRTC_REGISTER_CUR_MONO, NV5_PRMCIO_CRTC_REGISTER_CUR_INDEX_MONO]
    omega
  have h2 : (nv5_is_svga_redirect_address (a &&& 0xFFFFFC) = true
        ∧ nv5_is_svga_redirect_address a = false)
      ↔ a ∈ [0xC0401, 0xC0402, 0xC0403, 0x6013B6, 0x6013B7, 0x6013D6, 0x6013D7] := by
    unfold nv5_is_svga_redirect_address
    simp only [decide_eq_true_eq, decide_eq_false_iff_not, NV5_PRMVIO_START, NV5_VGA_START,
      NV5_PRMVIO_END, NV5_PRMCIO_CRTC_REGISTER_CUR_COLOR,
      NV5_PRMCIO_CRTC_REGISTER_CUR_INDEX_COLOR, NV5_PRMCIO_CRTC_REGISTER_CUR_MONO,
      NV5_PRMCIO_CRTC_REGISTER_CUR_INDEX_MONO, List.mem_cons, List.mem_singleton,
      List.not_mem_nil, or_false]
    constructor
    · intro h
      omega
    · intro h
      omega
  refine ⟨h1, h2, ?_, ?_, ?_, ?_⟩
  · intro hn
    cases hr : nv5_is_svga_redirect_address a
    · cases hr2 : nv5_is_svga_redirect_address (a &&& 0xFFFFFC)
      · rfl
      · exact absurd (h2.1 ⟨hr2, hr⟩) hn
    · exact (h1 hr).symm
  · intro hr
    unfold nv5_mmio_read8
    simp only [and_mask24_of_lt a ha, hr, if_true]
  · intro hr
    unfold nv5_mmio_read8
    simp only [and_mask24_of_lt a ha, hr, mmio_read32_of_not_redirect e s a ha hr,
      arbitrate_read_aligned]
    rfl
  · intro hr
    exact mmio_read32_of_not_redirect e s (a &&& 0xFFFFFC) hlt hr

theorem C38_redirect_alignment_amended_witness :
    (0x6013B5 : Nat) < 0x1000000
      ∧ nv5_is_svga_redirect_address 0x6013B5 = true
      ∧ nv5_is_svga_redirect_address (0x6013B5 &&& 0xFFFFFC) = true
      ∧ (nv5_mmio_read8 env_journal nv5_zero 0x6013B5).2.nvbase.svga.crtc = [0x3B5]
      ∧ nv5_is_svga_redirect_address (0x6013B7 &&& 0xFFFFFC) = true
      ∧ nv5_is_svga_redirect_address 0x6013B7 = false :=
  ⟨by decide, by decide,
   (C38_redirect_alignment_amended env_journal nv5_zero 0x6013B5 (by decide)).1 (by decide),
   by
    rw [(C38_redirect_alignment_amended env_journal nv5_zero 0x6013B5
      (by decide)).2.2.2.1 (by decide)]
    decide,
   ((C38_redirect_alignment_amended env_journal nv5_zero 0x6013B7 (by decide)).2.1.2
      (by decide)).1,
   ((C38_redirect_alignment_amended env_journal nv5_zero 0x6013B7 (by decide)).2.1.2
      (by decide)).2⟩

/-- C39: for every device state (whatever the mode byte m = pbus.rma.mode),
every i in 0..3, every value and every pair of shifter functions: if bit 0 of m
is set, nv5_svga_in of I/O port 0x3D0 + i is the shifter read of RMA port
((m & 0x0E) << 1) + i and nv5_svga_out of the same I/O port is the shifter
write of the stored byte to the same RMA port, made on the device with the
byte saved in rma_regs[i]; with m = 1 the RMA port is i (ports 0-3) and with
m = 5 it is 8 + i (ports 8-0xB).  If bit 0 of m is clear, the read returns 0
and leaves the device unchanged, and the write changes nothing except
rma_regs[i], which holds the byte written: the address and data accumulators
and the mode are as before. -/
theorem C39_rma_port_forwarding (e : nv5_env) (rma_read : nv5_t → Nat → Nat × nv5_t)
    (rma_write : nv5_t → Nat → Nat → nv5_t) (s : nv5_t) (i v : Nat) (hi : i < 4) :
    (s.pbus.rma.mode &&& 0x01 ≠ 0 →
        nv5_svga_in e rma_read s (0x3D0 + i)
            = ((rma_read s (((s.pbus.rma.mode &&& 0x0E) <<< 1) + i)).1 % 0x100,
               (rma_read s (((s.pbus.rma.mode &&& 0x0E) <<< 1) + i)).2)
          ∧ nv5_svga_out e rma_write s (0x3D0 + i) v
            = rma_write
                { s with pbus := { s.pbus with rma := { s.pbus.rma with
                    rma_regs := array_set s.pbus.rma.rma_regs i (v % 0x100) } } }
                (((s.pbus.rma.mode &&& 0x0E) <<< 1) + i) (v % 0x100))
      ∧ (s.pbus.rma.mode = 1 → ((s.pbus.rma.mode &&& 0x0E) <<< 1) + i = i)
      ∧ (s.pbus.rma.mode = 5 → ((s.pbus.rma.mode &&& 0x0E) <<< 1) + i = 8 + i)
      ∧ (s.pbus.rma.mode &&& 0x01 = 0 →
          nv5_svga_in e rma_read s (0x3D0 + i) = (0, s)
            ∧ nv5_svga_out e rma_write s (0x3D0 + i) v
              = { s with pbus := { s.pbus with rma := { s.pbus.rma with
                    rma_regs := array_set s.pbus.rma.rma_regs i (v % 0x100) } } }
            ∧ (nv5_svga_out e rma_write s (0x3D0 + i) v).pbus.rma.addr = s.pbus.rma.addr
            ∧ (nv5_svga_out e rma_write s (0x3D0 + i) v).pbus.rma.data = s.pbus.rma.data
            ∧ (nv5_svga_out e rma_write s (0x3D0 + i) v).pbus.rma.mode = s.pbus.rma.mode
            ∧ array_get (nv5_svga_out e rma_write s (0x3D0 + i) v).pbus.rma.rma_regs i
              = v % 0x100) := by
  have hcases : i = 0 ∨ i = 1 ∨ i = 2 ∨ i = 3 := by omega
  have hin : ∀ m : Nat, m &&& 0x01 ≠ 0 →
      s.pbus.rma.mode = m →
      nv5_svga_in e rma_read s (0x3D0 + i)
          = ((rma_read s (((m &&& 0x0E) <<< 1) + i)).1 % 0x100,
             (rma_read s (((m &&& 0x0E) <<< 1) + i)).2) := by
    intro m hm hs
    rcases hcases with rfl | rfl | rfl | rfl <;>
      · unfold nv5_svga_in
        simp only [hs, hm, NV5_RMA_REGISTER_START, NV5_RMA_REGISTER_END,
          NV5_CRTC_REGISTER_RMA_MODE_MAX]
        rfl
  have hout : nv5_svga_out e rma_write s (0x3D0 + i) v
      = if s.pbus.rma.mode &&& 0x01 = 0 then
          { s with pbus := { s.pbus with rma := { s.pbus.rma with
              rma_regs := array_set s.pbus.rma.rma_regs i (v % 0x100) } } }
        else rma_write
          { s with pbus := { s.pbus with rma := { s.pbus.rma with
              rma_regs := array_set s.pbus.rma.rma_regs i (v % 0x100) } } }
          (((s.pbus.rma.mode &&& 0x0E) <<< 1) + i)
          (array_get (array_set s.pbus.rma.rma_regs i (v % 0x100)) i) := by
    rcases hcases with rfl | rfl | rfl | rfl <;> rfl
  refine ⟨?_, ?_, ?_, ?_⟩
  · intro hm
    refine ⟨hin _ hm rfl, ?_⟩
    rw [hout, if_neg hm, array_get_set]
  · intro hm
    rw [hm]
    have h : ((1 : Nat) &&& 0x0E) <<< 1 = 0 := by decide
    rw [h, Nat.zero_add]
  · intro hm
    rw [hm]
    have h : ((5 : Nat) &&& 0x0E) <<< 1 = 8 := by decide
    rw [h]
  · intro hm
    have hsin : nv5_svga_in e rma_read s (0x3D0 + i) = (0, s) := by
      rcases hcases with rfl | rfl | rfl | rfl <;>
        · unfold nv5_svga_in
          simp only [hm, NV5_RMA_REGISTER_START, NV5_RMA_REGISTER_END]
          rfl
    refine ⟨hsin, ?_, ?_, ?_, ?_, ?_⟩
    · rw [hout, if_pos hm]
    · rw [hout, if_pos hm]
    · rw [hout, if_pos hm]
    · rw [hout, if_pos hm]
    · rw [hout, if_pos hm]
      exact array_get_set _ _ _

theorem C39_rma_port_forwarding_witness :
    (2 : Nat) < 4
      ∧ (st_rma 1 0).pbus.rma.mode &&& 0x01 ≠ 0
      ∧ nv5_svga_in env_quiet (nv5_pbus_rma_read env_quiet) (st_rma 1 0) (0x3D0 + 2)
          = (0x16, st_rma 1 0)
      ∧ (st_rma 4 0).pbus.rma.mode &&& 0x01 = 0
      ∧ nv5_svga_in env_quiet (nv5_pbus_rma_read env_quiet) (st_rma 4 0) (0x3D0 + 2)
          = (0, st_rma 4 0)
      ∧ (nv5_svga_out env_quiet (nv5_pbus_rma_write env_quiet) (st_rma 4 0) (0x3D0 + 2)
          0x7F).pbus.rma.addr = 0 :=
  ⟨by decide, by decide,
   ((C39_rma_port_forwarding env_quiet (nv5_pbus_rma_read env_quiet)
      (nv5_pbus_rma_write env_quiet) (st_rma 1 0) 2 0 (by decide)).1 (by decide)).1.trans
      (by decide),
   by decide,
   ((C39_rma_port_forwarding env_quiet (nv5_pbus_rma_read env_quiet)
      (nv5_pbus_rma_write env_quiet) (st_rma 4 0) 2 0 (by decide)).2.2.2 (by decide)).1,
   ((C39_rma_port_forwarding env_quiet (nv5_pbus_rma_read env_quiet)
      (nv5_pbus_rma_write env_quiet) (st_rma 4 0) 2 0x7F (by decide)).2.2.2
      (by decide)).2.2.1.trans (by decide)⟩

/-- C40 (defect in the code): nv5_ramht_hash of the name 0x12345678 on channel
0 is 0, not 0x12 ^ 0x34 ^ 0x56 ^ 0x78 = 0x08, and the names 0x00000001 and
0x00000002, whose byte-XORs differ, hash to the same slot on channel 0.  The
four uint8_t members of the name union all lie at offset 0, so the same byte
is XORed four times and cancels: for every name and channel the hash is the
low byte of the channel. -/
theorem C40_ramht_hash_ignores_name :
    nv5_ramht_hash { name := 0x12345678 } 0 = 0
      ∧ spec_ramht_hash 0x12345678 0 = 0x08
      ∧ spec_ramht_hash 0x00000001 0 ≠ spec_ramht_hash 0x00000002 0
      ∧ nv5_ramht_hash { name := 0x00000001 } 0 = nv5_ramht_hash { name := 0x00000002 } 0
      ∧ ∀ (name : nv5_pramin_name_t) (channel : Nat),
          nv5_ramht_hash name channel = channel % 0x100 := by
  refine ⟨by decide, by decide, by decide, by decide, ?_⟩
  intro name channel
  unfold nv5_ramht_hash nv5_pramin_name_t.byte_high nv5_pramin_name_t.byte_mid2
    nv5_pramin_name_t.byte_mid1 nv5_pramin_name_t.byte_low
  simp only [Nat.xor_self, Nat.zero_xor]
  exact Nat.mod_eq_of_lt (Nat.lt_trans (Nat.mod_lt _ (by decide)) (by decide))

end NV5
